import Mathlib

/-!
# ReviveXR: the Legacy-API entry points of `REV_CAPI.cpp`

A shallow embedding of the frame pipeline, the session status pump, the
recentering entry points and the layer translator of `ReviveXR/REV_CAPI.cpp`,
followed by theorems about them.

Conventions of the embedding.

* A pointer the code tests against null is an `Option`; a pointer the code
  dereferences without a test is the value it points at.
* `float` values are exact rationals (`ℚ`); nothing below depends on rounding.
* `long long` arithmetic wraps modulo `2^64` (`wrapInt64`); theorems that need
  the mathematical value carry an explicit no-overflow bound.
* The Target API (OpenXR runtime) is an oracle `XrRuntime`: every entry point
  is a function of the trace of Target-API calls made so far and of the call's
  arguments.  Since the trace grows with every call, any sequence of responses
  is the behaviour of some oracle.
-/

set_option linter.unusedVariables false
set_option autoImplicit false

namespace Revive

/-! ## Value types of the two APIs -/

/-- Legacy `ovrVector2i`. -/
structure ovrVector2i where
  x : Int
  y : Int
deriving DecidableEq, Repr

/-- Legacy `ovrSizei`. -/
structure ovrSizei where
  w : Int
  h : Int
deriving DecidableEq, Repr

/-- Legacy `ovrRecti`. -/
structure ovrRecti where
  Pos : ovrVector2i
  Size : ovrSizei
deriving DecidableEq, Repr

/-- Target-API `XrOffset2Di`. -/
structure XrOffset2Di where
  x : Int
  y : Int
deriving DecidableEq, Repr

/-- Target-API `XrExtent2Di`. -/
structure XrExtent2Di where
  width : Int
  height : Int
deriving DecidableEq, Repr

/-- Target-API `XrRect2Di`. -/
structure XrRect2Di where
  offset : XrOffset2Di
  extent : XrExtent2Di
deriving DecidableEq, Repr

/-- Legacy `ovrFovPort`: the four side tangents. -/
structure ovrFovPort where
  UpTan : ℚ
  DownTan : ℚ
  LeftTan : ℚ
  RightTan : ℚ
deriving DecidableEq

/-- Legacy `ovrQuatf`. -/
structure ovrQuatf where
  x : ℚ
  y : ℚ
  z : ℚ
  w : ℚ
deriving DecidableEq

/-- Legacy `ovrVector3f`. -/
structure ovrVector3f where
  x : ℚ
  y : ℚ
  z : ℚ
deriving DecidableEq

/-- Legacy `ovrVector2f`. -/
structure ovrVector2f where
  x : ℚ
  y : ℚ
deriving DecidableEq

/-- Legacy `ovrPosef`; `XrPosef` has the same two members and `XR::Posef`
converts between them member by member. -/
structure ovrPosef where
  Orientation : ovrQuatf
  Position : ovrVector3f
deriving DecidableEq

/-- Legacy `ovrMatrix4f`, row-major. -/
structure ovrMatrix4f where
  M : Fin 4 → Fin 4 → ℚ

/-- The identity pose. -/
def ovrPosef.identity : ovrPosef := ⟨⟨0, 0, 0, 1⟩, ⟨0, 0, 0⟩⟩

/-! ## Swapchains (`SwapChain.h`) -/

/-- Target-API handles are opaque numbers; `0` is `XR_NULL_HANDLE`. -/
abbrev XrSwapchain := Nat

/-- Target-API space handle. -/
abbrev XrSpace := Nat

/-- Target-API session handle. -/
abbrev XrSession := Nat

/-- Legacy `ovrTextureSwapChainDesc`, the members the translation unit reads. -/
structure ovrTextureSwapChainDesc where
  Width : Int
  Height : Int
  StaticImage : Bool
deriving DecidableEq, Repr

/-- The graphics binding of a chain's image array, read through
`chain->Images->type`. -/
inductive XrSwapchainImageType where
  | XR_TYPE_SWAPCHAIN_IMAGE_OPENGL_KHR
  | otherBinding
deriving DecidableEq, Repr

/-- The object an `ovrTextureSwapChain` points at (`ovrTextureSwapChainData`,
declared in `SwapChain.h`). -/
structure ovrTextureSwapChainData where
  Desc : ovrTextureSwapChainDesc
  Swapchain : XrSwapchain
  Images : XrSwapchainImageType
  CurrentIndex : Nat
  Length : Nat
deriving DecidableEq, Repr

/-! ## Viewport clamping -/

/-- Modelled from the spec: `OVR::Vector2i::Max` of `OVR_Math.h`, which is not
among the sources; the componentwise maximum, written with the comparisons of
a C++ conditional expression. -/
def Vector2i_Max (a b : ovrVector2i) : ovrVector2i :=
  ⟨if a.x > b.x then a.x else b.x, if a.y > b.y then a.y else b.y⟩

/-- Modelled from the spec: `OVR::Sizei::Min` of `OVR_Math.h`, which is not
among the sources; the componentwise minimum. -/
def Sizei_Min (a b : ovrSizei) : ovrSizei :=
  ⟨if a.w < b.w then a.w else b.w, if a.h < b.h then a.h else b.h⟩

/-- The constructor `XR::Recti(pos, size)`: an `XrRect2Di` with that offset and
extent. -/
def XR_Recti (pos : ovrVector2i) (size : ovrSizei) : XrRect2Di :=
  ⟨⟨pos.x, pos.y⟩, ⟨size.w, size.h⟩⟩

/-- The lambda `ClampRect` of `ovr_EndFrame`. -/
def ClampRect (rect : ovrRecti) (chain : ovrTextureSwapChainData) : XrRect2Di :=
  let chainSize : ovrSizei := ⟨chain.Desc.Width, chain.Desc.Height⟩
  if rect.Size.w ≤ 0 ∨ rect.Size.h ≤ 0 then
    XR_Recti (Vector2i_Max rect.Pos ⟨0, 0⟩) chainSize
  else
    XR_Recti (Vector2i_Max rect.Pos ⟨0, 0⟩) (Sizei_Min rect.Size chainSize)

/-- The viewport rule in the words of the specification: the offset is the
componentwise `max(pos, (0,0))`; the extent is the chain size when the legacy
size is `≤ 0` on either axis and the componentwise `min(size, chainSize)`
otherwise. -/
def ClampRect_spec (pos : ovrVector2i) (size : ovrSizei) (chainW chainH : Int) :
    XrRect2Di :=
  { offset := ⟨max pos.x 0, max pos.y 0⟩
    extent :=
      if size.w ≤ 0 ∨ size.h ≤ 0 then ⟨chainW, chainH⟩
      else ⟨min size.w chainW, min size.h chainH⟩ }

/-- Reading a Target-API rectangle back as a legacy viewport (offset as `Pos`,
extent as `Size`), so that a clamped rectangle can be clamped again. -/
def XrRect2Di.toRecti (r : XrRect2Di) : ovrRecti :=
  ⟨⟨r.offset.x, r.offset.y⟩, ⟨r.extent.width, r.extent.height⟩⟩

/-- A chain of the given size; the other members do not enter `ClampRect`. -/
def chainOfSize (w h : Int) : ovrTextureSwapChainData :=
  { Desc := ⟨w, h, false⟩, Swapchain := 1, Images := .otherBinding,
    CurrentIndex := 0, Length := 1 }

/-! ## Result codes -/

/-- Target-API `XrResult`: negative values are failures. -/
abbrev XrResult := Int

/-- Target-API `XR_SUCCESS`. -/
def XR_SUCCESS : XrResult := 0

/-- Target-API macro `XR_FAILED(result)`, that is `(result) < 0`. -/
def XR_FAILED (result : XrResult) : Bool := decide (result < 0)

/-- Target-API macro `XR_SUCCEEDED(result)`, that is `(result) >= 0`. -/
def XR_SUCCEEDED (result : XrResult) : Bool := decide (0 ≤ result)

/-- Modelled from the spec: the legacy result codes (`OVR_ErrorCode.h`) and the
table `ResultToOvrResult` (`Common.h`), which are not among the sources.  The
named codes are the kinds of section 7 of the specification and
`ovrError_NoExternalCameraInfo`, which the source names; `runtimeFailure xr`
is the legacy code the table gives to the failed Target-API result `xr`
("propagation of any Target API failure"). -/
inductive ovrResult where
  | ovrSuccess
  | ovrError_InvalidSession
  | ovrError_InvalidParameter
  | ovrError_InvalidHeadsetOrientation
  | ovrError_Unsupported
  | ovrError_ServiceError
  | ovrError_NoExternalCameraInfo
  | runtimeFailure (xr : XrResult)
deriving DecidableEq, Repr

export ovrResult (ovrSuccess ovrError_InvalidSession ovrError_InvalidParameter
  ovrError_InvalidHeadsetOrientation ovrError_Unsupported ovrError_ServiceError
  ovrError_NoExternalCameraInfo)

/-- Modelled from the spec: `ResultToOvrResult` of `Common.h`, applied by
`CHK_XR` to a failed Target-API result. -/
def ResultToOvrResult (xr : XrResult) : ovrResult :=
  if xr = XR_SUCCESS then ovrSuccess else ovrResult.runtimeFailure xr

/-- Legacy macro `OVR_FAILURE(result)`. -/
def OVR_FAILURE (result : ovrResult) : Bool := decide (result ≠ ovrSuccess)

/-- The value of a `long long` expression: two's-complement wrap to 64 bits. -/
def wrapInt64 (x : Int) : Int := (x + 2 ^ 63) % 2 ^ 64 - 2 ^ 63

/-! ## Session data (`Session.h`) -/

/-- Target-API `XrFrameState`, as written by `xrWaitFrame`. -/
structure XrFrameState where
  predictedDisplayTime : Int
  predictedDisplayPeriod : Int
  shouldRender : Bool
deriving DecidableEq, Repr

/-- A frame slot: `XrIndexedFrameState` is an `XrFrameState` with the frame
index the core assigns. -/
structure XrIndexedFrameState extends XrFrameState where
  frameIndex : Int
deriving DecidableEq, Repr

/-- The latched status bit-set `SessionStatusBits`. -/
structure SessionStatusBits where
  HmdPresent : Bool
  HmdMounted : Bool
  IsVisible : Bool
  HasInputFocus : Bool
  DisplayLost : Bool
  ShouldQuit : Bool
  ShouldRecenter : Bool
  OverlayPresent : Bool
deriving DecidableEq, Repr

/-- Target-API `XrReferenceSpaceType`. -/
abbrev XrReferenceSpaceType := Int

/-- Target-API `XR_REFERENCE_SPACE_TYPE_VIEW`. -/
def XR_REFERENCE_SPACE_TYPE_VIEW : XrReferenceSpaceType := 1

/-- Target-API `XR_REFERENCE_SPACE_TYPE_LOCAL`. -/
def XR_REFERENCE_SPACE_TYPE_LOCAL : XrReferenceSpaceType := 2

/-- Target-API `XR_REFERENCE_SPACE_TYPE_STAGE`. -/
def XR_REFERENCE_SPACE_TYPE_STAGE : XrReferenceSpaceType := 3

/-- The object representation of a structure: its bytes by offset. -/
abbrev Bytes := Nat → UInt8

/-- The input subsystem behind `session->Input` (`InputManager.h`, not among the
sources), by the one method used here: `GetInputState` receives the controller
type and the bytes of the caller's `ovrInputState`, and returns its result and
the bytes it leaves there. -/
structure InputManager where
  GetInputState : Nat → Bytes → ovrResult × Bytes

/-- The session object `ovrHmdStruct`, the members this translation unit uses.
`FrameStats` is the ring of frame slots by position and `CurrentFrame` the
position the pointer of that name points at; `Input` is the pointer to the
input subsystem, `none` when null. -/
structure ovrHmdStruct where
  Input : Option InputManager
  Session : XrSession
  ViewSpace : XrSpace
  LocalSpace : XrSpace
  StageSpace : XrSpace
  TrackingSpace : XrReferenceSpaceType
  CalibratedOrigin : ovrPosef
  SessionStatus : SessionStatusBits
  FrameStats : Nat → XrIndexedFrameState
  CurrentFrame : Nat
  AcquiredChains : List XrSwapchain

/-- An `ovrSession` argument: the null pointer, or a pointer to the session
object of the state. -/
inductive ovrSession where
  | null
  | valid
deriving DecidableEq, Repr

/-- The process-global `Runtime::Get()` record, the members read here. -/
structure Runtime where
  MinorVersion : Int
  CompositionDepth : Bool
  CompositionCylinder : Bool
  CompositionCube : Bool
deriving DecidableEq, Repr

/-! ## Legacy layers (`OVR_CAPI.h`) -/

/-- Legacy `ovrLayerType`; `unknown` stands for any value that is none of the
named constants. -/
inductive ovrLayerType where
  | ovrLayerType_Disabled
  | ovrLayerType_EyeFov
  | ovrLayerType_EyeFovDepth
  | ovrLayerType_Quad
  | ovrLayerType_EyeMatrix
  | ovrLayerType_EyeFovMultires
  | ovrLayerType_Cylinder
  | ovrLayerType_Cube
  | unknown (value : Int)
deriving DecidableEq, Repr

export ovrLayerType (ovrLayerType_Disabled ovrLayerType_EyeFov ovrLayerType_EyeFovDepth
  ovrLayerType_Quad ovrLayerType_EyeMatrix ovrLayerType_EyeFovMultires
  ovrLayerType_Cylinder ovrLayerType_Cube)

/-- Legacy `ovrLayerHeader`: `Type_` is the member `Type`, and `Flags` is
represented by the two bits the code tests,
`Flags & ovrLayerFlag_TextureOriginAtBottomLeft` and
`Flags & ovrLayerFlag_HeadLocked`. -/
structure ovrLayerHeader where
  Type_ : ovrLayerType
  TextureOriginAtBottomLeft : Bool
  HeadLocked : Bool
deriving DecidableEq, Repr

/-- The number of eyes, `ovrEye_Count`. -/
def ovrEye_Count : Nat := 2

/-- Legacy `ovrLayerEyeFov`; the per-eye arrays are indexed by eye. -/
structure ovrLayerEyeFov where
  ColorTexture : Nat → Option ovrTextureSwapChainData
  Viewport : Nat → ovrRecti
  Fov : Nat → ovrFovPort
  RenderPose : Nat → ovrPosef

/-- Legacy `ovrTimewarpProjectionDesc`. -/
structure ovrTimewarpProjectionDesc where
  Projection22 : ℚ
  Projection23 : ℚ
  Projection32 : ℚ

/-- Legacy `ovrLayerEyeFovDepth`, the members read through
`layer->EyeFovDepth`.  `DepthTexture[i]` is dereferenced without a test. -/
structure ovrLayerEyeFovDepth where
  Viewport : Nat → ovrRecti
  DepthTexture : Nat → ovrTextureSwapChainData
  ProjectionDesc : ovrTimewarpProjectionDesc

/-- Legacy `ovrLayerEyeMatrix`, the members read through `layer->EyeMatrix`. -/
structure ovrLayerEyeMatrix where
  RenderPose : Nat → ovrPosef
  Matrix : Nat → ovrMatrix4f

/-- Legacy `ovrLayerQuad`. -/
structure ovrLayerQuad where
  ColorTexture : Option ovrTextureSwapChainData
  Viewport : ovrRecti
  QuadPoseCenter : ovrPosef
  QuadSize : ovrVector2f

/-- Legacy `ovrLayerCylinder`. -/
structure ovrLayerCylinder where
  ColorTexture : Option ovrTextureSwapChainData
  Viewport : ovrRecti
  CylinderPoseCenter : ovrPosef
  CylinderRadius : ℚ
  CylinderAngle : ℚ
  CylinderAspectRatio : ℚ

/-- Legacy `ovrLayerCube`. -/
structure ovrLayerCube where
  Orientation : ovrQuatf
  CubeMapTexture : Option ovrTextureSwapChainData

/-- Legacy `ovrLayer_Union`: the header, and the layer's memory as each member
of the union reads it.  The members are those the code reads after it has moved
the pointer back over the reserved bytes for a client older than 1.25; the
header is the one read before that move. -/
structure ovrLayer_Union where
  Header : ovrLayerHeader
  EyeFov : ovrLayerEyeFov
  EyeFovDepth : ovrLayerEyeFovDepth
  EyeMatrix : ovrLayerEyeMatrix
  Quad : ovrLayerQuad
  Cylinder : ovrLayerCylinder
  Cube : ovrLayerCube

/-- Legacy `ovrViewScaleDesc`, the member `ovr_EndFrame` reads. -/
structure ovrViewScaleDesc where
  HmdSpaceToWorldScaleInMeters : ℚ

/-! ## Composition layers (Target API) -/

/-- Target-API `XrSwapchainSubImage`. -/
structure XrSwapchainSubImage where
  swapchain : XrSwapchain
  imageRect : XrRect2Di
  imageArrayIndex : Nat
deriving DecidableEq

/-- Target-API `XrCompositionLayerDepthInfoKHR`. -/
structure XrCompositionLayerDepthInfoKHR where
  subImage : XrSwapchainSubImage
  minDepth : ℚ
  maxDepth : ℚ
  nearZ : ℚ
  farZ : ℚ
deriving DecidableEq

/-- The value a view's `fov` is converted from: `XR::FovPort` converts a legacy
port and `XR::Matrix4f` a projection matrix (`XR_Math.h`, not among the sources,
holds the conversions, so the angles are kept as their source). -/
inductive XrFovSource where
  | ofFovPort (fov : ovrFovPort)
  | ofMatrix (matrix : ovrMatrix4f)

/-- Target-API `XrFovf` of a projection view: the source of the four angles and
whether `angleUp` and `angleDown` have been swapped. -/
structure XrFovf where
  source : XrFovSource
  upDownSwapped : Bool

/-- Target-API `XrCompositionLayerProjectionView`; `next` is the chained depth
block, if any. -/
structure XrCompositionLayerProjectionView where
  pose : ovrPosef
  fov : XrFovf
  subImage : XrSwapchainSubImage
  next : Option XrCompositionLayerDepthInfoKHR

/-- The type-specific part of an `XrCompositionLayerUnion`. -/
inductive XrCompositionLayerBody where
  | Projection (views : List XrCompositionLayerProjectionView)
  | Quad (subImage : XrSwapchainSubImage) (pose : ovrPosef) (size : ovrVector2f)
  | Cylinder (subImage : XrSwapchainSubImage) (pose : ovrPosef)
      (radius centralAngle aspectRatio : ℚ)
  | Cube (swapchain : XrSwapchain) (imageArrayIndex : Nat) (orientation : ovrQuatf)

/-- Target-API `XrCompositionLayerFlags` bit
`XR_COMPOSITION_LAYER_BLEND_TEXTURE_SOURCE_ALPHA_BIT`. -/
def XR_COMPOSITION_LAYER_BLEND_TEXTURE_SOURCE_ALPHA_BIT : Nat := 2

/-- `XrCompositionLayerUnion`: the common header members `layerFlags` and
`space`, and the body of the member that was filled in. -/
structure XrCompositionLayerUnion where
  layerFlags : Nat
  space : XrSpace
  body : XrCompositionLayerBody

/-- Target-API `XrEnvironmentBlendMode`. -/
inductive XrEnvironmentBlendMode where
  | XR_ENVIRONMENT_BLEND_MODE_OPAQUE
  | XR_ENVIRONMENT_BLEND_MODE_ADDITIVE
  | XR_ENVIRONMENT_BLEND_MODE_ALPHA_BLEND
deriving DecidableEq, Repr

/-- Target-API `XrFrameEndInfo`; `layers` is the array of `layerCount`
pointers. -/
structure XrFrameEndInfo where
  displayTime : Int
  environmentBlendMode : XrEnvironmentBlendMode
  layers : List XrCompositionLayerUnion

/-! ## The Target API -/

/-- Target-API `XrSpaceLocation`. -/
structure XrSpaceLocation where
  locationFlags : Nat
  pose : ovrPosef
deriving DecidableEq

/-- Target-API `XR_SPACE_LOCATION_ORIENTATION_VALID_BIT`. -/
def XR_SPACE_LOCATION_ORIENTATION_VALID_BIT : Nat := 1

/-- Target-API `XR_SPACE_LOCATION_POSITION_VALID_BIT`. -/
def XR_SPACE_LOCATION_POSITION_VALID_BIT : Nat := 2

/-- Target-API `XrReferenceSpaceCreateInfo`. -/
structure XrReferenceSpaceCreateInfo where
  referenceSpaceType : XrReferenceSpaceType
  poseInReferenceSpace : ovrPosef
deriving DecidableEq

/-- Target-API `XR_NO_DURATION`. -/
def XR_NO_DURATION : Int := 0

/-- One call of the Target API, with the arguments the core passes. -/
inductive XrCall where
  | xrPollEvent
  | xrLocateSpace (space baseSpace : XrSpace) (time : Int)
  | xrCreateReferenceSpace (session : XrSession) (createInfo : XrReferenceSpaceCreateInfo)
  | xrDestroySpace (space : XrSpace)
  | xrWaitFrame (session : XrSession)
  | xrBeginFrame (session : XrSession)
  | xrEndFrame (session : XrSession) (frameEndInfo : XrFrameEndInfo)
  | xrWaitSwapchainImage (swapchain : XrSwapchain) (timeout : Int)
  | xrReleaseSwapchainImage (swapchain : XrSwapchain)
  | xrAcquireSwapchainImage (swapchain : XrSwapchain)
  | xrDestroySwapchain (swapchain : XrSwapchain)
  | xrGetReferenceSpaceBoundsRect (session : XrSession)
      (referenceSpaceType : XrReferenceSpaceType)
  | xrConvertTimeToWin32PerformanceCounterKHR (time : Int)

/-- Target-API `XrExtent2Df`. -/
structure XrExtent2Df where
  width : ℚ
  height : ℚ
deriving DecidableEq

/-- The Target-API runtime as an oracle.  Each entry point receives the calls
made before it and its arguments; an entry point with an output parameter also
receives what the parameter holds and returns what it holds afterwards. -/
structure XrRuntime where
  xrLocateSpace : List XrCall → XrSpace → XrSpace → Int → XrSpaceLocation →
    XrResult × XrSpaceLocation
  xrCreateReferenceSpace : List XrCall → XrSession → XrReferenceSpaceCreateInfo → XrSpace →
    XrResult × XrSpace
  xrDestroySpace : List XrCall → XrSpace → XrResult
  xrWaitFrame : List XrCall → XrSession → XrFrameState → XrResult × XrFrameState
  xrBeginFrame : List XrCall → XrSession → XrResult
  xrEndFrame : List XrCall → XrSession → XrFrameEndInfo → XrResult
  xrWaitSwapchainImage : List XrCall → XrSwapchain → Int → XrResult
  xrReleaseSwapchainImage : List XrCall → XrSwapchain → XrResult
  xrAcquireSwapchainImage : List XrCall → XrSwapchain → Nat → XrResult × Nat
  xrDestroySwapchain : List XrCall → XrSwapchain → XrResult
  xrGetReferenceSpaceBoundsRect : List XrCall → XrSession → XrReferenceSpaceType →
    XrResult × XrExtent2Df
  xrConvertTimeToWin32PerformanceCounterKHR : List XrCall → Int → XrResult × Int

/-- The pose operations of `OVR_Math.h` used by the recentering code.  The
header is not among the sources, so they are parameters: `mul` is
`OVR::Posef::operator*`, `GetYaw` the yaw of `Quatf::GetYawPitchRoll`,
`QuatAxisY yaw` is `OVR::Quatf(OVR::Axis_Y, yaw)` and `Normalized` is
`OVR::Posef::Normalized`. -/
structure PoseMath where
  mul : ovrPosef → ovrPosef → ovrPosef
  GetYaw : ovrQuatf → ℚ
  QuatAxisY : ℚ → ovrQuatf
  Normalized : ovrPosef → ovrPosef

/-- The plane-vector operations of `OVR_Math.h` used by the boundary test.  The
header is not among the sources, so its square root and the default tolerance
of `Vector2f::Compare` are parameters. -/
structure VectorMath where
  sqrt : ℚ → ℚ
  Tolerance : ℚ

/-- The sizes in bytes of the three shapes of the legacy input state:
`sizeof(ovrInputState1)`, `sizeof(ovrInputState2)` and `sizeof(ovrInputState)`,
fixed by the compiler and by `OVR_CAPI.h`. -/
structure InputStateLayout where
  sizeofInputState1 : Nat
  sizeofInputState2 : Nat
  sizeofInputState : Nat
deriving DecidableEq, Repr

/-- What the entry points depend on beside their arguments and the state: the
Target-API runtime, the pose operations, the `Runtime::Get()` record, and the
constant `ovrMaxProvidedFrameStats` of `OVR_CAPI.h` (the number of slots of the
frame ring), which is not among the sources; further the plane-vector
operations, the sizes of the input-state structures, and the value
`QueryPerformanceFrequency` reports. -/
structure Env where
  xr : XrRuntime
  math : PoseMath
  runtime : Runtime
  ovrMaxProvidedFrameStats : Nat
  vmath : VectorMath
  layout : InputStateLayout
  perfFrequency : Int

/-- The process state: the session object an `ovrSession` points at, and the
Target-API calls made so far, oldest first. -/
structure World where
  hmd : ovrHmdStruct
  calls : List XrCall

/-! ## Session status (`ovr_GetSessionStatus`) -/

/-- Target-API `XrSessionState`; `otherState` is any value the `switch` of
`ovr_GetSessionStatus` has no case for. -/
inductive XrSessionState where
  | XR_SESSION_STATE_IDLE
  | XR_SESSION_STATE_READY
  | XR_SESSION_STATE_SYNCHRONIZED
  | XR_SESSION_STATE_VISIBLE
  | XR_SESSION_STATE_FOCUSED
  | XR_SESSION_STATE_STOPPING
  | XR_SESSION_STATE_LOSS_PENDING
  | XR_SESSION_STATE_EXITING
  | otherState (value : Int)
deriving DecidableEq, Repr

/-- An event delivered by `xrPollEvent`, by its `type`; `otherEvent` is an
event of any type the `switch` has no case for. -/
inductive XrEventDataBuffer where
  | XR_TYPE_EVENT_DATA_SESSION_STATE_CHANGED (session : XrSession) (state : XrSessionState)
  | XR_TYPE_EVENT_DATA_INSTANCE_LOSS_PENDING
  | XR_TYPE_EVENT_DATA_REFERENCE_SPACE_CHANGE_PENDING
      (referenceSpaceType : XrReferenceSpaceType) (poseValid : Bool)
      (poseInPreviousSpace : ovrPosef)
  | otherEvent (type : Int)
deriving DecidableEq

/-- Legacy `ovrSessionStatus`, the client's output structure. -/
structure ovrSessionStatus where
  IsVisible : Bool
  HmdPresent : Bool
  HmdMounted : Bool
  DisplayLost : Bool
  ShouldQuit : Bool
  ShouldRecenter : Bool
  HasInputFocus : Bool
  OverlayPresent : Bool
  DepthRequested : Bool
deriving DecidableEq, Repr

/-- The body of the event loop of `ovr_GetSessionStatus`: the `switch` on the
event type, applied to the session object. -/
def pumpEvent (math : PoseMath) (hmd : ovrHmdStruct) (event : XrEventDataBuffer) :
    ovrHmdStruct :=
  let status := hmd.SessionStatus
  match event with
  | .XR_TYPE_EVENT_DATA_SESSION_STATE_CHANGED session state =>
    if session = hmd.Session then
      match state with
      | .XR_SESSION_STATE_IDLE =>
        { hmd with SessionStatus := { status with HmdPresent := true } }
      | .XR_SESSION_STATE_READY =>
        { hmd with SessionStatus := { status with IsVisible := true, HmdMounted := true } }
      | .XR_SESSION_STATE_SYNCHRONIZED =>
        { hmd with SessionStatus := { status with HmdMounted := false } }
      | .XR_SESSION_STATE_VISIBLE =>
        { hmd with SessionStatus := { status with HmdMounted := true, HasInputFocus := false } }
      | .XR_SESSION_STATE_FOCUSED =>
        { hmd with SessionStatus := { status with HasInputFocus := true } }
      | .XR_SESSION_STATE_STOPPING =>
        { hmd with SessionStatus := { status with IsVisible := false } }
      | .XR_SESSION_STATE_LOSS_PENDING =>
        { hmd with SessionStatus := { status with DisplayLost := true } }
      | .XR_SESSION_STATE_EXITING =>
        { hmd with SessionStatus := { status with ShouldQuit := true } }
      | .otherState _ => hmd
    else hmd
  | .XR_TYPE_EVENT_DATA_INSTANCE_LOSS_PENDING =>
    { hmd with SessionStatus := { status with ShouldQuit := true } }
  | .XR_TYPE_EVENT_DATA_REFERENCE_SPACE_CHANGE_PENDING referenceSpaceType poseValid pose =>
    if referenceSpaceType = XR_REFERENCE_SPACE_TYPE_LOCAL then
      let origin :=
        if poseValid then math.mul hmd.CalibratedOrigin pose else hmd.CalibratedOrigin
      { hmd with CalibratedOrigin := origin,
                 SessionStatus := { status with ShouldRecenter := true } }
    else hmd
  | .otherEvent _ => hmd

/-- The loop `while (xrPollEvent(...) == XR_SUCCESS)`.  The list holds the
events the successive polls deliver before the first poll that does not return
`XR_SUCCESS`; that last poll is the empty case. -/
def pollEvents (math : PoseMath) : List XrEventDataBuffer → World → World
  | [], w => { w with calls := w.calls ++ [XrCall.xrPollEvent] }
  | event :: rest, w =>
    pollEvents math rest
      { hmd := pumpEvent math w.hmd event, calls := w.calls ++ [XrCall.xrPollEvent] }

/-- The copy of the latches into the client's structure; `DepthRequested` is
not written. -/
def writeSessionStatus (status : SessionStatusBits) (out : ovrSessionStatus) :
    ovrSessionStatus :=
  { out with
    IsVisible := status.IsVisible
    HmdPresent := status.HmdPresent
    HmdMounted := status.HmdMounted
    DisplayLost := status.DisplayLost
    ShouldQuit := status.ShouldQuit
    ShouldRecenter := status.ShouldRecenter
    HasInputFocus := status.HasInputFocus
    OverlayPresent := status.OverlayPresent }

/-- `ovr_GetSessionStatus`.  `sessionStatus` is the client's structure behind
the pointer (`none` for a null pointer) and is returned as the call leaves it;
`events` are the events the Target API has pending. -/
def ovr_GetSessionStatus (env : Env) (session : ovrSession)
    (sessionStatus : Option ovrSessionStatus) (events : List XrEventDataBuffer) (w : World) :
    ovrResult × Option ovrSessionStatus × World :=
  match session with
  | .null => (ovrError_InvalidSession, sessionStatus, w)
  | .valid =>
    match sessionStatus with
    | none => (ovrError_InvalidParameter, none, w)
    | some out =>
      let w1 := pollEvents env.math events w
      (ovrSuccess, some (writeSessionStatus w1.hmd.SessionStatus out), w1)

/-! ## Recentering -/

/-- `ovr_ClearShouldRecenterFlag`. -/
def ovr_ClearShouldRecenterFlag (w : World) : World :=
  { w with hmd := { w.hmd with
      SessionStatus := { w.hmd.SessionStatus with ShouldRecenter := false } } }

/-- `ovr_SpecifyTrackingOrigin`. -/
def ovr_SpecifyTrackingOrigin (env : Env) (session : ovrSession) (originPose : ovrPosef)
    (w : World) : ovrResult × World :=
  match session with
  | .null => (ovrError_InvalidSession, w)
  | .valid =>
    let yaw := env.math.GetYaw originPose.Orientation
    let newOrigin :=
      env.math.mul w.hmd.CalibratedOrigin ⟨env.math.QuatAxisY yaw, originPose.Position⟩
    let hmd1 := { w.hmd with CalibratedOrigin := env.math.Normalized newOrigin }
    let oldSpace := hmd1.LocalSpace
    let spaceInfo : XrReferenceSpaceCreateInfo :=
      { referenceSpaceType := XR_REFERENCE_SPACE_TYPE_LOCAL
        poseInReferenceSpace := hmd1.CalibratedOrigin }
    let created := env.xr.xrCreateReferenceSpace w.calls hmd1.Session spaceInfo hmd1.LocalSpace
    let w2 : World :=
      { hmd := { hmd1 with LocalSpace := created.2 }
        calls := w.calls ++ [XrCall.xrCreateReferenceSpace hmd1.Session spaceInfo] }
    if XR_FAILED created.1 then (ResultToOvrResult created.1, w2)
    else
      let destroyed := env.xr.xrDestroySpace w2.calls oldSpace
      let w3 : World := { w2 with calls := w2.calls ++ [XrCall.xrDestroySpace oldSpace] }
      if XR_FAILED destroyed then (ResultToOvrResult destroyed, w3)
      else (ovrSuccess, ovr_ClearShouldRecenterFlag w3)

/-- The local `relation = XR_TYPE(SPACE_LOCATION)`: all members zero. -/
def XrSpaceLocation.zero : XrSpaceLocation := ⟨0, ⟨⟨0, 0, 0, 0⟩, ⟨0, 0, 0⟩⟩⟩

/-- `ovr_RecenterTrackingOrigin`.  The validity test is the C expression
`!(relation.locationFlags & ORIENTATION_VALID_BIT | POSITION_VALID_BIT)`, in
which `&` binds tighter than `|`. -/
def ovr_RecenterTrackingOrigin (env : Env) (session : ovrSession) (w : World) :
    ovrResult × World :=
  match session with
  | .null => (ovrError_InvalidSession, w)
  | .valid =>
    let time := (w.hmd.FrameStats w.hmd.CurrentFrame).predictedDisplayTime
    let located :=
      env.xr.xrLocateSpace w.calls w.hmd.ViewSpace w.hmd.LocalSpace time XrSpaceLocation.zero
    let w1 : World :=
      { w with calls := w.calls ++ [XrCall.xrLocateSpace w.hmd.ViewSpace w.hmd.LocalSpace time] }
    if XR_FAILED located.1 then (ResultToOvrResult located.1, w1)
    else
      let relation := located.2
      if ((relation.locationFlags &&& XR_SPACE_LOCATION_ORIENTATION_VALID_BIT)
            ||| XR_SPACE_LOCATION_POSITION_VALID_BIT) = 0 then
        (ovrError_InvalidHeadsetOrientation, w1)
      else ovr_SpecifyTrackingOrigin env session relation.pose w1

/-! ## Frame pipeline -/

/-- The current frame slot, `*session->CurrentFrame`. -/
def ovrHmdStruct.currentFrame (hmd : ovrHmdStruct) : XrIndexedFrameState :=
  hmd.FrameStats hmd.CurrentFrame

/-- The slot `ovr_WaitToBeginFrame` moves to: `CurrentFrame + 1`, or the first
slot when that lies beyond `&FrameStats[ovrMaxProvidedFrameStats - 1]`. -/
def nextFrameState (env : Env) (hmd : ovrHmdStruct) : Nat :=
  if hmd.CurrentFrame + 1 > env.ovrMaxProvidedFrameStats - 1 then 0
  else hmd.CurrentFrame + 1

/-- `ovr_WaitToBeginFrame`.  `xrWaitFrame` writes through the pointer to the
next slot, whatever it returns; the frame index is stamped and the slot becomes
current only after `CHK_XR` has let the call pass. -/
def ovr_WaitToBeginFrame (env : Env) (session : ovrSession) (frameIndex : Int) (w : World) :
    ovrResult × World :=
  match session with
  | .null => (ovrError_InvalidSession, w)
  | .valid =>
    let frameState := nextFrameState env w.hmd
    let waited :=
      env.xr.xrWaitFrame w.calls w.hmd.Session (w.hmd.FrameStats frameState).toXrFrameState
    let slot : XrIndexedFrameState :=
      { toXrFrameState := waited.2, frameIndex := (w.hmd.FrameStats frameState).frameIndex }
    let calls := w.calls ++ [XrCall.xrWaitFrame w.hmd.Session]
    if XR_FAILED waited.1 then
      (ResultToOvrResult waited.1,
        { hmd := { w.hmd with FrameStats := Function.update w.hmd.FrameStats frameState slot }
          calls := calls })
    else
      (ovrSuccess,
        { hmd := { w.hmd with
            FrameStats := Function.update w.hmd.FrameStats frameState
              { slot with frameIndex := wrapInt64 (frameIndex + 1) }
            CurrentFrame := frameState }
          calls := calls })

/-- The loop of `ovr_BeginFrame` over `session->AcquiredChains`: wait on the
front chain and pop it, until the queue is empty or a wait fails.  Returns the
failed result if any, the queue as it is left, and the calls made. -/
def waitAcquiredChains (xr : XrRuntime) :
    List XrSwapchain → List XrCall → Option XrResult × List XrSwapchain × List XrCall
  | [], calls => (none, [], calls)
  | front :: rest, calls =>
    let rs := xr.xrWaitSwapchainImage calls front XR_NO_DURATION
    let calls1 := calls ++ [XrCall.xrWaitSwapchainImage front XR_NO_DURATION]
    if XR_FAILED rs then (some rs, front :: rest, calls1)
    else waitAcquiredChains xr rest calls1

/-- `ovr_BeginFrame`. -/
def ovr_BeginFrame (env : Env) (session : ovrSession) (frameIndex : Int) (w : World) :
    ovrResult × World :=
  match session with
  | .null => (ovrError_InvalidSession, w)
  | .valid =>
    match waitAcquiredChains env.xr w.hmd.AcquiredChains w.calls with
    | (some rs, queue, calls) =>
      (ResultToOvrResult rs, { hmd := { w.hmd with AcquiredChains := queue }, calls := calls })
    | (none, queue, calls) =>
      let rs := env.xr.xrBeginFrame calls w.hmd.Session
      let w1 : World :=
        { hmd := { w.hmd with AcquiredChains := queue }
          calls := calls ++ [XrCall.xrBeginFrame w.hmd.Session] }
      if XR_FAILED rs then (ResultToOvrResult rs, w1) else (ovrSuccess, w1)

/-! ## Layer translation (`ovr_EndFrame`) -/

/-- Modelled from the spec: `FovPort::GetMaxSideTan` of `OVR_Math.h`, which is
not among the sources; the largest of the four side tangents. -/
def GetMaxSideTan (fov : ovrFovPort) : ℚ :=
  max (max fov.UpTan fov.DownTan) (max fov.LeftTan fov.RightTan)

/-- What one pass of the layer loop of `ovr_EndFrame` does with an entry of the
list: `emitted` pushes the layer, `skipped` is a `continue` taken on a null
entry or on a failed check, and `ignored type` is the final `else` branch, whose
assertion is `type == ovrLayerType_Disabled`. -/
inductive LayerStep where
  | emitted (layer : XrCompositionLayerUnion)
  | skipped
  | ignored (type : ovrLayerType)

/-- The body of the eye loop of a projection layer for eye `i`: `texture` is
the chain kept from the previous eye.  `none` is a `break`; otherwise the view
and the chain to carry to the next eye. -/
def eyeView (env : Env) (viewScaleDesc : Option ovrViewScaleDesc) (layer : ovrLayer_Union)
    (type : ovrLayerType) (upsideDown : Bool) (texture : Option ovrTextureSwapChainData)
    (i : Nat) : Option (XrCompositionLayerProjectionView × ovrTextureSwapChainData) :=
  let texture :=
    match layer.EyeFov.ColorTexture i with
    | some t => some t
    | none => texture
  match texture with
  | none => none
  | some texture =>
    let poseFov : Option (ovrPosef × XrFovSource) :=
      if type = ovrLayerType_EyeMatrix then
        some (layer.EyeMatrix.RenderPose i, XrFovSource.ofMatrix (layer.EyeMatrix.Matrix i))
      else if GetMaxSideTan (layer.EyeFov.Fov i) > 0 then
        some (layer.EyeFov.RenderPose i, XrFovSource.ofFovPort (layer.EyeFov.Fov i))
      else none
    match poseFov with
    | none => none
    | some (pose, fovSource) =>
      let swapped :=
        if texture.Images = XrSwapchainImageType.XR_TYPE_SWAPCHAIN_IMAGE_OPENGL_KHR
        then !upsideDown else upsideDown
      let next : Option XrCompositionLayerDepthInfoKHR :=
        if type = ovrLayerType_EyeFovDepth ∧ env.runtime.CompositionDepth = true then
          let depthTexture := layer.EyeFovDepth.DepthTexture i
          let projDesc := layer.EyeFovDepth.ProjectionDesc
          let nearZ := projDesc.Projection23 / projDesc.Projection22
          let farZ := projDesc.Projection23 / (1 + projDesc.Projection22)
          some
            { subImage :=
                { swapchain := depthTexture.Swapchain
                  imageRect := ClampRect (layer.EyeFovDepth.Viewport i) depthTexture
                  imageArrayIndex := 0 }
              minDepth := 0
              maxDepth := 1
              nearZ :=
                match viewScaleDesc with
                | some desc => nearZ * desc.HmdSpaceToWorldScaleInMeters
                | none => nearZ
              farZ :=
                match viewScaleDesc with
                | some desc => farZ * desc.HmdSpaceToWorldScaleInMeters
                | none => farZ }
        else none
      some
        ({ pose := pose
           fov := { source := fovSource, upDownSwapped := swapped }
           subImage :=
             { swapchain := texture.Swapchain
               imageRect := ClampRect (layer.EyeFov.Viewport i) texture
               imageArrayIndex := 0 }
           next := next },
          texture)

/-- The eye loop `for (i = 0; i < ovrEye_Count; i++)` over the remaining eyes:
`none` when an eye breaks out of the loop (then `i < ovrEye_Count` afterwards),
otherwise the views in eye order. -/
def projectionViews
    (body : Option ovrTextureSwapChainData → Nat →
      Option (XrCompositionLayerProjectionView × ovrTextureSwapChainData)) :
    Option ovrTextureSwapChainData → List Nat → Option (List XrCompositionLayerProjectionView)
  | _, [] => some []
  | texture, i :: eyes =>
    match body texture i with
    | none => none
    | some (view, texture1) =>
      match projectionViews body (some texture1) eyes with
      | none => none
      | some views => some (view :: views)

/-- The header every emitted layer gets at the end of the loop body. -/
def finishLayer (hmd : ovrHmdStruct) (headLocked : Bool) (body : XrCompositionLayerBody) :
    XrCompositionLayerUnion :=
  { layerFlags := XR_COMPOSITION_LAYER_BLEND_TEXTURE_SOURCE_ALPHA_BIT
    space :=
      if headLocked then hmd.ViewSpace
      else if hmd.TrackingSpace = XR_REFERENCE_SPACE_TYPE_STAGE then hmd.StageSpace
      else hmd.LocalSpace
    body := body }

/-- One pass of the layer loop of `ovr_EndFrame` on the entry `layerPtrList[i]`
(`none` for a null pointer). -/
def translateLayer (env : Env) (hmd : ovrHmdStruct) (viewScaleDesc : Option ovrViewScaleDesc)
    (layerPtr : Option ovrLayer_Union) : LayerStep :=
  match layerPtr with
  | none => LayerStep.skipped
  | some layer =>
    let type := layer.Header.Type_
    let upsideDown := layer.Header.TextureOriginAtBottomLeft
    let headLocked := layer.Header.HeadLocked
    if type = ovrLayerType_EyeFov ∨ type = ovrLayerType_EyeMatrix
        ∨ type = ovrLayerType_EyeFovDepth then
      match projectionViews (eyeView env viewScaleDesc layer type upsideDown) none
          (List.range ovrEye_Count) with
      | none => LayerStep.skipped
      | some views =>
        LayerStep.emitted (finishLayer hmd headLocked (XrCompositionLayerBody.Projection views))
    else if type = ovrLayerType_Quad then
      match layer.Quad.ColorTexture with
      | none => LayerStep.skipped
      | some texture =>
        LayerStep.emitted (finishLayer hmd headLocked
          (XrCompositionLayerBody.Quad
            ⟨texture.Swapchain, ClampRect layer.Quad.Viewport texture, 0⟩
            layer.Quad.QuadPoseCenter layer.Quad.QuadSize))
    else if type = ovrLayerType_Cylinder ∧ env.runtime.CompositionCylinder = true then
      match layer.Cylinder.ColorTexture with
      | none => LayerStep.skipped
      | some texture =>
        LayerStep.emitted (finishLayer hmd headLocked
          (XrCompositionLayerBody.Cylinder
            ⟨texture.Swapchain, ClampRect layer.Cylinder.Viewport texture, 0⟩
            layer.Cylinder.CylinderPoseCenter layer.Cylinder.CylinderRadius
            layer.Cylinder.CylinderAngle layer.Cylinder.CylinderAspectRatio))
    else if type = ovrLayerType_Cube ∧ env.runtime.CompositionCube = true then
      match layer.Cube.CubeMapTexture with
      | none => LayerStep.skipped
      | some texture =>
        LayerStep.emitted (finishLayer hmd headLocked
          (XrCompositionLayerBody.Cube texture.Swapchain 0 layer.Cube.Orientation))
    else LayerStep.ignored type

/-- The layer loop of `ovr_EndFrame`: the vector `layers` after the loop, in
the order of the `push_back` calls. -/
def translateLayers (env : Env) (hmd : ovrHmdStruct) (viewScaleDesc : Option ovrViewScaleDesc) :
    List (Option ovrLayer_Union) → List XrCompositionLayerUnion
  | [] => []
  | layerPtr :: rest =>
    match translateLayer env hmd viewScaleDesc layerPtr with
    | LayerStep.emitted layer => layer :: translateLayers env hmd viewScaleDesc rest
    | _ => translateLayers env hmd viewScaleDesc rest

/-- `ovr_EndFrame`; `layerPtrList` holds the `layerCount` entries of the
pointer list.  The assertion of the final `else` branch is compiled out, as in
a release build. -/
def ovr_EndFrame (env : Env) (session : ovrSession) (frameIndex : Int)
    (viewScaleDesc : Option ovrViewScaleDesc) (layerPtrList : List (Option ovrLayer_Union))
    (w : World) : ovrResult × World :=
  match session with
  | .null => (ovrError_InvalidSession, w)
  | .valid =>
    let endInfo : XrFrameEndInfo :=
      { displayTime := w.hmd.currentFrame.predictedDisplayTime
        environmentBlendMode := XrEnvironmentBlendMode.XR_ENVIRONMENT_BLEND_MODE_OPAQUE
        layers := translateLayers env w.hmd viewScaleDesc layerPtrList }
    let rs := env.xr.xrEndFrame w.calls w.hmd.Session endInfo
    let w1 : World := { w with calls := w.calls ++ [XrCall.xrEndFrame w.hmd.Session endInfo] }
    if XR_FAILED rs then (ResultToOvrResult rs, w1) else (ovrSuccess, w1)

/-- `ovr_SubmitFrame2`; `CHK_OVR` returns the first failing result. -/
def ovr_SubmitFrame2 (env : Env) (session : ovrSession) (frameIndex : Int)
    (viewScaleDesc : Option ovrViewScaleDesc) (layerPtrList : List (Option ovrLayer_Union))
    (w : World) : ovrResult × World :=
  match session with
  | .null => (ovrError_InvalidSession, w)
  | .valid =>
    let frameIndex := if frameIndex ≤ 0 then w.hmd.currentFrame.frameIndex else frameIndex
    let ended := ovr_EndFrame env session frameIndex viewScaleDesc layerPtrList w
    if OVR_FAILURE ended.1 then ended
    else
      let waited := ovr_WaitToBeginFrame env session (wrapInt64 (frameIndex + 1)) ended.2
      if OVR_FAILURE waited.1 then waited
      else
        let begun := ovr_BeginFrame env session (wrapInt64 (frameIndex + 1)) waited.2
        if OVR_FAILURE begun.1 then begun else (ovrSuccess, begun.2)

/-- `ovr_SubmitFrame`: the older entry point, which passes no view scale. -/
def ovr_SubmitFrame (env : Env) (session : ovrSession) (frameIndex : Int)
    (layerPtrList : List (Option ovrLayer_Union)) (w : World) : ovrResult × World :=
  ovr_SubmitFrame2 env session frameIndex none layerPtrList w

/-! ## Sequences of calls -/

/-- A call of one of the entry points above on the (non-null) session, with the
client's arguments. -/
inductive ApiCall where
  | GetSessionStatus (sessionStatus : Option ovrSessionStatus)
      (events : List XrEventDataBuffer)
  | ClearShouldRecenterFlag
  | RecenterTrackingOrigin
  | SpecifyTrackingOrigin (originPose : ovrPosef)
  | WaitToBeginFrame (frameIndex : Int)
  | BeginFrame (frameIndex : Int)
  | EndFrame (frameIndex : Int) (viewScaleDesc : Option ovrViewScaleDesc)
      (layerPtrList : List (Option ovrLayer_Union))
  | SubmitFrame2 (frameIndex : Int) (viewScaleDesc : Option ovrViewScaleDesc)
      (layerPtrList : List (Option ovrLayer_Union))
  | SubmitFrame (frameIndex : Int) (layerPtrList : List (Option ovrLayer_Union))

/-- The result and the state after a call; `ovr_ClearShouldRecenterFlag` returns
nothing and counts as a success. -/
def ApiCall.run (env : Env) (w : World) : ApiCall → ovrResult × World
  | .GetSessionStatus sessionStatus events =>
    let r := ovr_GetSessionStatus env ovrSession.valid sessionStatus events w
    (r.1, r.2.2)
  | .ClearShouldRecenterFlag => (ovrSuccess, ovr_ClearShouldRecenterFlag w)
  | .RecenterTrackingOrigin => ovr_RecenterTrackingOrigin env ovrSession.valid w
  | .SpecifyTrackingOrigin originPose =>
    ovr_SpecifyTrackingOrigin env ovrSession.valid originPose w
  | .WaitToBeginFrame frameIndex => ovr_WaitToBeginFrame env ovrSession.valid frameIndex w
  | .BeginFrame frameIndex => ovr_BeginFrame env ovrSession.valid frameIndex w
  | .EndFrame frameIndex viewScaleDesc layerPtrList =>
    ovr_EndFrame env ovrSession.valid frameIndex viewScaleDesc layerPtrList w
  | .SubmitFrame2 frameIndex viewScaleDesc layerPtrList =>
    ovr_SubmitFrame2 env ovrSession.valid frameIndex viewScaleDesc layerPtrList w
  | .SubmitFrame frameIndex layerPtrList =>
    ovr_SubmitFrame env ovrSession.valid frameIndex layerPtrList w

/-- The result and state after each call of a sequence, in order. -/
def runCalls (env : Env) : List ApiCall → World → List (ovrResult × World)
  | [], _ => []
  | call :: rest, w => call.run env w :: runCalls env rest (call.run env w).2

/-- The values `current.frameIndex` takes along a sequence of calls: before the
first call and after every call. -/
def frameIndexValues (env : Env) (calls : List ApiCall) (w : World) : List Int :=
  w.hmd.currentFrame.frameIndex ::
    (runCalls env calls w).map (fun r => r.2.hmd.currentFrame.frameIndex)

/-- The latches along a sequence of calls: before the first call and after
every call. -/
def statusValues (env : Env) (calls : List ApiCall) (w : World) : List SessionStatusBits :=
  w.hmd.SessionStatus :: (runCalls env calls w).map (fun r => r.2.hmd.SessionStatus)

/-- A frame-pacing call: Wait, Begin, End or Submit. -/
def ApiCall.isFrameCall : ApiCall → Bool
  | .WaitToBeginFrame _ => true
  | .BeginFrame _ => true
  | .EndFrame _ _ _ => true
  | .SubmitFrame2 _ _ _ => true
  | .SubmitFrame _ _ => true
  | _ => false

/-- The index condition under which a call cannot lower `current.frameIndex`:
`cur` is the current slot's frame index when the call is made.  A Wait is given
an index not below `cur`; a Submit is given an index that is `≤ 0` or not below
`cur - 1`; and the stamped index stays within a `long long`. -/
def ApiCall.indexAdvances (cur : Int) : ApiCall → Prop
  | .WaitToBeginFrame i => cur ≤ i ∧ -(2 ^ 63) ≤ i ∧ i + 1 < 2 ^ 63
  | .SubmitFrame2 i _ _ =>
    (i ≤ 0 ∧ -(2 ^ 63) ≤ cur ∧ cur + 2 < 2 ^ 63) ∨ (0 < i ∧ cur ≤ i + 1 ∧ i + 2 < 2 ^ 63)
  | .SubmitFrame i _ =>
    (i ≤ 0 ∧ -(2 ^ 63) ≤ cur ∧ cur + 2 < 2 ^ 63) ∨ (0 < i ∧ cur ≤ i + 1 ∧ i + 2 < 2 ^ 63)
  | _ => True

/-- Every call of the sequence meets `indexAdvances` in the state it is made
in. -/
def indicesAdvance (env : Env) : List ApiCall → World → Prop
  | [], _ => True
  | call :: rest, w =>
    call.indexAdvances w.hmd.currentFrame.frameIndex ∧
      indicesAdvance env rest (call.run env w).2

/-! ## Sample inputs -/

/-- A Target-API runtime whose every call succeeds: frames are predicted at
`100` with period `11`, spaces are located at the identity with both validity
bits, and a new reference space gets the handle `9`; an acquire advances the
image index by one, the stage bounds are `4 × 2`, and a time converts to the
counter value of the same number. -/
def okRuntime : XrRuntime :=
  { xrLocateSpace := fun _ _ _ _ _ => (XR_SUCCESS, ⟨3, ovrPosef.identity⟩)
    xrCreateReferenceSpace := fun _ _ _ _ => (XR_SUCCESS, 9)
    xrDestroySpace := fun _ _ => XR_SUCCESS
    xrWaitFrame := fun _ _ _ => (XR_SUCCESS, ⟨100, 11, true⟩)
    xrBeginFrame := fun _ _ => XR_SUCCESS
    xrEndFrame := fun _ _ _ => XR_SUCCESS
    xrWaitSwapchainImage := fun _ _ _ => XR_SUCCESS
    xrReleaseSwapchainImage := fun _ _ => XR_SUCCESS
    xrAcquireSwapchainImage := fun _ _ index => (XR_SUCCESS, index + 1)
    xrDestroySwapchain := fun _ _ => XR_SUCCESS
    xrGetReferenceSpaceBoundsRect := fun _ _ _ => (XR_SUCCESS, ⟨4, 2⟩)
    xrConvertTimeToWin32PerformanceCounterKHR := fun _ time => (XR_SUCCESS, time) }

/-- Pose operations for the sample inputs: translations only. -/
def sampleMath : PoseMath :=
  { mul := fun a b =>
      ⟨a.Orientation,
        ⟨a.Position.x + b.Position.x, a.Position.y + b.Position.y, a.Position.z + b.Position.z⟩⟩
    GetYaw := fun _ => 0
    QuatAxisY := fun _ => ⟨0, 0, 0, 1⟩
    Normalized := fun p => p }

/-- A 1.40 client with every composition extension available. -/
def sampleRuntime : Runtime :=
  { MinorVersion := 40, CompositionDepth := true, CompositionCylinder := true,
    CompositionCube := true }

/-- The integer square root, by search from below. -/
def searchSqrt (n : Nat) : Nat :=
  (List.range (n + 1)).foldl (fun root k => if k * k ≤ n then k else root) 0

/-- A square root for the sample inputs, exact on the squares of rationals. -/
def sampleSqrt (q : ℚ) : ℚ := (searchSqrt q.num.natAbs : ℚ) / (searchSqrt q.den : ℚ)

/-- The sample environment: `okRuntime` and a ring of five frame slots; input
states of 56, 88 and 120 bytes and a counter of ten million ticks a second. -/
def okEnv : Env :=
  { xr := okRuntime, math := sampleMath, runtime := sampleRuntime,
    ovrMaxProvidedFrameStats := 5
    vmath := { sqrt := sampleSqrt, Tolerance := 0 }
    layout := { sizeofInputState1 := 56, sizeofInputState2 := 88, sizeofInputState := 120 }
    perfFrequency := 10000000 }

/-- A fresh session object: all latches clear, all frame slots zero, the first
slot current, no chain acquired. -/
def sampleHmd : ovrHmdStruct :=
  { Input := none
    Session := 1, ViewSpace := 2, LocalSpace := 3, StageSpace := 4
    TrackingSpace := XR_REFERENCE_SPACE_TYPE_LOCAL
    CalibratedOrigin := ovrPosef.identity
    SessionStatus := ⟨false, false, false, false, false, false, false, false⟩
    FrameStats := fun _ => ⟨⟨0, 0, false⟩, 0⟩
    CurrentFrame := 0
    AcquiredChains := [] }

/-- The sample state: the fresh session and no Target-API call made yet. -/
def sampleWorld : World := { hmd := sampleHmd, calls := [] }

/-- A runtime like `okRuntime`, except that waiting on the swapchain `8` fails
with `XR_ERROR_RUNTIME_FAILURE`. -/
def waitFailsRuntime : XrRuntime :=
  { okRuntime with
    xrWaitSwapchainImage := fun _ swapchain _ => if swapchain = 8 then -2 else XR_SUCCESS }

/-- The sample environment over `waitFailsRuntime`. -/
def waitFailsEnv : Env := { okEnv with xr := waitFailsRuntime }

/-- The sample state with the chains `7` and `8` acquired and not yet waited
on. -/
def acquiredWorld : World :=
  { hmd := { sampleHmd with AcquiredChains := [7, 8] }, calls := [] }

/-- The sample session with three acquired chains `7`, `8` and `9` waiting. -/
def threeChainsWorld : World :=
  { hmd := { sampleHmd with AcquiredChains := [7, 8, 9] }, calls := [] }

/-- A runtime like `okRuntime`, except that locating a space succeeds with no
validity bit set in `locationFlags`. -/
def noFlagsRuntime : XrRuntime :=
  { okRuntime with
    xrLocateSpace := fun _ _ _ _ _ => (XR_SUCCESS, ⟨0, ovrPosef.identity⟩) }

/-- The sample environment over `noFlagsRuntime`. -/
def noFlagsEnv : Env := { okEnv with xr := noFlagsRuntime }

/-! ## The status table of the specification -/

/-- The eight latches of the status bit-set. -/
inductive Latch where
  | HmdPresent
  | HmdMounted
  | IsVisible
  | HasInputFocus
  | DisplayLost
  | ShouldQuit
  | ShouldRecenter
  | OverlayPresent
deriving DecidableEq, Repr

/-- The value of a latch. -/
def SessionStatusBits.get (s : SessionStatusBits) : Latch → Bool
  | .HmdPresent => s.HmdPresent
  | .HmdMounted => s.HmdMounted
  | .IsVisible => s.IsVisible
  | .HasInputFocus => s.HasInputFocus
  | .DisplayLost => s.DisplayLost
  | .ShouldQuit => s.ShouldQuit
  | .ShouldRecenter => s.ShouldRecenter
  | .OverlayPresent => s.OverlayPresent

/-- The bit-set with one latch assigned. -/
def SessionStatusBits.set (s : SessionStatusBits) (l : Latch) (v : Bool) : SessionStatusBits :=
  match l with
  | .HmdPresent => { s with HmdPresent := v }
  | .HmdMounted => { s with HmdMounted := v }
  | .IsVisible => { s with IsVisible := v }
  | .HasInputFocus => { s with HasInputFocus := v }
  | .DisplayLost => { s with DisplayLost := v }
  | .ShouldQuit => { s with ShouldQuit := v }
  | .ShouldRecenter => { s with ShouldRecenter := v }
  | .OverlayPresent => { s with OverlayPresent := v }

/-- The rows of the table of section 4.3 for the session states: the latches a
state assigns, with their values. -/
def stateRow : XrSessionState → List (Latch × Bool)
  | .XR_SESSION_STATE_IDLE => [(Latch.HmdPresent, true)]
  | .XR_SESSION_STATE_READY => [(Latch.IsVisible, true), (Latch.HmdMounted, true)]
  | .XR_SESSION_STATE_SYNCHRONIZED => [(Latch.HmdMounted, false)]
  | .XR_SESSION_STATE_VISIBLE => [(Latch.HmdMounted, true), (Latch.HasInputFocus, false)]
  | .XR_SESSION_STATE_FOCUSED => [(Latch.HasInputFocus, true)]
  | .XR_SESSION_STATE_STOPPING => [(Latch.IsVisible, false)]
  | .XR_SESSION_STATE_LOSS_PENDING => [(Latch.DisplayLost, true)]
  | .XR_SESSION_STATE_EXITING => [(Latch.ShouldQuit, true)]
  | .otherState _ => []

/-- The table of section 4.3 by event, for the session with handle `self`: a
state change addressed to this session has the row of its state; instance-loss
pending sets `ShouldQuit`; a pending change of the Local reference space sets
`ShouldRecenter`; other events are ignored. -/
def eventRow (self : XrSession) : XrEventDataBuffer → List (Latch × Bool)
  | .XR_TYPE_EVENT_DATA_SESSION_STATE_CHANGED session state =>
    if session = self then stateRow state else []
  | .XR_TYPE_EVENT_DATA_INSTANCE_LOSS_PENDING => [(Latch.ShouldQuit, true)]
  | .XR_TYPE_EVENT_DATA_REFERENCE_SPACE_CHANGE_PENDING referenceSpaceType _ _ =>
    if referenceSpaceType = XR_REFERENCE_SPACE_TYPE_LOCAL then [(Latch.ShouldRecenter, true)]
    else []
  | .otherEvent _ => []

/-- The latch update of the table: the assignments of the event's row, applied
to the bit-set. -/
def latchUpdate (self : XrSession) (s : SessionStatusBits) (event : XrEventDataBuffer) :
    SessionStatusBits :=
  (eventRow self event).foldl (fun s assignment => s.set assignment.1 assignment.2) s

/-- The eight latches as the client's structure shows them. -/
def ovrSessionStatus.latches (out : ovrSessionStatus) : SessionStatusBits :=
  { HmdPresent := out.HmdPresent
    HmdMounted := out.HmdMounted
    IsVisible := out.IsVisible
    HasInputFocus := out.HasInputFocus
    DisplayLost := out.DisplayLost
    ShouldQuit := out.ShouldQuit
    ShouldRecenter := out.ShouldRecenter
    OverlayPresent := out.OverlayPresent }

/-- A client structure with every member clear. -/
def clearStatus : ovrSessionStatus :=
  ⟨false, false, false, false, false, false, false, false, false⟩

/-- `ShouldQuit` and `DisplayLost` stay set from the bit-set `a` to the later
bit-set `b`: each of the two that is true in `a` is true in `b`. -/
def staysSet (a b : SessionStatusBits) : Prop :=
  (a.ShouldQuit = true → b.ShouldQuit = true) ∧ (a.DisplayLost = true → b.DisplayLost = true)

/-! ## Layer validity in the words of the specification -/

/-- The colour chain of eye `i` after reuse: the eye's own chain, or, when the
eye has none, the chain of the previous eye. -/
def colorChainAfterReuse (layer : ovrLayer_Union) : Nat → Option ovrTextureSwapChainData
  | 0 => layer.EyeFov.ColorTexture 0
  | i + 1 =>
    match layer.EyeFov.ColorTexture (i + 1) with
    | some chain => some chain
    | none => colorChainAfterReuse layer i

/-- An entry of the layer list that is to get a composition layer: it is
non-null, not `Disabled`, and passes the checks of its type.  A projection
layer needs a colour chain for each eye after reuse, and `EyeFov` and
`EyeFovDepth` also a strictly positive maximum side tangent at each eye; a quad
needs a colour chain; a cylinder a colour chain and the cylinder extension; a
cube a cube-map chain and the cube extension.  A type with no translation
passes nothing. -/
def layerPasses (runtime : Runtime) : Option ovrLayer_Union → Bool
  | none => false
  | some layer =>
    match layer.Header.Type_ with
    | .ovrLayerType_Disabled => false
    | .ovrLayerType_EyeFov =>
      (List.range ovrEye_Count).all fun i =>
        (colorChainAfterReuse layer i).isSome && decide (0 < GetMaxSideTan (layer.EyeFov.Fov i))
    | .ovrLayerType_EyeFovDepth =>
      (List.range ovrEye_Count).all fun i =>
        (colorChainAfterReuse layer i).isSome && decide (0 < GetMaxSideTan (layer.EyeFov.Fov i))
    | .ovrLayerType_EyeMatrix =>
      (List.range ovrEye_Count).all fun i => (colorChainAfterReuse layer i).isSome
    | .ovrLayerType_Quad => layer.Quad.ColorTexture.isSome
    | .ovrLayerType_Cylinder => layer.Cylinder.ColorTexture.isSome && runtime.CompositionCylinder
    | .ovrLayerType_Cube => layer.Cube.CubeMapTexture.isSome && runtime.CompositionCube
    | .ovrLayerType_EyeFovMultires => false
    | .unknown _ => false

/-! ## Sample layers -/

/-- A disabled layer whose members are all zero and whose chains are null. -/
def blankLayer : ovrLayer_Union :=
  { Header := ⟨ovrLayerType_Disabled, false, false⟩
    EyeFov :=
      { ColorTexture := fun _ => none
        Viewport := fun _ => ⟨⟨0, 0⟩, ⟨0, 0⟩⟩
        Fov := fun _ => ⟨0, 0, 0, 0⟩
        RenderPose := fun _ => ovrPosef.identity }
    EyeFovDepth :=
      { Viewport := fun _ => ⟨⟨0, 0⟩, ⟨0, 0⟩⟩
        DepthTexture := fun _ => chainOfSize 1 1
        ProjectionDesc := ⟨0, 0, 0⟩ }
    EyeMatrix :=
      { RenderPose := fun _ => ovrPosef.identity
        Matrix := fun _ => ⟨fun _ _ => 0⟩ }
    Quad := ⟨none, ⟨⟨0, 0⟩, ⟨0, 0⟩⟩, ovrPosef.identity, ⟨0, 0⟩⟩
    Cylinder := ⟨none, ⟨⟨0, 0⟩, ⟨0, 0⟩⟩, ovrPosef.identity, 0, 0, 0⟩
    Cube := ⟨⟨0, 0, 0, 1⟩, none⟩ }

/-- A quad layer over a `64 × 64` chain. -/
def quadLayer : ovrLayer_Union :=
  { blankLayer with
    Header := ⟨ovrLayerType_Quad, false, false⟩
    Quad := ⟨some (chainOfSize 64 64), ⟨⟨0, 0⟩, ⟨64, 64⟩⟩, ovrPosef.identity, ⟨1, 1⟩⟩ }

/-- An `EyeFov` layer with a colour chain for both eyes and all four tangents
zero at both eyes. -/
def zeroFovLayer : ovrLayer_Union :=
  { blankLayer with
    Header := ⟨ovrLayerType_EyeFov, false, false⟩
    EyeFov :=
      { ColorTexture := fun _ => some (chainOfSize 64 64)
        Viewport := fun _ => ⟨⟨0, 0⟩, ⟨64, 64⟩⟩
        Fov := fun _ => ⟨0, 0, 0, 0⟩
        RenderPose := fun _ => ovrPosef.identity } }

/-! ## Swapchain commit and destroy -/

/-- `ovr_CommitTextureSwapChain`.  `chain` is the object behind the pointer
(`none` for a null pointer) and is returned as the call leaves it;
`xrAcquireSwapchainImage` writes through `&chain->CurrentIndex`, whatever it
returns. -/
def ovr_CommitTextureSwapChain (env : Env) (session : ovrSession)
    (chain : Option ovrTextureSwapChainData) (w : World) :
    ovrResult × Option ovrTextureSwapChainData × World :=
  match session with
  | .null => (ovrError_InvalidSession, chain, w)
  | .valid =>
    match chain with
    | none => (ovrError_InvalidParameter, none, w)
    | some chain =>
      let released := env.xr.xrReleaseSwapchainImage w.calls chain.Swapchain
      let w1 : World :=
        { w with calls := w.calls ++ [XrCall.xrReleaseSwapchainImage chain.Swapchain] }
      if XR_FAILED released then (ResultToOvrResult released, some chain, w1)
      else if chain.Desc.StaticImage = false then
        let acquired :=
          env.xr.xrAcquireSwapchainImage w1.calls chain.Swapchain chain.CurrentIndex
        let chain1 := { chain with CurrentIndex := acquired.2 }
        let w2 : World :=
          { w1 with calls := w1.calls ++ [XrCall.xrAcquireSwapchainImage chain.Swapchain] }
        if XR_FAILED acquired.1 then (ResultToOvrResult acquired.1, some chain1, w2)
        else
          (ovrSuccess, some chain1,
            { w2 with hmd := { w2.hmd with
                AcquiredChains := w2.hmd.AcquiredChains ++ [chain.Swapchain] } })
      else (ovrSuccess, some chain, w1)

/-- The library function `memcpy(dst, src, n)` on the bytes behind the two
pointers: the first `n` bytes of `dst` become those of `src`. -/
def memcpy (dst src : Bytes) (n : Nat) : Bytes :=
  fun offset => if offset < n then src offset else dst offset

/-- The first statements of `ovr_GetInputState`: the local `state = { 0 }` and
`result = ovrSuccess`, handed to the input subsystem when the session has one
and has a Target-API session.  Returns `result` and the bytes of `state`. -/
def queryInputState (hmd : ovrHmdStruct) (controllerType : Nat) : ovrResult × Bytes :=
  let state : Bytes := fun _ => 0
  match hmd.Input with
  | some input =>
    if hmd.Session ≠ 0 then input.GetInputState controllerType state
    else (ovrSuccess, state)
  | none => (ovrSuccess, state)

/-- `ovr_GetInputState`.  `inputState` is the client's buffer behind the pointer
(`none` for a null pointer) and is returned as the call leaves it. -/
def ovr_GetInputState (env : Env) (session : ovrSession) (controllerType : Nat)
    (inputState : Option Bytes) (w : World) : ovrResult × Option Bytes :=
  match session with
  | .null => (ovrError_InvalidSession, inputState)
  | .valid =>
    match inputState with
    | none => (ovrError_InvalidParameter, none)
    | some buffer =>
      let got := queryInputState w.hmd controllerType
      if env.runtime.MinorVersion < 7 then
        (got.1, some (memcpy buffer got.2 env.layout.sizeofInputState1))
      else if env.runtime.MinorVersion < 11 then
        (got.1, some (memcpy buffer got.2 env.layout.sizeofInputState2))
      else
        (got.1, some (memcpy buffer got.2 env.layout.sizeofInputState))

/-- The size of the legacy input state for a client of minor version `m`, in
the words of the specification: the first shape below 1.7, the second below
1.11, the current one otherwise. -/
def LegacyInputStateSize (layout : InputStateLayout) (m : Int) : Nat :=
  if m < 7 then layout.sizeofInputState1
  else if m < 11 then layout.sizeofInputState2
  else layout.sizeofInputState

/-! ## Entry points without a Target-API counterpart -/

/-- `ovr_InitDesktopWindow`; `outWindowHandle` is the handle behind the
pointer. -/
def ovr_InitDesktopWindow (session : ovrSession) (outWindowHandle : Option Nat) : ovrResult :=
  ovrError_Unsupported

/-- `ovr_ShowDesktopWindow`; the window description is an opaque structure. -/
def ovr_ShowDesktopWindow (session : ovrSession) (windowDesc : Option Bytes) : ovrResult :=
  ovrError_Unsupported

/-- `ovr_HideDesktopWindow`. -/
def ovr_HideDesktopWindow (session : ovrSession) (windowHandle : Nat) : ovrResult :=
  ovrError_Unsupported

/-- `ovr_ShowAvatarHands`. -/
def ovr_ShowAvatarHands (session : ovrSession) (showHands : Bool) : ovrResult :=
  ovrError_Unsupported

/-- `ovr_SetBoundaryLookAndFeel`. -/
def ovr_SetBoundaryLookAndFeel (session : ovrSession) (lookAndFeel : Option Bytes) :
    ovrResult :=
  ovrError_Unsupported

/-- `ovr_ResetBoundaryLookAndFeel`. -/
def ovr_ResetBoundaryLookAndFeel (session : ovrSession) : ovrResult :=
  ovrError_Unsupported

/-- `ovr_GetPerfStats`. -/
def ovr_GetPerfStats (session : ovrSession) (outStats : Option Bytes) : ovrResult :=
  ovrError_Unsupported

/-- `ovr_ResetPerfStats`. -/
def ovr_ResetPerfStats (session : ovrSession) : ovrResult :=
  ovrError_Unsupported

/-- `ovr_GetExternalCameras`. -/
def ovr_GetExternalCameras (session : ovrSession) (cameras : Option Bytes)
    (inoutCameraCount : Option Nat) : ovrResult :=
  ovrError_NoExternalCameraInfo

/-- `ovr_SetExternalCameraProperties`. -/
def ovr_SetExternalCameraProperties (session : ovrSession) (name : Option String)
    (intrinsics extrinsics : Option Bytes) : ovrResult :=
  ovrError_NoExternalCameraInfo

/-- `ovr_SetClientColorDesc`. -/
def ovr_SetClientColorDesc (session : ovrSession) (colorDesc : Option Bytes) : ovrResult :=
  ovrError_Unsupported

/-! ## Boundary (`ovr_TestBoundaryPoint`) -/

/-- Legacy `ovrBoundaryTestResult`. -/
structure ovrBoundaryTestResult where
  IsTriggering : Bool
  ClosestDistance : ℚ
  ClosestPoint : ovrVector3f
  ClosestPointNormal : ovrVector3f
deriving DecidableEq

/-- Modelled from the spec: `OVR::Vector2f::Max` of `OVR_Math.h`, which is not
among the sources; the componentwise maximum. -/
def Vector2f_Max (a b : ovrVector2f) : ovrVector2f :=
  ⟨if a.x > b.x then a.x else b.x, if a.y > b.y then a.y else b.y⟩

/-- Modelled from the spec: `OVR::Vector2f::Min` of `OVR_Math.h`, which is not
among the sources; the componentwise minimum. -/
def Vector2f_Min (a b : ovrVector2f) : ovrVector2f :=
  ⟨if a.x < b.x then a.x else b.x, if a.y < b.y then a.y else b.y⟩

/-- Modelled from the spec: `OVR::Vector2f::Compare` of `OVR_Math.h`, which is
not among the sources and decides whether the query point is the clamped point
("inside the rectangle"): both components agree within the tolerance, which is
a parameter; tolerance `0` is equality. -/
def Vector2f_Compare (vm : VectorMath) (a b : ovrVector2f) : Bool :=
  decide (|b.x - a.x| ≤ vm.Tolerance ∧ |b.y - a.y| ≤ vm.Tolerance)

/-- Modelled from the spec: `OVR::Vector2f::Length` of `OVR_Math.h`, which is
not among the sources; the square root of the sum of the squared components. -/
def Vector2f_Length (vm : VectorMath) (v : ovrVector2f) : ℚ :=
  vm.sqrt (v.x * v.x + v.y * v.y)

/-- Modelled from the spec: `OVR::Vector2f::Normalize` of `OVR_Math.h`, which is
not among the sources; the vector scaled to unit length, the zero vector left
as it is. -/
def Vector2f_Normalize (vm : VectorMath) (v : ovrVector2f) : ovrVector2f :=
  let s := Vector2f_Length vm v
  let s := if s ≠ 0 then 1 / s else s
  ⟨v.x * s, v.y * s⟩

/-- `ovr_GetBoundaryDimensions`.  `outDimensions` holds what the output
parameter holds before the call and the result what it holds after. -/
def ovr_GetBoundaryDimensions (env : Env) (session : ovrSession) (boundaryType : Nat)
    (outDimensions : ovrVector3f) (w : World) : ovrResult × ovrVector3f × World :=
  match session with
  | .null => (ovrError_InvalidSession, outDimensions, w)
  | .valid =>
    let got :=
      env.xr.xrGetReferenceSpaceBoundsRect w.calls w.hmd.Session XR_REFERENCE_SPACE_TYPE_STAGE
    let w1 : World :=
      { w with calls := w.calls ++
          [XrCall.xrGetReferenceSpaceBoundsRect w.hmd.Session XR_REFERENCE_SPACE_TYPE_STAGE] }
    if XR_FAILED got.1 then (ResultToOvrResult got.1, outDimensions, w1)
    else (ovrSuccess, ⟨got.2.width, 0, got.2.height⟩, w1)

/-- The point `clamped` of `ovr_TestBoundaryPoint` as it stands after the
"inside the AABB" block: the query point clamped to the rectangle and, when that
leaves it where it was, moved onto a wall.  The quotient `p.x / std::abs(p.x)`
of zero by zero, which the code forms at the centre of the rectangle, is `0` in
exact arithmetic. -/
def clampToBoundary (vm : VectorMath) (halfExtents p : ovrVector2f) : ovrVector2f :=
  let clamped :=
    Vector2f_Min (Vector2f_Max p ⟨-halfExtents.x, -halfExtents.y⟩) halfExtents
  if Vector2f_Compare vm clamped p = true then
    if |p.x| > |p.y| then { clamped with x := halfExtents.x * (p.x / |p.x|) }
    else { clamped with y := halfExtents.y * (p.y / |p.y|) }
  else clamped

/-- The computation of `ovr_TestBoundaryPoint` once the bounds are known. -/
def testBoundaryPoint (vm : VectorMath) (bounds point : ovrVector3f) : ovrBoundaryTestResult :=
  let p : ovrVector2f := ⟨point.x, point.z⟩
  let halfExtents : ovrVector2f := ⟨bounds.x / 2, bounds.z / 2⟩
  let clamped := clampToBoundary vm halfExtents p
  let normal : ovrVector2f := ⟨p.x - clamped.x, p.y - clamped.y⟩
  let unit := Vector2f_Normalize vm normal
  { IsTriggering := false
    ClosestDistance := Vector2f_Length vm normal
    ClosestPoint := ⟨clamped.x, point.y, clamped.y⟩
    ClosestPointNormal := ⟨unit.x, 0, unit.y⟩ }

/-- `ovr_TestBoundaryPoint`.  `point` is the vector behind the pointer; the
result structure is `none` when `*outTestResult` is not written. -/
def ovr_TestBoundaryPoint (env : Env) (session : ovrSession) (point : ovrVector3f)
    (singleBoundaryType : Nat) (w : World) :
    ovrResult × Option ovrBoundaryTestResult × World :=
  let dims := ovr_GetBoundaryDimensions env session singleBoundaryType ⟨0, 0, 0⟩ w
  if OVR_FAILURE dims.1 then (dims.1, none, dims.2.2)
  else (ovrSuccess, some (testBoundaryPoint env.vmath dims.2.1 point), dims.2.2)

/-! ## Predicted display time -/

/-- `ovr_GetPredictedDisplayTime`.  The session pointer is dereferenced without
a test.  The sum is formed in 64-bit integers (`XrTime`, `XrDuration`,
`long long`); the seconds returned are the counter value times the inverse of
the counter frequency. -/
def ovr_GetPredictedDisplayTime (env : Env) (frameIndex : Int) (w : World) : ℚ × World :=
  let CurrentFrame := w.hmd.currentFrame
  let displayTime :=
    if frameIndex > 0 then
      wrapInt64 (CurrentFrame.predictedDisplayTime +
        wrapInt64 (CurrentFrame.predictedDisplayPeriod *
          wrapInt64 (CurrentFrame.frameIndex - frameIndex)))
    else CurrentFrame.predictedDisplayTime
  let PerfFrequencyInverse : ℚ := 1 / (env.perfFrequency : ℚ)
  let converted := env.xr.xrConvertTimeToWin32PerformanceCounterKHR w.calls displayTime
  let w1 : World :=
    { w with calls := w.calls ++ [XrCall.xrConvertTimeToWin32PerformanceCounterKHR displayTime] }
  if XR_FAILED converted.1 then (0, w1)
  else ((converted.2 : ℚ) * PerfFrequencyInverse, w1)

/-- The frame-pacing calls of the Target API: `xrWaitFrame`, `xrBeginFrame` and
`xrEndFrame`. -/
def XrCall.isFramePacing : XrCall → Bool
  | .xrWaitFrame _ => true
  | .xrBeginFrame _ => true
  | .xrEndFrame _ _ => true
  | _ => false

/-! ## Sample inputs for the swapchain, input and timing entry points -/

/-- A non-static `64 × 64` chain with handle `7`, image `0` acquired. -/
def sampleChain : ovrTextureSwapChainData :=
  { Desc := ⟨64, 64, false⟩, Swapchain := 7, Images := .otherBinding,
    CurrentIndex := 0, Length := 3 }

/-- A static chain with handle `8`. -/
def staticChain : ovrTextureSwapChainData :=
  { Desc := ⟨64, 64, true⟩, Swapchain := 8, Images := .otherBinding,
    CurrentIndex := 0, Length := 1 }

/-- A runtime like `okRuntime`, except that acquiring an image fails with
`XR_ERROR_RUNTIME_FAILURE` and leaves the index as it was. -/
def acquireFailsRuntime : XrRuntime :=
  { okRuntime with xrAcquireSwapchainImage := fun _ _ index => (-2, index) }

/-- The sample environment over `acquireFailsRuntime`. -/
def acquireFailsEnv : Env := { okEnv with xr := acquireFailsRuntime }

/-- A runtime like `okRuntime`, except that the time conversion fails. -/
def convertFailsRuntime : XrRuntime :=
  { okRuntime with xrConvertTimeToWin32PerformanceCounterKHR := fun _ _ => (-2, 0) }

/-- The sample environment over `convertFailsRuntime`. -/
def convertFailsEnv : Env := { okEnv with xr := convertFailsRuntime }

/-- The sample state after `ovr_WaitToBeginFrame(4)`: the current slot has
display time `100`, period `11` and frame index `5`. -/
def waitedWorld : World := (ovr_WaitToBeginFrame okEnv ovrSession.valid 4 sampleWorld).2

/-- An input subsystem that fills every byte of the state with `0x11` and
succeeds. -/
def sampleInput : InputManager := { GetInputState := fun _ _ => (ovrSuccess, fun _ => 0x11) }

/-- The sample state with `sampleInput` as the session's input subsystem. -/
def inputWorld : World := { hmd := { sampleHmd with Input := some sampleInput }, calls := [] }

/-- The sample environment for a 1.5 client. -/
def legacyEnv : Env := { okEnv with runtime := { sampleRuntime with MinorVersion := 5 } }

/-- A value representable in a signed 64-bit integer. -/
def fitsInt64 (x : Int) : Prop := -(2 ^ 63) ≤ x ∧ x < 2 ^ 63

/-! ## Sample inputs for the layer header and the fall-through branch -/

/-- A head-locked cylinder layer over a `64 × 64` chain. -/
def cylinderLayer : ovrLayer_Union :=
  { blankLayer with
    Header := ⟨ovrLayerType_Cylinder, false, true⟩
    Cylinder :=
      ⟨some (chainOfSize 64 64), ⟨⟨0, 0⟩, ⟨64, 64⟩⟩, ovrPosef.identity, 1, 1, 1⟩ }

/-- The sample environment on a runtime without the cylinder extension. -/
def noCylinderEnv : Env :=
  { okEnv with runtime := { sampleRuntime with CompositionCylinder := false } }

/-! ## Origin composition (`ovr_SpecifyTrackingOrigin`) -/

/-- The create info of an `xrCreateReferenceSpace` call. -/
def XrCall.createInfo : XrCall → Option XrReferenceSpaceCreateInfo
  | .xrCreateReferenceSpace _ createInfo => some createInfo
  | _ => none

/-- C9: for every integer viewport and every chain, `ClampRect` returns the
rectangle of the specification's rule: offset `max(pos, (0,0))` componentwise,
extent the chain size when the legacy size is `≤ 0` on either axis, otherwise
the componentwise `min(size, chainSize)`. -/
theorem ClampRect_eq_spec (rect : ovrRecti) (chain : ovrTextureSwapChainData) :
    ClampRect rect chain =
      ClampRect_spec rect.Pos rect.Size chain.Desc.Width chain.Desc.Height := by
  have hmax : ∀ a : Int, (if a > 0 then a else 0) = max a 0 := by
    intro a
    split_ifs with h
    · exact (max_eq_left h.le).symm
    · exact (max_eq_right (not_lt.mp h)).symm
  have hmin : ∀ a b : Int, (if a < b then a else b) = min a b := by
    intro a b
    split_ifs with h
    · exact (min_eq_left h.le).symm
    · exact (min_eq_right (not_lt.mp h)).symm
  unfold ClampRect ClampRect_spec XR_Recti Vector2i_Max Sizei_Min
  by_cases hs : rect.Size.w ≤ 0 ∨ rect.Size.h ≤ 0
  · simp only [hs, if_true, hmax]
  · simp only [hs, if_false, hmax, hmin]

/-- C10 as stated fails: against a chain of width `0` and height `10`, the
viewport of size `5 × 5` clamps to extent `(0, 5)`, and clamping that again
gives extent `(0, 10)`. -/
theorem ClampRect_not_idempotent :
    ClampRect (ClampRect ⟨⟨0, 0⟩, ⟨5, 5⟩⟩ (chainOfSize 0 10)).toRecti (chainOfSize 0 10)
      ≠ ClampRect ⟨⟨0, 0⟩, ⟨5, 5⟩⟩ (chainOfSize 0 10) := by
  decide

/-- C10 (amended): viewport clamping is idempotent against every chain whose
width and height are positive. -/
theorem ClampRect_idempotent (rect : ovrRecti) (chain : ovrTextureSwapChainData)
    (hw : 0 < chain.Desc.Width) (hh : 0 < chain.Desc.Height) :
    ClampRect (ClampRect rect chain).toRecti chain = ClampRect rect chain := by
  obtain ⟨⟨px, py⟩, ⟨sw, sh⟩⟩ := rect
  obtain ⟨⟨cw, ch, st⟩, sc, im, ci, len⟩ := chain
  simp only at hw hh
  simp only [ClampRect, XR_Recti, Vector2i_Max, Sizei_Min, XrRect2Di.toRecti]
  by_cases hs : sw ≤ 0 ∨ sh ≤ 0
  · have hc : ¬ (cw ≤ 0 ∨ ch ≤ 0) := by omega
    simp only [hs, hc, if_true, if_false]
    split_ifs <;> simp_all
  · have h2 : ¬ ((if sw < cw then sw else cw) ≤ 0 ∨ (if sh < ch then sh else ch) ≤ 0) := by
      split_ifs <;> omega
    simp only [hs, h2, if_false]
    split_ifs <;> simp_all

/-- Witness for `ClampRect_idempotent`: a `2000 × 3000` viewport at `(-4, 7)`
against a `1024 × 768` chain. -/
theorem ClampRect_idempotent_witness :
    ClampRect (ClampRect ⟨⟨-4, 7⟩, ⟨2000, 3000⟩⟩ (chainOfSize 1024 768)).toRecti
        (chainOfSize 1024 768)
      = ClampRect ⟨⟨-4, 7⟩, ⟨2000, 3000⟩⟩ (chainOfSize 1024 768) :=
  ClampRect_idempotent ⟨⟨-4, 7⟩, ⟨2000, 3000⟩⟩ (chainOfSize 1024 768)
    (by decide) (by decide)

/-! ## Lemmas: results and the frame pipeline -/

theorem wrapInt64_of_range (x : Int) (hlo : -(2 ^ 63) ≤ x) (hhi : x < 2 ^ 63) :
    wrapInt64 x = x := by
  unfold wrapInt64
  have h63 : (2 : Int) ^ 63 = 9223372036854775808 := by norm_num
  have h64 : (2 : Int) ^ 64 = 18446744073709551616 := by norm_num
  rw [h63] at hlo hhi
  rw [h63, h64]
  omega

theorem ResultToOvrResult_ne_success (rs : XrResult) (h : XR_FAILED rs = true) :
    ResultToOvrResult rs ≠ ovrSuccess := by
  unfold XR_FAILED at h
  have hlt : rs < 0 := of_decide_eq_true h
  unfold ResultToOvrResult XR_SUCCESS
  have hne : rs ≠ 0 := ne_of_lt hlt
  simp [hne]

theorem OVR_FAILURE_eq_false (r : ovrResult) : OVR_FAILURE r = false ↔ r = ovrSuccess := by
  unfold OVR_FAILURE
  simp

theorem ovr_EndFrame_hmd (env : Env) (i : Int) (vs : Option ovrViewScaleDesc)
    (ls : List (Option ovrLayer_Union)) (w : World) :
    (ovr_EndFrame env ovrSession.valid i vs ls w).2.hmd = w.hmd := by
  unfold ovr_EndFrame
  simp only
  split_ifs <;> rfl

theorem ovr_BeginFrame_frames (env : Env) (i : Int) (w : World) :
    (ovr_BeginFrame env ovrSession.valid i w).2.hmd.FrameStats = w.hmd.FrameStats ∧
      (ovr_BeginFrame env ovrSession.valid i w).2.hmd.CurrentFrame = w.hmd.CurrentFrame := by
  unfold ovr_BeginFrame
  simp only
  split
  · exact ⟨rfl, rfl⟩
  · split_ifs <;> exact ⟨rfl, rfl⟩

theorem ovr_BeginFrame_frameIndex (env : Env) (i : Int) (w : World) :
    (ovr_BeginFrame env ovrSession.valid i w).2.hmd.currentFrame.frameIndex
      = w.hmd.currentFrame.frameIndex := by
  obtain ⟨h1, h2⟩ := ovr_BeginFrame_frames env i w
  simp only [ovrHmdStruct.currentFrame, h1, h2]

theorem ovr_WaitToBeginFrame_frameIndex (env : Env) (i : Int) (w : World)
    (hok : (ovr_WaitToBeginFrame env ovrSession.valid i w).1 = ovrSuccess) :
    (ovr_WaitToBeginFrame env ovrSession.valid i w).2.hmd.currentFrame.frameIndex
      = wrapInt64 (i + 1) := by
  unfold ovr_WaitToBeginFrame at hok ⊢
  simp only at hok ⊢
  split_ifs at hok ⊢ with hf
  · exact absurd hok (ResultToOvrResult_ne_success _ hf)
  · simp [ovrHmdStruct.currentFrame]

theorem ovr_SubmitFrame2_frameIndex_wrap (env : Env) (i : Int)
    (vs : Option ovrViewScaleDesc) (ls : List (Option ovrLayer_Union)) (w : World)
    (hok : (ovr_SubmitFrame2 env ovrSession.valid i vs ls w).1 = ovrSuccess) :
    (ovr_SubmitFrame2 env ovrSession.valid i vs ls w).2.hmd.currentFrame.frameIndex
      = wrapInt64 (wrapInt64
          ((if i ≤ 0 then w.hmd.currentFrame.frameIndex else i) + 1) + 1) := by
  unfold ovr_SubmitFrame2 at hok ⊢
  simp only at hok ⊢
  generalize (if i ≤ 0 then w.hmd.currentFrame.frameIndex else i) = j at hok ⊢
  by_cases h1 : OVR_FAILURE (ovr_EndFrame env ovrSession.valid j vs ls w).1 = true
  · rw [if_pos h1] at hok
    simp [OVR_FAILURE, hok] at h1
  · rw [if_neg h1] at hok ⊢
    by_cases h2 : OVR_FAILURE (ovr_WaitToBeginFrame env ovrSession.valid (wrapInt64 (j + 1))
        (ovr_EndFrame env ovrSession.valid j vs ls w).2).1 = true
    · rw [if_pos h2] at hok
      simp [OVR_FAILURE, hok] at h2
    · rw [if_neg h2] at hok ⊢
      have hw := (OVR_FAILURE_eq_false _).mp (by simpa using h2)
      have hidx := ovr_WaitToBeginFrame_frameIndex env _ _ hw
      by_cases h3 : OVR_FAILURE (ovr_BeginFrame env ovrSession.valid (wrapInt64 (j + 1))
          (ovr_WaitToBeginFrame env ovrSession.valid (wrapInt64 (j + 1))
            (ovr_EndFrame env ovrSession.valid j vs ls w).2).2).1 = true
      · rw [if_pos h3] at hok
        simp [OVR_FAILURE, hok] at h3
      · rw [if_neg h3]
        simp only
        rw [ovr_BeginFrame_frameIndex, hidx]

/-! ## Theorems: the frame index after a submit -/

/-- C1 as stated fails: on the sample session, `ovr_SubmitFrame2` with frame
index `1` returns success and leaves `current.frameIndex = 3`, not `1 + 1`. -/
theorem ovr_SubmitFrame2_frameIndex_not_succ :
    (ovr_SubmitFrame2 okEnv ovrSession.valid 1 none [] sampleWorld).1 = ovrSuccess ∧
      (ovr_SubmitFrame2 okEnv ovrSession.valid 1 none [] sampleWorld).2.hmd.currentFrame.frameIndex
        = 3 ∧
      (ovr_SubmitFrame2 okEnv ovrSession.valid 1 none [] sampleWorld).2.hmd.currentFrame.frameIndex
        ≠ 1 + 1 := by
  decide

/-- C1 (amended): for every non-null session and every frame index `i > 0` with
`i + 2` representable as a `long long`, when `ovr_SubmitFrame2(session, i, ...)`
returns success the current frame slot's `frameIndex` equals `i + 2`; the same
holds for `ovr_SubmitFrame`. -/
theorem ovr_SubmitFrame2_frameIndex (env : Env) (i : Int)
    (vs : Option ovrViewScaleDesc) (ls : List (Option ovrLayer_Union)) (w : World)
    (hi : 0 < i) (hmax : i + 2 < 2 ^ 63) :
    ((ovr_SubmitFrame2 env ovrSession.valid i vs ls w).1 = ovrSuccess →
        (ovr_SubmitFrame2 env ovrSession.valid i vs ls w).2.hmd.currentFrame.frameIndex = i + 2) ∧
      ((ovr_SubmitFrame env ovrSession.valid i ls w).1 = ovrSuccess →
        (ovr_SubmitFrame env ovrSession.valid i ls w).2.hmd.currentFrame.frameIndex = i + 2) := by
  have key : ∀ vs, (ovr_SubmitFrame2 env ovrSession.valid i vs ls w).1 = ovrSuccess →
      (ovr_SubmitFrame2 env ovrSession.valid i vs ls w).2.hmd.currentFrame.frameIndex = i + 2 := by
    intro vs hok
    rw [ovr_SubmitFrame2_frameIndex_wrap env i vs ls w hok, if_neg (not_le.mpr hi)]
    have h63 : (2 : Int) ^ 63 = 9223372036854775808 := by norm_num
    rw [wrapInt64_of_range (i + 1) (by omega) (by omega),
      wrapInt64_of_range (i + 1 + 1) (by omega) (by omega)]
    ring
  exact ⟨key vs, key none⟩

/-- Witness for `ovr_SubmitFrame2_frameIndex`: submitting frame `1` on the
sample session. -/
theorem ovr_SubmitFrame2_frameIndex_witness :
    (0 : Int) < 1 ∧ (1 : Int) + 2 < 2 ^ 63 ∧
      (ovr_SubmitFrame2 okEnv ovrSession.valid 1 none [] sampleWorld).1 = ovrSuccess ∧
      (ovr_SubmitFrame2 okEnv ovrSession.valid 1 none [] sampleWorld).2.hmd.currentFrame.frameIndex
        = 1 + 2 :=
  ⟨by decide, by decide, by decide,
    (ovr_SubmitFrame2_frameIndex okEnv 1 none [] sampleWorld (by decide) (by decide)).1
      (by decide)⟩

/-! ## Lemmas: what the calls leave alone -/

theorem pumpEvent_frames (math : PoseMath) (hmd : ovrHmdStruct) (event : XrEventDataBuffer) :
    (pumpEvent math hmd event).FrameStats = hmd.FrameStats ∧
      (pumpEvent math hmd event).CurrentFrame = hmd.CurrentFrame ∧
      (pumpEvent math hmd event).Session = hmd.Session := by
  unfold pumpEvent
  cases event with
  | XR_TYPE_EVENT_DATA_SESSION_STATE_CHANGED session state =>
    by_cases h : session = hmd.Session
    · cases state <;> simp [h]
    · simp [h]
  | XR_TYPE_EVENT_DATA_INSTANCE_LOSS_PENDING => simp
  | XR_TYPE_EVENT_DATA_REFERENCE_SPACE_CHANGE_PENDING t v pose =>
    by_cases h : t = XR_REFERENCE_SPACE_TYPE_LOCAL <;> simp [h]
  | otherEvent t => simp

theorem pollEvents_frames (math : PoseMath) (events : List XrEventDataBuffer) (w : World) :
    (pollEvents math events w).hmd.FrameStats = w.hmd.FrameStats ∧
      (pollEvents math events w).hmd.CurrentFrame = w.hmd.CurrentFrame := by
  induction events generalizing w with
  | nil => exact ⟨rfl, rfl⟩
  | cons event rest ih =>
    unfold pollEvents
    obtain ⟨h1, h2⟩ := ih { hmd := pumpEvent math w.hmd event,
                            calls := w.calls ++ [XrCall.xrPollEvent] }
    obtain ⟨h3, h4, _⟩ := pumpEvent_frames math w.hmd event
    exact ⟨h1.trans h3, h2.trans h4⟩

theorem ovr_SpecifyTrackingOrigin_frames (env : Env) (pose : ovrPosef) (w : World) :
    (ovr_SpecifyTrackingOrigin env ovrSession.valid pose w).2.hmd.FrameStats = w.hmd.FrameStats ∧
      (ovr_SpecifyTrackingOrigin env ovrSession.valid pose w).2.hmd.CurrentFrame
        = w.hmd.CurrentFrame := by
  unfold ovr_SpecifyTrackingOrigin
  simp only
  split_ifs <;> exact ⟨rfl, rfl⟩

theorem ovr_RecenterTrackingOrigin_frames (env : Env) (w : World) :
    (ovr_RecenterTrackingOrigin env ovrSession.valid w).2.hmd.FrameStats = w.hmd.FrameStats ∧
      (ovr_RecenterTrackingOrigin env ovrSession.valid w).2.hmd.CurrentFrame
        = w.hmd.CurrentFrame := by
  unfold ovr_RecenterTrackingOrigin
  simp only
  split_ifs
  · exact ⟨rfl, rfl⟩
  · exact ⟨rfl, rfl⟩
  · exact ovr_SpecifyTrackingOrigin_frames env _ _

theorem chain_and_chain {α : Type} {R S : α → α → Prop} :
    ∀ l : List α, l.Chain' R → l.Chain' S → l.Chain' (fun a b => R a b ∧ S a b)
  | [], _, _ => List.chain'_nil
  | [a], _, _ => List.chain'_singleton a
  | a :: b :: l, h1, h2 => by
    rw [List.chain'_cons] at h1 h2 ⊢
    exact ⟨⟨h1.1, h2.1⟩, chain_and_chain (b :: l) h1.2 h2.2⟩

theorem destutter_lt_of_chain_le (l : List Int) (h : l.Chain' (· ≤ ·)) :
    (l.destutter (· ≠ ·)).Chain' (· < ·) := by
  have h1 : (l.destutter (· ≠ ·)).Chain' (· ≤ ·) := h.sublist (List.destutter_sublist _ l)
  have h2 : (l.destutter (· ≠ ·)).Chain' (· ≠ ·) := List.destutter_is_chain' _ l
  exact (chain_and_chain _ h1 h2).imp (fun a b hab => lt_of_le_of_ne hab.1 hab.2)

/-- A successful call made under `indexAdvances` does not lower
`current.frameIndex`. -/
theorem ApiCall.run_frameIndex_le (env : Env) (call : ApiCall) (w : World)
    (hok : (call.run env w).1 = ovrSuccess)
    (hidx : call.indexAdvances w.hmd.currentFrame.frameIndex) :
    w.hmd.currentFrame.frameIndex ≤ (call.run env w).2.hmd.currentFrame.frameIndex := by
  have h63 : (2 : Int) ^ 63 = 9223372036854775808 := by norm_num
  have submit : ∀ (i : Int) (vs : Option ovrViewScaleDesc) (ls : List (Option ovrLayer_Union)),
      (ovr_SubmitFrame2 env ovrSession.valid i vs ls w).1 = ovrSuccess →
      ((i ≤ 0 ∧ -(2 ^ 63) ≤ w.hmd.currentFrame.frameIndex
          ∧ w.hmd.currentFrame.frameIndex + 2 < 2 ^ 63)
        ∨ (0 < i ∧ w.hmd.currentFrame.frameIndex ≤ i + 1 ∧ i + 2 < 2 ^ 63)) →
      w.hmd.currentFrame.frameIndex
        ≤ (ovr_SubmitFrame2 env ovrSession.valid i vs ls w).2.hmd.currentFrame.frameIndex := by
    intro i vs ls hs hadv
    rw [ovr_SubmitFrame2_frameIndex_wrap env i vs ls w hs]
    rcases hadv with ⟨h0, hlo, hhi⟩ | ⟨h0, hle, hhi⟩
    · rw [if_pos h0,
        wrapInt64_of_range (w.hmd.currentFrame.frameIndex + 1) (by omega) (by omega),
        wrapInt64_of_range (w.hmd.currentFrame.frameIndex + 1 + 1) (by omega) (by omega)]
      omega
    · rw [if_neg (not_le.mpr h0), wrapInt64_of_range (i + 1) (by omega) (by omega),
        wrapInt64_of_range (i + 1 + 1) (by omega) (by omega)]
      omega
  cases call with
  | GetSessionStatus out events =>
    simp only [ApiCall.run, ovr_GetSessionStatus]
    cases out with
    | none => exact le_refl _
    | some o =>
      obtain ⟨h1, h2⟩ := pollEvents_frames env.math events w
      simp only [ovrHmdStruct.currentFrame, h1, h2]
      exact le_refl _
  | ClearShouldRecenterFlag => exact le_refl _
  | RecenterTrackingOrigin =>
    obtain ⟨h1, h2⟩ := ovr_RecenterTrackingOrigin_frames env w
    simp only [ApiCall.run, ovrHmdStruct.currentFrame, h1, h2]
    exact le_refl _
  | SpecifyTrackingOrigin pose =>
    obtain ⟨h1, h2⟩ := ovr_SpecifyTrackingOrigin_frames env pose w
    simp only [ApiCall.run, ovrHmdStruct.currentFrame, h1, h2]
    exact le_refl _
  | WaitToBeginFrame i =>
    simp only [ApiCall.run] at hok ⊢
    simp only [ApiCall.indexAdvances] at hidx
    rw [ovr_WaitToBeginFrame_frameIndex env i w hok,
      wrapInt64_of_range _ (by omega) (by omega)]
    omega
  | BeginFrame i =>
    simp only [ApiCall.run]
    rw [ovr_BeginFrame_frameIndex]
  | EndFrame i vs ls =>
    simp only [ApiCall.run]
    rw [ovr_EndFrame_hmd]
  | SubmitFrame2 i vs ls => exact submit i vs ls hok hidx
  | SubmitFrame i ls => exact submit i none ls hok hidx

/-! ## Theorems: the sequence of frame indices -/

/-- C2 as stated fails: on the sample session the two successful calls
`ovr_WaitToBeginFrame(5)`, `ovr_WaitToBeginFrame(3)` take `current.frameIndex`
through `0, 6, 4`, which is not increasing. -/
theorem frameIndex_not_increasing :
    (∀ call ∈ [ApiCall.WaitToBeginFrame 5, ApiCall.WaitToBeginFrame 3],
        call.isFrameCall = true) ∧
      (∀ r ∈ runCalls okEnv [ApiCall.WaitToBeginFrame 5, ApiCall.WaitToBeginFrame 3] sampleWorld,
        r.1 = ovrSuccess) ∧
      frameIndexValues okEnv [ApiCall.WaitToBeginFrame 5, ApiCall.WaitToBeginFrame 3] sampleWorld
        = [0, 6, 4] ∧
      ¬ List.Chain' (· < ·) (List.destutter (· ≠ ·)
          (frameIndexValues okEnv [ApiCall.WaitToBeginFrame 5, ApiCall.WaitToBeginFrame 3]
            sampleWorld)) := by
  have hvalues : frameIndexValues okEnv
      [ApiCall.WaitToBeginFrame 5, ApiCall.WaitToBeginFrame 3] sampleWorld = [0, 6, 4] := by
    decide
  refine ⟨by decide, by decide, hvalues, ?_⟩
  rw [hvalues]
  simp [List.destutter, List.destutter']

/-- C2 (amended): for every session and every finite sequence of successful
calls in which each `ovr_WaitToBeginFrame` is given an index not below the
current slot's `frameIndex` and each `ovr_SubmitFrame2` an index that is `≤ 0`
or not below that `frameIndex` minus one (no index overflowing a `long long`),
the sequence of distinct values taken by the current slot's `frameIndex` is
strictly increasing. -/
theorem frameIndex_strictly_increasing (env : Env) (calls : List ApiCall) (w : World)
    (hok : ∀ r ∈ runCalls env calls w, r.1 = ovrSuccess)
    (hidx : indicesAdvance env calls w) :
    List.Chain' (· < ·) (List.destutter (· ≠ ·) (frameIndexValues env calls w)) := by
  apply destutter_lt_of_chain_le
  induction calls generalizing w with
  | nil => exact List.chain'_singleton _
  | cons call rest ih =>
    have hstep := ApiCall.run_frameIndex_le env call w
      (hok _ (by simp [runCalls])) hidx.1
    have hrest := ih (call.run env w).2
      (fun r hr => hok r (by simp [runCalls, hr])) hidx.2
    simp only [frameIndexValues, runCalls, List.map_cons] at hrest ⊢
    exact List.Chain'.cons hstep hrest

/-- Witness for `frameIndex_strictly_increasing`: a Wait/Begin/End round with
index `0`, a Wait with index `1` and a Submit with index `1` on the sample
session, where `current.frameIndex` takes the values `0, 1, 2, 3`. -/
theorem frameIndex_strictly_increasing_witness :
    List.Chain' (· < ·) (List.destutter (· ≠ ·)
      (frameIndexValues okEnv
        [ApiCall.WaitToBeginFrame 0, ApiCall.BeginFrame 0, ApiCall.EndFrame 0 none [],
          ApiCall.WaitToBeginFrame 1, ApiCall.SubmitFrame2 1 none []] sampleWorld)) :=
  frameIndex_strictly_increasing okEnv
    [ApiCall.WaitToBeginFrame 0, ApiCall.BeginFrame 0, ApiCall.EndFrame 0 none [],
      ApiCall.WaitToBeginFrame 1, ApiCall.SubmitFrame2 1 none []] sampleWorld
    (by decide) (by simp [indicesAdvance, ApiCall.indexAdvances, ApiCall.run]; decide)

/-! ## Theorems: the acquired queue after `ovr_BeginFrame` -/

theorem waitAcquiredChains_none (xr : XrRuntime) (queue : List XrSwapchain)
    (calls : List XrCall) (h : (waitAcquiredChains xr queue calls).1 = none) :
    (waitAcquiredChains xr queue calls).2.1 = [] := by
  induction queue generalizing calls with
  | nil => rfl
  | cons front rest ih =>
    unfold waitAcquiredChains at h ⊢
    simp only at h ⊢
    split_ifs at h ⊢ with hf
    exact ih _ h

theorem waitAcquiredChains_some (xr : XrRuntime) (queue : List XrSwapchain)
    (calls : List XrCall) (rs : XrResult) (h : (waitAcquiredChains xr queue calls).1 = some rs) :
    XR_FAILED rs = true := by
  induction queue generalizing calls with
  | nil => simp [waitAcquiredChains] at h
  | cons front rest ih =>
    unfold waitAcquiredChains at h
    simp only at h
    split_ifs at h with hf
    · simp only [Option.some.injEq] at h
      rw [← h]
      exact hf
    · exact ih _ h

theorem waitAcquiredChains_of_no_failure (xr : XrRuntime) (queue : List XrSwapchain)
    (calls : List XrCall)
    (h : ∀ calls swapchain, XR_FAILED (xr.xrWaitSwapchainImage calls swapchain XR_NO_DURATION)
      = false) :
    (waitAcquiredChains xr queue calls).1 = none := by
  induction queue generalizing calls with
  | nil => rfl
  | cons front rest ih =>
    unfold waitAcquiredChains
    simp only [h, Bool.false_eq_true, if_false]
    exact ih _

/-- C3 as stated fails: with the chains `7` and `8` in the queue and a runtime
whose wait on chain `8` fails, `ovr_BeginFrame` returns (with a failure code)
and the queue still holds chain `8`. -/
theorem ovr_BeginFrame_queue_not_empty :
    (ovr_BeginFrame waitFailsEnv ovrSession.valid 0 acquiredWorld).1
        = ovrResult.runtimeFailure (-2) ∧
      (ovr_BeginFrame waitFailsEnv ovrSession.valid 0 acquiredWorld).2.hmd.AcquiredChains = [8] ∧
      (ovr_BeginFrame waitFailsEnv ovrSession.valid 0 acquiredWorld).2.hmd.AcquiredChains ≠ [] := by
  decide

theorem waitAcquiredChains_fails (xr : XrRuntime) (pre : List XrSwapchain)
    (failing : XrSwapchain) (post : List XrSwapchain) (calls : List XrCall)
    (hpre : ∀ done c rest, pre = done ++ c :: rest →
      XR_FAILED (xr.xrWaitSwapchainImage
        (calls ++ done.map (fun s => XrCall.xrWaitSwapchainImage s XR_NO_DURATION))
        c XR_NO_DURATION) = false)
    (hfail : XR_FAILED (xr.xrWaitSwapchainImage
        (calls ++ pre.map (fun s => XrCall.xrWaitSwapchainImage s XR_NO_DURATION))
        failing XR_NO_DURATION) = true) :
    waitAcquiredChains xr (pre ++ failing :: post) calls
      = (some (xr.xrWaitSwapchainImage
            (calls ++ pre.map (fun s => XrCall.xrWaitSwapchainImage s XR_NO_DURATION))
            failing XR_NO_DURATION),
          failing :: post,
          calls ++ (pre ++ [failing]).map
            (fun s => XrCall.xrWaitSwapchainImage s XR_NO_DURATION)) := by
  induction pre generalizing calls with
  | nil =>
    simp only [List.map_nil, List.append_nil, List.nil_append] at hfail ⊢
    unfold waitAcquiredChains
    simp only [hfail, if_true, List.map_cons, List.map_nil]
  | cons p pre ih =>
    have hp := hpre [] p pre rfl
    simp only [List.map_nil, List.append_nil] at hp
    have hrest : ∀ done c rest, pre = done ++ c :: rest →
        XR_FAILED (xr.xrWaitSwapchainImage
          ((calls ++ [XrCall.xrWaitSwapchainImage p XR_NO_DURATION])
            ++ done.map (fun s => XrCall.xrWaitSwapchainImage s XR_NO_DURATION))
          c XR_NO_DURATION) = false := by
      intro done c rest hsplit
      have h := hpre (p :: done) c rest (by rw [hsplit]; rfl)
      simpa [List.append_assoc] using h
    have hfail1 : XR_FAILED (xr.xrWaitSwapchainImage
        ((calls ++ [XrCall.xrWaitSwapchainImage p XR_NO_DURATION])
          ++ pre.map (fun s => XrCall.xrWaitSwapchainImage s XR_NO_DURATION))
        failing XR_NO_DURATION) = true := by
      simpa [List.append_assoc] using hfail
    have hstep := ih (calls ++ [XrCall.xrWaitSwapchainImage p XR_NO_DURATION]) hrest hfail1
    rw [List.cons_append]
    unfold waitAcquiredChains
    simp only [hp, Bool.false_eq_true, if_false]
    rw [hstep]
    simp [List.append_assoc]

/-- C3 (amended): for every non-null session and every content of the acquired
queue, after `ovr_BeginFrame` returns the queue is empty when the call returned
success, and also, whatever the begin-frame call of the Target API returned,
when no swapchain wait of the Target API fails.  When the waits on the chains
`pre` at the front of the queue pass and the wait on the next chain `failing`
fails, `ovr_BeginFrame` returns at once: the result is the failure code of that
wait, the calls made are the waits on `pre` and on `failing` and nothing after
them (no further wait, no `xrBeginFrame`), and the queue holds `failing` and the
chains `post` behind it. -/
theorem ovr_BeginFrame_queue_empty (env : Env) (i : Int) (w : World) :
    ((ovr_BeginFrame env ovrSession.valid i w).1 = ovrSuccess →
        (ovr_BeginFrame env ovrSession.valid i w).2.hmd.AcquiredChains = []) ∧
      ((∀ calls swapchain,
          XR_FAILED (env.xr.xrWaitSwapchainImage calls swapchain XR_NO_DURATION) = false) →
        (ovr_BeginFrame env ovrSession.valid i w).2.hmd.AcquiredChains = []) ∧
      (∀ (pre : List XrSwapchain) (failing : XrSwapchain) (post : List XrSwapchain),
        w.hmd.AcquiredChains = pre ++ failing :: post →
        (∀ done c rest, pre = done ++ c :: rest →
          XR_FAILED (env.xr.xrWaitSwapchainImage
            (w.calls ++ done.map (fun s => XrCall.xrWaitSwapchainImage s XR_NO_DURATION))
            c XR_NO_DURATION) = false) →
        XR_FAILED (env.xr.xrWaitSwapchainImage
          (w.calls ++ pre.map (fun s => XrCall.xrWaitSwapchainImage s XR_NO_DURATION))
          failing XR_NO_DURATION) = true →
        (ovr_BeginFrame env ovrSession.valid i w).1
            = ResultToOvrResult (env.xr.xrWaitSwapchainImage
                (w.calls ++ pre.map (fun s => XrCall.xrWaitSwapchainImage s XR_NO_DURATION))
                failing XR_NO_DURATION) ∧
          (ovr_BeginFrame env ovrSession.valid i w).1 ≠ ovrSuccess ∧
          (ovr_BeginFrame env ovrSession.valid i w).2.hmd.AcquiredChains = failing :: post ∧
          (ovr_BeginFrame env ovrSession.valid i w).2.calls
            = w.calls ++ (pre ++ [failing]).map
                (fun s => XrCall.xrWaitSwapchainImage s XR_NO_DURATION)) := by
  have hempty : (waitAcquiredChains env.xr w.hmd.AcquiredChains w.calls).1 = none →
      (ovr_BeginFrame env ovrSession.valid i w).2.hmd.AcquiredChains = [] := by
    intro hnone
    have hqueue := waitAcquiredChains_none env.xr _ _ hnone
    unfold ovr_BeginFrame
    simp only
    split
    · rename_i rs1 queue calls heq
      rw [heq] at hnone
      simp at hnone
    · rename_i queue calls heq
      rw [heq] at hqueue
      simp only at hqueue
      split_ifs <;> exact hqueue
  refine ⟨?_, ?_, ?_⟩
  · intro hok
    apply hempty
    cases hres : (waitAcquiredChains env.xr w.hmd.AcquiredChains w.calls).1 with
    | none => rfl
    | some rs =>
      exfalso
      have hfail := waitAcquiredChains_some env.xr _ _ rs hres
      have hne := ResultToOvrResult_ne_success rs hfail
      apply hne
      rw [← hok]
      unfold ovr_BeginFrame
      simp only
      split
      · rename_i rs1 queue calls heq
        rw [heq] at hres
        simp only [Option.some.injEq] at hres
        rw [hres]
      · rename_i queue calls heq
        rw [heq] at hres
        simp at hres
  · intro hwait
    exact hempty (waitAcquiredChains_of_no_failure env.xr _ _ hwait)
  · intro pre failing post hqueue hpre hfail
    have hloop := waitAcquiredChains_fails env.xr pre failing post w.calls hpre hfail
    have hne := ResultToOvrResult_ne_success _ hfail
    unfold ovr_BeginFrame
    simp only [hqueue, hloop]
    exact ⟨trivial, hne, trivial, trivial⟩

/-- Witness for `ovr_BeginFrame_queue_empty`: on a runtime whose calls all
succeed the queue `[7, 8]` is drained; on a runtime whose wait on chain `8`
fails, the queue `[7, 8, 9]` is left as `[8, 9]` after the two waits on `7` and
`8`, and no `xrBeginFrame` is made. -/
theorem ovr_BeginFrame_queue_empty_witness :
    ((ovr_BeginFrame okEnv ovrSession.valid 0 acquiredWorld).1 = ovrSuccess ∧
        (ovr_BeginFrame okEnv ovrSession.valid 0 acquiredWorld).2.hmd.AcquiredChains = []) ∧
      (ovr_BeginFrame waitFailsEnv ovrSession.valid 0 threeChainsWorld).1
          = ovrResult.runtimeFailure (-2) ∧
      (ovr_BeginFrame waitFailsEnv ovrSession.valid 0 threeChainsWorld).2.hmd.AcquiredChains
          = [8, 9] ∧
      (ovr_BeginFrame waitFailsEnv ovrSession.valid 0 threeChainsWorld).2.calls
          = [XrCall.xrWaitSwapchainImage 7 XR_NO_DURATION,
              XrCall.xrWaitSwapchainImage 8 XR_NO_DURATION] :=
  have hfails := (ovr_BeginFrame_queue_empty waitFailsEnv 0 threeChainsWorld).2.2
    [7] 8 [9] rfl
    (by
      intro done c rest hsplit
      rcases done with _ | ⟨d, done⟩
      · simp only [List.nil_append, List.cons.injEq] at hsplit
        rw [← hsplit.1]
        decide
      · simp at hsplit)
    (by decide)
  ⟨⟨by decide, (ovr_BeginFrame_queue_empty okEnv 0 acquiredWorld).1 (by decide)⟩,
    hfails.1, hfails.2.2.1, hfails.2.2.2⟩

/-! ## Theorems: recentering -/

theorem and_or_position_bit_ne_zero (flags : Nat) :
    ((flags &&& XR_SPACE_LOCATION_ORIENTATION_VALID_BIT)
      ||| XR_SPACE_LOCATION_POSITION_VALID_BIT) ≠ 0 := by
  unfold XR_SPACE_LOCATION_ORIENTATION_VALID_BIT XR_SPACE_LOCATION_POSITION_VALID_BIT
  have h : flags &&& 1 ≤ 1 := Nat.and_le_right
  interval_cases (flags &&& 1) <;> decide

/-- C4, what the code does: whenever locating the head pose succeeds,
`ovr_RecenterTrackingOrigin` goes on to `ovr_SpecifyTrackingOrigin` with the
located pose whatever the location flags are, because the tested expression
`flags & ORIENTATION_VALID | POSITION_VALID` is never zero. -/
theorem ovr_RecenterTrackingOrigin_ignores_flags (env : Env) (w : World)
    (hloc : XR_FAILED (env.xr.xrLocateSpace w.calls w.hmd.ViewSpace w.hmd.LocalSpace
      w.hmd.currentFrame.predictedDisplayTime XrSpaceLocation.zero).1 = false) :
    ovr_RecenterTrackingOrigin env ovrSession.valid w =
      ovr_SpecifyTrackingOrigin env ovrSession.valid
        (env.xr.xrLocateSpace w.calls w.hmd.ViewSpace w.hmd.LocalSpace
          w.hmd.currentFrame.predictedDisplayTime XrSpaceLocation.zero).2.pose
        { w with calls := w.calls ++ [XrCall.xrLocateSpace w.hmd.ViewSpace w.hmd.LocalSpace
            w.hmd.currentFrame.predictedDisplayTime] } := by
  unfold ovr_RecenterTrackingOrigin
  simp only [ovrHmdStruct.currentFrame] at hloc ⊢
  rw [if_neg (by simp [hloc]), if_neg (and_or_position_bit_ne_zero _)]

/-- Witness for `ovr_RecenterTrackingOrigin_ignores_flags`, at the input on
which C4 fails: the head pose is located successfully with neither validity
bit set, and `ovr_RecenterTrackingOrigin` returns `ovrSuccess` after
`ovr_SpecifyTrackingOrigin` has created a new Local space. -/
theorem ovr_RecenterTrackingOrigin_ignores_flags_witness :
    (noFlagsEnv.xr.xrLocateSpace sampleWorld.calls sampleWorld.hmd.ViewSpace
        sampleWorld.hmd.LocalSpace sampleWorld.hmd.currentFrame.predictedDisplayTime
        XrSpaceLocation.zero).2.locationFlags = 0 ∧
      (ovr_RecenterTrackingOrigin noFlagsEnv ovrSession.valid sampleWorld).1 = ovrSuccess ∧
      (ovr_RecenterTrackingOrigin noFlagsEnv ovrSession.valid sampleWorld).1
        ≠ ovrError_InvalidHeadsetOrientation ∧
      (ovr_RecenterTrackingOrigin noFlagsEnv ovrSession.valid sampleWorld).2.hmd.LocalSpace = 9 ∧
      ovr_RecenterTrackingOrigin noFlagsEnv ovrSession.valid sampleWorld =
        ovr_SpecifyTrackingOrigin noFlagsEnv ovrSession.valid
          (noFlagsEnv.xr.xrLocateSpace sampleWorld.calls sampleWorld.hmd.ViewSpace
            sampleWorld.hmd.LocalSpace sampleWorld.hmd.currentFrame.predictedDisplayTime
            XrSpaceLocation.zero).2.pose
          { sampleWorld with calls := sampleWorld.calls ++
              [XrCall.xrLocateSpace sampleWorld.hmd.ViewSpace sampleWorld.hmd.LocalSpace
                sampleWorld.hmd.currentFrame.predictedDisplayTime] } :=
  ⟨by decide, by decide, by decide, by decide,
    ovr_RecenterTrackingOrigin_ignores_flags noFlagsEnv sampleWorld (by decide)⟩

/-! ## Theorems: the status latches -/

theorem pumpEvent_status (math : PoseMath) (hmd : ovrHmdStruct) (event : XrEventDataBuffer) :
    (pumpEvent math hmd event).SessionStatus
      = latchUpdate hmd.Session hmd.SessionStatus event := by
  unfold pumpEvent latchUpdate eventRow
  cases event with
  | XR_TYPE_EVENT_DATA_SESSION_STATE_CHANGED session state =>
    by_cases h : session = hmd.Session
    · cases state <;> simp [h, stateRow, SessionStatusBits.set]
    · simp [h]
  | XR_TYPE_EVENT_DATA_INSTANCE_LOSS_PENDING => simp [SessionStatusBits.set]
  | XR_TYPE_EVENT_DATA_REFERENCE_SPACE_CHANGE_PENDING t v pose =>
    by_cases h : t = XR_REFERENCE_SPACE_TYPE_LOCAL <;> simp [h, SessionStatusBits.set]
  | otherEvent t => simp

theorem pollEvents_status (math : PoseMath) (events : List XrEventDataBuffer) (w : World) :
    (pollEvents math events w).hmd.SessionStatus
      = events.foldl (latchUpdate w.hmd.Session) w.hmd.SessionStatus := by
  induction events generalizing w with
  | nil => rfl
  | cons event rest ih =>
    unfold pollEvents
    rw [ih, List.foldl_cons]
    simp only [pumpEvent_status, (pumpEvent_frames math w.hmd event).2.2]

theorem set_get_of_ne (s : SessionStatusBits) (l k : Latch) (v : Bool) (h : k ≠ l) :
    (s.set l v).get k = s.get k := by
  cases l <;> cases k <;> first | rfl | exact absurd rfl h

theorem foldl_set_get_of_not_mem (row : List (Latch × Bool)) (s : SessionStatusBits)
    (k : Latch) (h : k ∉ row.map Prod.fst) :
    (row.foldl (fun s assignment => s.set assignment.1 assignment.2) s).get k = s.get k := by
  induction row generalizing s with
  | nil => rfl
  | cons a rest ih =>
    simp only [List.map_cons, List.mem_cons, not_or] at h
    rw [List.foldl_cons, ih _ h.2, set_get_of_ne _ _ _ _ h.1]

/-- C5 as stated fails: a pending change of the Local reference space is an
event of a type other than session-state-changed and instance-loss-pending, yet
it changes a latch; polled by `ovr_GetSessionStatus` on the sample session it
turns `ShouldRecenter` from false to true. -/
theorem reference_space_event_changes_latch :
    (pumpEvent sampleMath sampleHmd
        (XrEventDataBuffer.XR_TYPE_EVENT_DATA_REFERENCE_SPACE_CHANGE_PENDING
          XR_REFERENCE_SPACE_TYPE_LOCAL false ovrPosef.identity)).SessionStatus
        ≠ sampleHmd.SessionStatus ∧
      sampleHmd.SessionStatus.ShouldRecenter = false ∧
      (ovr_GetSessionStatus okEnv ovrSession.valid (some clearStatus)
        [XrEventDataBuffer.XR_TYPE_EVENT_DATA_REFERENCE_SPACE_CHANGE_PENDING
          XR_REFERENCE_SPACE_TYPE_LOCAL false ovrPosef.identity] sampleWorld).2.1
        = some { clearStatus with ShouldRecenter := true } := by
  decide

/-- C5 (amended): the per-event latch update of `ovr_GetSessionStatus` equals
the table of the specification, including its row for a pending change of the
Local reference space, which sets `ShouldRecenter`: the session's latches after
an event are those of `latchUpdate`; every latch the event's row names gets the
row's value and every other latch is left unchanged; an event with no row
leaves all eight latches unchanged; and the structure returned to the client
shows the latches obtained by folding the update over the drained events in
order. -/
theorem ovr_GetSessionStatus_latches (env : Env) (out : ovrSessionStatus)
    (events : List XrEventDataBuffer) (w : World) :
    (∀ (hmd : ovrHmdStruct) (event : XrEventDataBuffer),
        (pumpEvent env.math hmd event).SessionStatus
          = latchUpdate hmd.Session hmd.SessionStatus event) ∧
      (∀ (self : XrSession) (s : SessionStatusBits) (event : XrEventDataBuffer) (l : Latch)
          (v : Bool), (l, v) ∈ eventRow self event → (latchUpdate self s event).get l = v) ∧
      (∀ (self : XrSession) (s : SessionStatusBits) (event : XrEventDataBuffer) (l : Latch),
          l ∉ (eventRow self event).map Prod.fst → (latchUpdate self s event).get l = s.get l) ∧
      (∀ (self : XrSession) (s : SessionStatusBits) (event : XrEventDataBuffer),
          eventRow self event = [] → latchUpdate self s event = s) ∧
      (ovr_GetSessionStatus env ovrSession.valid (some out) events w).1 = ovrSuccess ∧
      (∃ out1, (ovr_GetSessionStatus env ovrSession.valid (some out) events w).2.1 = some out1 ∧
        out1.latches = events.foldl (latchUpdate w.hmd.Session) w.hmd.SessionStatus ∧
        out1.DepthRequested = out.DepthRequested) ∧
      (ovr_GetSessionStatus env ovrSession.valid (some out) events w).2.2.hmd.SessionStatus
        = events.foldl (latchUpdate w.hmd.Session) w.hmd.SessionStatus := by
  refine ⟨pumpEvent_status env.math, ?_, ?_, ?_, rfl, ?_, ?_⟩
  · intro self s event l v hmem
    unfold latchUpdate
    cases event with
    | XR_TYPE_EVENT_DATA_SESSION_STATE_CHANGED session state =>
      simp only [eventRow] at hmem ⊢
      by_cases h : session = self
      · simp only [h, if_true] at hmem ⊢
        cases state <;>
          simp only [stateRow, List.mem_cons, List.mem_singleton, Prod.mk.injEq,
            List.not_mem_nil, or_false] at hmem <;>
          first
          | (rcases hmem with ⟨rfl, rfl⟩ | ⟨rfl, rfl⟩ <;> rfl)
          | (obtain ⟨rfl, rfl⟩ := hmem; rfl)
      · simp [h] at hmem
    | XR_TYPE_EVENT_DATA_INSTANCE_LOSS_PENDING =>
      simp only [eventRow, List.mem_singleton, Prod.mk.injEq] at hmem
      obtain ⟨rfl, rfl⟩ := hmem
      rfl
    | XR_TYPE_EVENT_DATA_REFERENCE_SPACE_CHANGE_PENDING t pv pose =>
      simp only [eventRow] at hmem ⊢
      by_cases h : t = XR_REFERENCE_SPACE_TYPE_LOCAL
      · simp only [h, if_true, List.mem_singleton, Prod.mk.injEq] at hmem ⊢
        obtain ⟨rfl, rfl⟩ := hmem
        rfl
      · simp [h] at hmem
    | otherEvent t => simp [eventRow] at hmem
  · intro self s event l hl
    exact foldl_set_get_of_not_mem _ s l hl
  · intro self s event hrow
    simp [latchUpdate, hrow]
  · refine ⟨_, rfl, ?_, rfl⟩
    simp only [ovrSessionStatus.latches, writeSessionStatus]
    exact pollEvents_status env.math events w
  · exact pollEvents_status env.math events w

/-! ## Theorems: `ShouldQuit` and `DisplayLost` stay set -/

theorem staysSet_refl (a : SessionStatusBits) : staysSet a a := ⟨id, id⟩

theorem staysSet_trans {a b c : SessionStatusBits} (hab : staysSet a b) (hbc : staysSet b c) :
    staysSet a c :=
  ⟨fun h => hbc.1 (hab.1 h), fun h => hbc.2 (hab.2 h)⟩

theorem staysSet_of_eq {a b : SessionStatusBits} (h : b = a) : staysSet a b := by
  rw [h]
  exact staysSet_refl a

theorem pumpEvent_staysSet (math : PoseMath) (hmd : ovrHmdStruct) (event : XrEventDataBuffer) :
    staysSet hmd.SessionStatus (pumpEvent math hmd event).SessionStatus := by
  unfold pumpEvent staysSet
  cases event with
  | XR_TYPE_EVENT_DATA_SESSION_STATE_CHANGED session state =>
    by_cases h : session = hmd.Session
    · cases state <;> simp [h]
    · simp [h]
  | XR_TYPE_EVENT_DATA_INSTANCE_LOSS_PENDING => simp
  | XR_TYPE_EVENT_DATA_REFERENCE_SPACE_CHANGE_PENDING t v pose =>
    by_cases h : t = XR_REFERENCE_SPACE_TYPE_LOCAL <;> simp [h]
  | otherEvent t => simp

theorem pollEvents_staysSet (math : PoseMath) (events : List XrEventDataBuffer) (w : World) :
    staysSet w.hmd.SessionStatus (pollEvents math events w).hmd.SessionStatus := by
  induction events generalizing w with
  | nil => exact staysSet_refl _
  | cons event rest ih =>
    unfold pollEvents
    exact staysSet_trans (pumpEvent_staysSet math w.hmd event)
      (ih { hmd := pumpEvent math w.hmd event, calls := w.calls ++ [XrCall.xrPollEvent] })

theorem ovr_SpecifyTrackingOrigin_staysSet (env : Env) (pose : ovrPosef) (w : World) :
    staysSet w.hmd.SessionStatus
      (ovr_SpecifyTrackingOrigin env ovrSession.valid pose w).2.hmd.SessionStatus := by
  unfold ovr_SpecifyTrackingOrigin
  simp only
  split_ifs
  · exact staysSet_refl _
  · exact staysSet_refl _
  · exact ⟨id, id⟩

theorem ovr_RecenterTrackingOrigin_staysSet (env : Env) (w : World) :
    staysSet w.hmd.SessionStatus
      (ovr_RecenterTrackingOrigin env ovrSession.valid w).2.hmd.SessionStatus := by
  unfold ovr_RecenterTrackingOrigin
  simp only
  split_ifs
  · exact staysSet_refl _
  · exact staysSet_refl _
  · exact ovr_SpecifyTrackingOrigin_staysSet env
      (env.xr.xrLocateSpace w.calls w.hmd.ViewSpace w.hmd.LocalSpace
        (w.hmd.FrameStats w.hmd.CurrentFrame).predictedDisplayTime XrSpaceLocation.zero).2.pose
      { w with calls := w.calls ++ [XrCall.xrLocateSpace w.hmd.ViewSpace w.hmd.LocalSpace
          (w.hmd.FrameStats w.hmd.CurrentFrame).predictedDisplayTime] }

theorem ovr_WaitToBeginFrame_status (env : Env) (i : Int) (w : World) :
    (ovr_WaitToBeginFrame env ovrSession.valid i w).2.hmd.SessionStatus
      = w.hmd.SessionStatus := by
  unfold ovr_WaitToBeginFrame
  simp only
  split_ifs <;> rfl

theorem ovr_BeginFrame_status (env : Env) (i : Int) (w : World) :
    (ovr_BeginFrame env ovrSession.valid i w).2.hmd.SessionStatus = w.hmd.SessionStatus := by
  unfold ovr_BeginFrame
  simp only
  split
  · rfl
  · split_ifs <;> rfl

theorem ovr_SubmitFrame2_status (env : Env) (i : Int) (vs : Option ovrViewScaleDesc)
    (ls : List (Option ovrLayer_Union)) (w : World) :
    (ovr_SubmitFrame2 env ovrSession.valid i vs ls w).2.hmd.SessionStatus
      = w.hmd.SessionStatus := by
  unfold ovr_SubmitFrame2
  simp only
  split_ifs <;>
    simp only [ovr_BeginFrame_status, ovr_WaitToBeginFrame_status, ovr_EndFrame_hmd]

theorem ApiCall.run_staysSet (env : Env) (call : ApiCall) (w : World) :
    staysSet w.hmd.SessionStatus (call.run env w).2.hmd.SessionStatus := by
  cases call with
  | GetSessionStatus out events =>
    simp only [ApiCall.run, ovr_GetSessionStatus]
    cases out with
    | none => exact staysSet_refl _
    | some o => exact pollEvents_staysSet env.math events w
  | ClearShouldRecenterFlag => exact ⟨id, id⟩
  | RecenterTrackingOrigin => exact ovr_RecenterTrackingOrigin_staysSet env w
  | SpecifyTrackingOrigin pose => exact ovr_SpecifyTrackingOrigin_staysSet env pose w
  | WaitToBeginFrame i => exact staysSet_of_eq (ovr_WaitToBeginFrame_status env i w)
  | BeginFrame i => exact staysSet_of_eq (ovr_BeginFrame_status env i w)
  | EndFrame i vs ls =>
    exact staysSet_of_eq (by simp only [ApiCall.run, ovr_EndFrame_hmd])
  | SubmitFrame2 i vs ls => exact staysSet_of_eq (ovr_SubmitFrame2_status env i vs ls w)
  | SubmitFrame i ls => exact staysSet_of_eq (ovr_SubmitFrame2_status env i none ls w)

/-- C6: along every sequence of calls on a session (status queries with any
events pending, recenter, specify-origin and clear-recenter calls, and the frame
calls), once the `ShouldQuit` latch is true it is true after every later call,
and once the `DisplayLost` latch is true it is true after every later call. -/
theorem ShouldQuit_DisplayLost_stay_set (env : Env) (calls : List ApiCall) (w : World) :
    List.Pairwise staysSet (statusValues env calls w) := by
  haveI : IsTrans SessionStatusBits staysSet := ⟨fun _ _ _ hab hbc => staysSet_trans hab hbc⟩
  rw [← List.chain'_iff_pairwise]
  induction calls generalizing w with
  | nil => exact List.chain'_singleton _
  | cons call rest ih =>
    have hrest := ih (call.run env w).2
    simp only [statusValues, runCalls, List.map_cons] at hrest ⊢
    exact List.Chain'.cons (ApiCall.run_staysSet env call w) hrest

/-! ## Theorems: the composition-layer list of `ovr_EndFrame` -/

theorem eyeView_isSome (env : Env) (vs : Option ovrViewScaleDesc) (layer : ovrLayer_Union)
    (type : ovrLayerType) (upsideDown : Bool) (texture : Option ovrTextureSwapChainData)
    (i : Nat) :
    (eyeView env vs layer type upsideDown texture i).isSome = true ↔
      ((layer.EyeFov.ColorTexture i).isSome = true ∨ texture.isSome = true) ∧
        (type = ovrLayerType_EyeMatrix ∨ 0 < GetMaxSideTan (layer.EyeFov.Fov i)) := by
  unfold eyeView
  cases hc : layer.EyeFov.ColorTexture i <;> cases texture <;>
    by_cases ht : type = ovrLayerType_EyeMatrix <;>
    by_cases hf : 0 < GetMaxSideTan (layer.EyeFov.Fov i) <;>
    simp [ht, hf]

theorem projectionViews_two
    (body : Option ovrTextureSwapChainData → Nat →
      Option (XrCompositionLayerProjectionView × ovrTextureSwapChainData)) :
    (projectionViews body none (List.range ovrEye_Count)).isSome = true ↔
      ∃ view texture, body none 0 = some (view, texture) ∧
        (body (some texture) 1).isSome = true := by
  have hrange : List.range ovrEye_Count = [0, 1] := by decide
  rw [hrange]
  unfold projectionViews
  cases h0 : body none 0 with
  | none => simp
  | some r0 =>
    obtain ⟨view, texture⟩ := r0
    unfold projectionViews
    cases h1 : body (some texture) 1 with
    | none => simp [h1]
    | some r1 =>
      obtain ⟨view1, texture1⟩ := r1
      simp only [projectionViews, h1, Option.isSome_some, Option.some.injEq, Prod.mk.injEq,
        true_iff]
      exact ⟨view, texture, ⟨rfl, rfl⟩, by rw [h1]; rfl⟩

theorem projection_passes (env : Env) (vs : Option ovrViewScaleDesc) (layer : ovrLayer_Union)
    (type : ovrLayerType) (upsideDown : Bool) :
    (projectionViews (eyeView env vs layer type upsideDown) none
        (List.range ovrEye_Count)).isSome = true ↔
      ((List.range ovrEye_Count).all fun i =>
        (colorChainAfterReuse layer i).isSome &&
          decide (type = ovrLayerType_EyeMatrix ∨ 0 < GetMaxSideTan (layer.EyeFov.Fov i)))
        = true := by
  have hrange : List.range ovrEye_Count = [0, 1] := by decide
  rw [projectionViews_two, hrange]
  simp only [List.all_cons, List.all_nil, Bool.and_true, Bool.and_eq_true, decide_eq_true_eq,
    colorChainAfterReuse]
  constructor
  · rintro ⟨view, texture, h0, h1⟩
    have h0s := (eyeView_isSome env vs layer type upsideDown none 0).mp (by simp [h0])
    have h1s := (eyeView_isSome env vs layer type upsideDown (some texture) 1).mp h1
    simp only [Option.isSome_none, Bool.false_eq_true, or_false] at h0s
    refine ⟨h0s, ?_, h1s.2⟩
    cases hc1 : layer.EyeFov.ColorTexture 1 with
    | some chain => rfl
    | none => exact h0s.1
  · rintro ⟨⟨hc0, hf0⟩, hc1, hf1⟩
    have h0s := (eyeView_isSome env vs layer type upsideDown none 0).mpr ⟨Or.inl hc0, hf0⟩
    obtain ⟨⟨view, texture⟩, h0⟩ := Option.isSome_iff_exists.mp h0s
    exact ⟨view, texture, h0,
      (eyeView_isSome env vs layer type upsideDown (some texture) 1).mpr ⟨Or.inr rfl, hf1⟩⟩

theorem translateLayer_emitted_iff (env : Env) (hmd : ovrHmdStruct)
    (vs : Option ovrViewScaleDesc) (layerPtr : Option ovrLayer_Union) :
    (∃ layer, translateLayer env hmd vs layerPtr = LayerStep.emitted layer) ↔
      layerPasses env.runtime layerPtr = true := by
  cases layerPtr with
  | none => simp [translateLayer, layerPasses]
  | some layer =>
    have hproj := projection_passes env vs layer layer.Header.Type_
      layer.Header.TextureOriginAtBottomLeft
    unfold translateLayer layerPasses
    simp only
    cases htype : layer.Header.Type_ with
    | ovrLayerType_EyeFov =>
      rw [htype] at hproj
      simp only [true_or, if_true]
      cases hv : projectionViews (eyeView env vs layer ovrLayerType_EyeFov
          layer.Header.TextureOriginAtBottomLeft) none (List.range ovrEye_Count) with
      | none =>
        rw [hv] at hproj
        simp only [Option.isSome_none, Bool.false_eq_true, false_iff] at hproj
        simpa using hproj
      | some views =>
        rw [hv] at hproj
        simp only [Option.isSome_some, true_iff] at hproj
        simpa using hproj
    | ovrLayerType_EyeFovDepth =>
      rw [htype] at hproj
      simp only [or_true, if_true]
      cases hv : projectionViews (eyeView env vs layer ovrLayerType_EyeFovDepth
          layer.Header.TextureOriginAtBottomLeft) none (List.range ovrEye_Count) with
      | none =>
        rw [hv] at hproj
        simp only [Option.isSome_none, Bool.false_eq_true, false_iff] at hproj
        simpa using hproj
      | some views =>
        rw [hv] at hproj
        simp only [Option.isSome_some, true_iff] at hproj
        simpa using hproj
    | ovrLayerType_EyeMatrix =>
      rw [htype] at hproj
      simp only [true_or, or_true, if_true]
      cases hv : projectionViews (eyeView env vs layer ovrLayerType_EyeMatrix
          layer.Header.TextureOriginAtBottomLeft) none (List.range ovrEye_Count) with
      | none =>
        rw [hv] at hproj
        simp only [Option.isSome_none, Bool.false_eq_true, false_iff] at hproj
        simpa using hproj
      | some views =>
        rw [hv] at hproj
        simp only [Option.isSome_some, true_iff] at hproj
        simpa using hproj
    | ovrLayerType_Quad =>
      cases hq : layer.Quad.ColorTexture <;> simp
    | ovrLayerType_Cylinder =>
      cases hq : layer.Cylinder.ColorTexture <;>
        cases hx : env.runtime.CompositionCylinder <;> simp
    | ovrLayerType_Cube =>
      cases hq : layer.Cube.CubeMapTexture <;>
        cases hx : env.runtime.CompositionCube <;> simp
    | ovrLayerType_Disabled => simp
    | ovrLayerType_EyeFovMultires => simp
    | unknown value => simp

theorem translateLayers_paired (env : Env) (hmd : ovrHmdStruct)
    (vs : Option ovrViewScaleDesc) (ls : List (Option ovrLayer_Union)) :
    List.Forall₂ (fun layerPtr layer => translateLayer env hmd vs layerPtr = LayerStep.emitted layer)
      (ls.filter (layerPasses env.runtime)) (translateLayers env hmd vs ls) := by
  induction ls with
  | nil => exact List.Forall₂.nil
  | cons layerPtr rest ih =>
    have hiff := translateLayer_emitted_iff env hmd vs layerPtr
    unfold translateLayers
    cases hstep : translateLayer env hmd vs layerPtr with
    | emitted layer =>
      have hpass : layerPasses env.runtime layerPtr = true := hiff.mp ⟨layer, hstep⟩
      rw [List.filter_cons_of_pos hpass]
      exact List.Forall₂.cons hstep ih
    | skipped =>
      have hpass : ¬ layerPasses env.runtime layerPtr = true := by
        intro h
        obtain ⟨layer, hl⟩ := hiff.mpr h
        rw [hstep] at hl
        cases hl
      rw [List.filter_cons_of_neg hpass]
      exact ih
    | ignored type =>
      have hpass : ¬ layerPasses env.runtime layerPtr = true := by
        intro h
        obtain ⟨layer, hl⟩ := hiff.mpr h
        rw [hstep] at hl
        cases hl
      rw [List.filter_cons_of_neg hpass]
      exact ih

theorem translateLayers_append (env : Env) (hmd : ovrHmdStruct)
    (vs : Option ovrViewScaleDesc) (pre post : List (Option ovrLayer_Union)) :
    translateLayers env hmd vs (pre ++ post)
      = translateLayers env hmd vs pre ++ translateLayers env hmd vs post := by
  induction pre with
  | nil => rfl
  | cons layerPtr rest ih =>
    simp only [List.cons_append, translateLayers]
    cases translateLayer env hmd vs layerPtr <;> simp [ih]

theorem ovr_EndFrame_calls (env : Env) (i : Int) (vs : Option ovrViewScaleDesc)
    (ls : List (Option ovrLayer_Union)) (w : World) :
    (ovr_EndFrame env ovrSession.valid i vs ls w).2.calls =
      w.calls ++ [XrCall.xrEndFrame w.hmd.Session
        { displayTime := w.hmd.currentFrame.predictedDisplayTime
          environmentBlendMode := XrEnvironmentBlendMode.XR_ENVIRONMENT_BLEND_MODE_OPAQUE
          layers := translateLayers env w.hmd vs ls }] := by
  unfold ovr_EndFrame
  simp only
  split_ifs <;> rfl

/-- C7: for every layer pointer list given to `ovr_EndFrame`, the call makes
exactly one Target-API call, `xrEndFrame`, and the composition-layer list it
passes corresponds one to one, in order, to the input entries that are
non-null, not `Disabled` and pass their type's validity checks
(`layerPasses`): each such entry is translated to its layer, and no other entry
contributes one. -/
theorem ovr_EndFrame_layers (env : Env) (i : Int) (vs : Option ovrViewScaleDesc)
    (ls : List (Option ovrLayer_Union)) (w : World) :
    ∃ endInfo : XrFrameEndInfo,
      (ovr_EndFrame env ovrSession.valid i vs ls w).2.calls
        = w.calls ++ [XrCall.xrEndFrame w.hmd.Session endInfo] ∧
      endInfo.layers.length = (ls.filter (layerPasses env.runtime)).length ∧
      List.Forall₂
        (fun layerPtr layer => translateLayer env w.hmd vs layerPtr = LayerStep.emitted layer)
        (ls.filter (layerPasses env.runtime)) endInfo.layers :=
  ⟨_, ovr_EndFrame_calls env i vs ls w,
    (translateLayers_paired env w.hmd vs ls).length_eq.symm,
    translateLayers_paired env w.hmd vs ls⟩

theorem translateLayer_invalid_fov (env : Env) (hmd : ovrHmdStruct)
    (vs : Option ovrViewScaleDesc) (layer : ovrLayer_Union)
    (htype : layer.Header.Type_ = ovrLayerType_EyeFov
      ∨ layer.Header.Type_ = ovrLayerType_EyeFovDepth)
    (hfov : ∃ eye, eye < ovrEye_Count ∧ ¬ 0 < GetMaxSideTan (layer.EyeFov.Fov eye)) :
    translateLayer env hmd vs (some layer) = LayerStep.skipped := by
  have hproj := projection_passes env vs layer layer.Header.Type_
    layer.Header.TextureOriginAtBottomLeft
  have hne : layer.Header.Type_ ≠ ovrLayerType_EyeMatrix := by
    rcases htype with h | h <;> rw [h] <;> decide
  have hnone : projectionViews (eyeView env vs layer layer.Header.Type_
      layer.Header.TextureOriginAtBottomLeft) none (List.range ovrEye_Count) = none := by
    cases hv : projectionViews (eyeView env vs layer layer.Header.Type_
        layer.Header.TextureOriginAtBottomLeft) none (List.range ovrEye_Count) with
    | none => rfl
    | some views =>
      exfalso
      rw [hv] at hproj
      have hall := hproj.mp rfl
      obtain ⟨eye, heye, hbad⟩ := hfov
      rw [List.all_eq_true] at hall
      have := hall eye (List.mem_range.mpr heye)
      simp only [Bool.and_eq_true, decide_eq_true_eq, hne, false_or] at this
      exact hbad this.2
  unfold translateLayer
  simp only
  rw [if_pos (by rcases htype with h | h <;> simp [h]), hnone]

/-- C8: an `EyeFov` or `EyeFovDepth` layer in which some eye's FOV has a maximum
side tangent that is not strictly positive is skipped, and the
composition-layer list `ovr_EndFrame` passes to `xrEndFrame` is the list of the
layers emitted for the entries before it followed by those emitted for the
entries after it. -/
theorem ovr_EndFrame_drops_invalid_fov (env : Env) (i : Int) (vs : Option ovrViewScaleDesc)
    (pre post : List (Option ovrLayer_Union)) (layer : ovrLayer_Union) (w : World)
    (htype : layer.Header.Type_ = ovrLayerType_EyeFov
      ∨ layer.Header.Type_ = ovrLayerType_EyeFovDepth)
    (hfov : ∃ eye, eye < ovrEye_Count ∧ ¬ 0 < GetMaxSideTan (layer.EyeFov.Fov eye)) :
    translateLayer env w.hmd vs (some layer) = LayerStep.skipped ∧
      ∃ endInfo : XrFrameEndInfo,
        (ovr_EndFrame env ovrSession.valid i vs (pre ++ some layer :: post) w).2.calls
          = w.calls ++ [XrCall.xrEndFrame w.hmd.Session endInfo] ∧
        endInfo.layers
          = translateLayers env w.hmd vs pre ++ translateLayers env w.hmd vs post := by
  have hskip := translateLayer_invalid_fov env w.hmd vs layer htype hfov
  refine ⟨hskip, _, ovr_EndFrame_calls env i vs _ w, ?_⟩
  simp only [translateLayers_append, translateLayers, hskip]

/-- Witness for `ovr_EndFrame_drops_invalid_fov`: an `EyeFov` layer with all
four tangents zero between two quad layers; the two quads are what
`xrEndFrame` receives. -/
theorem ovr_EndFrame_drops_invalid_fov_witness :
    zeroFovLayer.EyeFov.Fov 0 = ⟨0, 0, 0, 0⟩ ∧
      translateLayer okEnv sampleWorld.hmd none (some zeroFovLayer) = LayerStep.skipped ∧
      ∃ endInfo : XrFrameEndInfo,
        (ovr_EndFrame okEnv ovrSession.valid 0 none
            ([some quadLayer] ++ some zeroFovLayer :: [some quadLayer]) sampleWorld).2.calls
          = sampleWorld.calls ++ [XrCall.xrEndFrame sampleWorld.hmd.Session endInfo] ∧
        endInfo.layers
          = translateLayers okEnv sampleWorld.hmd none [some quadLayer]
            ++ translateLayers okEnv sampleWorld.hmd none [some quadLayer] :=
  ⟨rfl,
    ovr_EndFrame_drops_invalid_fov okEnv 0 none [some quadLayer] [some quadLayer] zeroFovLayer
      sampleWorld (Or.inl rfl) ⟨0, by decide, by decide⟩⟩

/-! ## Theorems: the write size of `ovr_GetInputState` -/

/-- C11: for every client minor version, non-null session and non-null output
buffer, `ovr_GetInputState` returns the result of the input query and leaves the
client's buffer with exactly the first `n` bytes replaced by those of the
queried state, where `n` is `sizeof(ovrInputState1)` below 1.7,
`sizeof(ovrInputState2)` below 1.11 and `sizeof(ovrInputState)` otherwise; every
byte at offset `n` or beyond is unchanged. -/
theorem ovr_GetInputState_write_size (env : Env) (controllerType : Nat) (buffer : Bytes)
    (w : World) :
    ∃ out : Bytes,
      ovr_GetInputState env ovrSession.valid controllerType (some buffer) w
        = ((queryInputState w.hmd controllerType).1, some out) ∧
      (∀ offset, offset < LegacyInputStateSize env.layout env.runtime.MinorVersion →
        out offset = (queryInputState w.hmd controllerType).2 offset) ∧
      (∀ offset, LegacyInputStateSize env.layout env.runtime.MinorVersion ≤ offset →
        out offset = buffer offset) := by
  refine ⟨memcpy buffer (queryInputState w.hmd controllerType).2
    (LegacyInputStateSize env.layout env.runtime.MinorVersion), ?_, ?_, ?_⟩
  · unfold ovr_GetInputState LegacyInputStateSize
    simp only
    split_ifs <;> rfl
  · intro offset h
    simp only [memcpy, h, if_true]
  · intro offset h
    simp only [memcpy, not_lt.mpr h, if_false]

/-! ## Theorems: the Target-API calls of a submit -/

theorem waitAcquiredChains_calls (xr : XrRuntime) (queue : List XrSwapchain)
    (calls : List XrCall) (h : (waitAcquiredChains xr queue calls).1 = none) :
    (waitAcquiredChains xr queue calls).2.2
      = calls ++ queue.map (fun c => XrCall.xrWaitSwapchainImage c XR_NO_DURATION) := by
  induction queue generalizing calls with
  | nil => simp [waitAcquiredChains]
  | cons front rest ih =>
    unfold waitAcquiredChains at h ⊢
    simp only at h ⊢
    split_ifs at h ⊢ with hf
    rw [ih _ h]
    simp

theorem ovr_BeginFrame_success_none (env : Env) (i : Int) (w : World)
    (hok : (ovr_BeginFrame env ovrSession.valid i w).1 = ovrSuccess) :
    (waitAcquiredChains env.xr w.hmd.AcquiredChains w.calls).1 = none := by
  cases hres : (waitAcquiredChains env.xr w.hmd.AcquiredChains w.calls).1 with
  | none => rfl
  | some rs =>
    exfalso
    have hfail := waitAcquiredChains_some env.xr _ _ rs hres
    apply ResultToOvrResult_ne_success rs hfail
    rw [← hok]
    unfold ovr_BeginFrame
    simp only
    split
    · rename_i rs1 queue calls heq
      rw [heq] at hres
      simp only [Option.some.injEq] at hres
      rw [hres]
    · rename_i queue calls heq
      rw [heq] at hres
      simp at hres

theorem ovr_BeginFrame_calls (env : Env) (i : Int) (w : World)
    (hok : (ovr_BeginFrame env ovrSession.valid i w).1 = ovrSuccess) :
    (ovr_BeginFrame env ovrSession.valid i w).2.calls
      = w.calls ++ w.hmd.AcquiredChains.map (fun c => XrCall.xrWaitSwapchainImage c XR_NO_DURATION)
          ++ [XrCall.xrBeginFrame w.hmd.Session] := by
  have hnone := ovr_BeginFrame_success_none env i w hok
  have hcalls := waitAcquiredChains_calls env.xr w.hmd.AcquiredChains w.calls hnone
  unfold ovr_BeginFrame
  simp only
  split
  · rename_i rs queue calls heq
    rw [heq] at hnone
    simp at hnone
  · rename_i queue calls heq
    rw [heq] at hcalls
    simp only at hcalls
    split_ifs <;> simp [hcalls]

theorem ovr_WaitToBeginFrame_calls (env : Env) (i : Int) (w : World) :
    (ovr_WaitToBeginFrame env ovrSession.valid i w).2.calls
        = w.calls ++ [XrCall.xrWaitFrame w.hmd.Session] ∧
      (ovr_WaitToBeginFrame env ovrSession.valid i w).2.hmd.Session = w.hmd.Session ∧
      (ovr_WaitToBeginFrame env ovrSession.valid i w).2.hmd.AcquiredChains
        = w.hmd.AcquiredChains := by
  unfold ovr_WaitToBeginFrame
  simp only
  split_ifs <;> exact ⟨rfl, rfl, rfl⟩

theorem filter_isFramePacing_waits (queue : List XrSwapchain) :
    (queue.map (fun c => XrCall.xrWaitSwapchainImage c XR_NO_DURATION)).filter
      XrCall.isFramePacing = [] := by
  induction queue with
  | nil => rfl
  | cons front rest ih => simp [XrCall.isFramePacing]

/-- C12: for every non-null session and frame index, a successful
`ovr_SubmitFrame2` makes these Target-API calls and no others: `xrEndFrame`,
then `xrWaitFrame`, then one `xrWaitSwapchainImage` for each queued chain, then
`xrBeginFrame`; so the frame-pacing calls are `EndFrame, WaitFrame, BeginFrame`
in this order, each exactly once, and `xrEndFrame` is given the display time of
the slot that was current on entry. -/
theorem ovr_SubmitFrame2_call_order (env : Env) (i : Int) (vs : Option ovrViewScaleDesc)
    (ls : List (Option ovrLayer_Union)) (w : World)
    (hok : (ovr_SubmitFrame2 env ovrSession.valid i vs ls w).1 = ovrSuccess) :
    ∃ (endInfo : XrFrameEndInfo) (made : List XrCall),
      (ovr_SubmitFrame2 env ovrSession.valid i vs ls w).2.calls = w.calls ++ made ∧
      made = [XrCall.xrEndFrame w.hmd.Session endInfo, XrCall.xrWaitFrame w.hmd.Session]
        ++ w.hmd.AcquiredChains.map (fun c => XrCall.xrWaitSwapchainImage c XR_NO_DURATION)
        ++ [XrCall.xrBeginFrame w.hmd.Session] ∧
      made.filter XrCall.isFramePacing
        = [XrCall.xrEndFrame w.hmd.Session endInfo, XrCall.xrWaitFrame w.hmd.Session,
            XrCall.xrBeginFrame w.hmd.Session] ∧
      endInfo.displayTime = w.hmd.currentFrame.predictedDisplayTime := by
  unfold ovr_SubmitFrame2 at hok ⊢
  simp only at hok ⊢
  generalize (if i ≤ 0 then w.hmd.currentFrame.frameIndex else i) = j at hok ⊢
  by_cases h1 : OVR_FAILURE (ovr_EndFrame env ovrSession.valid j vs ls w).1 = true
  · rw [if_pos h1] at hok
    simp [OVR_FAILURE, hok] at h1
  · rw [if_neg h1] at hok ⊢
    by_cases h2 : OVR_FAILURE (ovr_WaitToBeginFrame env ovrSession.valid (wrapInt64 (j + 1))
        (ovr_EndFrame env ovrSession.valid j vs ls w).2).1 = true
    · rw [if_pos h2] at hok
      simp [OVR_FAILURE, hok] at h2
    · rw [if_neg h2] at hok ⊢
      by_cases h3 : OVR_FAILURE (ovr_BeginFrame env ovrSession.valid (wrapInt64 (j + 1))
          (ovr_WaitToBeginFrame env ovrSession.valid (wrapInt64 (j + 1))
            (ovr_EndFrame env ovrSession.valid j vs ls w).2).2).1 = true
      · rw [if_pos h3] at hok
        simp [OVR_FAILURE, hok] at h3
      · rw [if_neg h3]
        have hb := (OVR_FAILURE_eq_false _).mp (by simpa using h3)
        obtain ⟨hwc, hws, hwq⟩ := ovr_WaitToBeginFrame_calls env (wrapInt64 (j + 1))
          (ovr_EndFrame env ovrSession.valid j vs ls w).2
        have hbc := ovr_BeginFrame_calls env _ _ hb
        rw [hwc, hws, hwq, ovr_EndFrame_hmd, ovr_EndFrame_calls] at hbc
        refine ⟨{ displayTime := w.hmd.currentFrame.predictedDisplayTime
                  environmentBlendMode := XrEnvironmentBlendMode.XR_ENVIRONMENT_BLEND_MODE_OPAQUE
                  layers := translateLayers env w.hmd vs ls }, _, ?_, rfl, ?_, rfl⟩
        · simp only
          rw [hbc]
          simp
        · simp [List.filter_append, filter_isFramePacing_waits, XrCall.isFramePacing]

/-! ## Theorems: the slot written by `ovr_WaitToBeginFrame` -/

theorem nextFrameState_eq_mod (env : Env) (hmd : ovrHmdStruct)
    (hk : hmd.CurrentFrame < env.ovrMaxProvidedFrameStats) :
    nextFrameState env hmd = (hmd.CurrentFrame + 1) % env.ovrMaxProvidedFrameStats := by
  unfold nextFrameState
  split_ifs with h
  · have : hmd.CurrentFrame + 1 = env.ovrMaxProvidedFrameStats := by omega
    rw [this, Nat.mod_self]
  · rw [Nat.mod_eq_of_lt (by omega)]

/-- C13: for every non-null session whose current slot is ring position `k`
(`k < MAX_FRAMES`) and every client index `i`, a successful
`ovr_WaitToBeginFrame(session, i)` makes ring position `(k + 1) mod MAX_FRAMES`
the current slot, leaves in that slot the frame state `xrWaitFrame` wrote
(predicted display time and period), and sets that slot's `frameIndex` to
`i + 1` as a `long long`, which is `i + 1` whenever that is representable;
every other slot of the ring is unchanged. -/
theorem ovr_WaitToBeginFrame_slot (env : Env) (i : Int) (w : World)
    (hk : w.hmd.CurrentFrame < env.ovrMaxProvidedFrameStats)
    (hok : (ovr_WaitToBeginFrame env ovrSession.valid i w).1 = ovrSuccess) :
    (ovr_WaitToBeginFrame env ovrSession.valid i w).2.hmd.CurrentFrame
        = (w.hmd.CurrentFrame + 1) % env.ovrMaxProvidedFrameStats ∧
      (ovr_WaitToBeginFrame env ovrSession.valid i w).2.hmd.currentFrame.toXrFrameState
        = (env.xr.xrWaitFrame w.calls w.hmd.Session
            (w.hmd.FrameStats ((w.hmd.CurrentFrame + 1) % env.ovrMaxProvidedFrameStats)
              ).toXrFrameState).2 ∧
      (ovr_WaitToBeginFrame env ovrSession.valid i w).2.hmd.currentFrame.frameIndex
        = wrapInt64 (i + 1) ∧
      (-(2 ^ 63) ≤ i + 1 → i + 1 < 2 ^ 63 →
        (ovr_WaitToBeginFrame env ovrSession.valid i w).2.hmd.currentFrame.frameIndex = i + 1) ∧
      (∀ slot, slot ≠ (w.hmd.CurrentFrame + 1) % env.ovrMaxProvidedFrameStats →
        (ovr_WaitToBeginFrame env ovrSession.valid i w).2.hmd.FrameStats slot
          = w.hmd.FrameStats slot) := by
  have hidx := ovr_WaitToBeginFrame_frameIndex env i w hok
  rw [← nextFrameState_eq_mod env w.hmd hk]
  refine ⟨?_, ?_, hidx, ?_, ?_⟩
  · unfold ovr_WaitToBeginFrame at hok ⊢
    simp only at hok ⊢
    split_ifs at hok ⊢ with hf
    · exact absurd hok (ResultToOvrResult_ne_success _ hf)
    · rfl
  · unfold ovr_WaitToBeginFrame at hok ⊢
    simp only at hok ⊢
    split_ifs at hok ⊢ with hf
    · exact absurd hok (ResultToOvrResult_ne_success _ hf)
    · simp [ovrHmdStruct.currentFrame]
  · intro hlo hhi
    rw [hidx, wrapInt64_of_range _ hlo hhi]
  · intro slot hslot
    unfold ovr_WaitToBeginFrame
    simp only
    split_ifs <;> simp [Function.update_noteq hslot]

/-- Witness for `ovr_WaitToBeginFrame_slot`: from the last slot of a ring of
five, a wait with index `7` wraps to slot `0` and stamps it `8`. -/
theorem ovr_WaitToBeginFrame_slot_witness :
    (ovr_WaitToBeginFrame okEnv ovrSession.valid 7
        { sampleWorld with hmd := { sampleHmd with CurrentFrame := 4 } }).2.hmd.CurrentFrame = 0 ∧
      (ovr_WaitToBeginFrame okEnv ovrSession.valid 7
        { sampleWorld with hmd := { sampleHmd with CurrentFrame := 4 } }
        ).2.hmd.currentFrame.frameIndex = 8 :=
  have h := ovr_WaitToBeginFrame_slot okEnv 7
    { sampleWorld with hmd := { sampleHmd with CurrentFrame := 4 } } (by decide) (by decide)
  ⟨h.1, h.2.2.2.1 (by decide) (by decide)⟩

/-- Witness for `ovr_SubmitFrame2_call_order`: a submit of frame `1` on the
sample state with the chains `7` and `8` queued makes five calls, of which the
first, second and last are the frame-pacing calls. -/
theorem ovr_SubmitFrame2_call_order_witness :
    ∃ (endInfo : XrFrameEndInfo) (made : List XrCall),
      (ovr_SubmitFrame2 okEnv ovrSession.valid 1 none [] acquiredWorld).2.calls
        = acquiredWorld.calls ++ made ∧
      made = [XrCall.xrEndFrame acquiredWorld.hmd.Session endInfo,
          XrCall.xrWaitFrame acquiredWorld.hmd.Session]
        ++ acquiredWorld.hmd.AcquiredChains.map
            (fun c => XrCall.xrWaitSwapchainImage c XR_NO_DURATION)
        ++ [XrCall.xrBeginFrame acquiredWorld.hmd.Session] ∧
      made.filter XrCall.isFramePacing
        = [XrCall.xrEndFrame acquiredWorld.hmd.Session endInfo,
            XrCall.xrWaitFrame acquiredWorld.hmd.Session,
            XrCall.xrBeginFrame acquiredWorld.hmd.Session] ∧
      endInfo.displayTime = acquiredWorld.hmd.currentFrame.predictedDisplayTime :=
  ovr_SubmitFrame2_call_order okEnv 1 none [] acquiredWorld (by decide)

/-! ## Theorems: committing a swapchain -/

/-- C14: for every non-null session and chain, a successful
`ovr_CommitTextureSwapChain` first releases the chain's image; if the chain is
not static it then acquires the next image, leaves in `CurrentIndex` the index
the acquire wrote and appends the chain's handle once to the end of the
acquired queue; if the chain is static it makes no acquire and leaves
`CurrentIndex` and the queue unchanged. -/
theorem ovr_CommitTextureSwapChain_success (env : Env) (chain : ovrTextureSwapChainData)
    (w : World)
    (hok : (ovr_CommitTextureSwapChain env ovrSession.valid (some chain) w).1 = ovrSuccess) :
    (chain.Desc.StaticImage = false →
      (ovr_CommitTextureSwapChain env ovrSession.valid (some chain) w).2.2.calls
          = w.calls ++ [XrCall.xrReleaseSwapchainImage chain.Swapchain,
              XrCall.xrAcquireSwapchainImage chain.Swapchain] ∧
        (ovr_CommitTextureSwapChain env ovrSession.valid (some chain) w).2.1
          = some { chain with CurrentIndex :=
              (env.xr.xrAcquireSwapchainImage
                (w.calls ++ [XrCall.xrReleaseSwapchainImage chain.Swapchain])
                chain.Swapchain chain.CurrentIndex).2 } ∧
        (ovr_CommitTextureSwapChain env ovrSession.valid (some chain) w).2.2.hmd.AcquiredChains
          = w.hmd.AcquiredChains ++ [chain.Swapchain]) ∧
      (chain.Desc.StaticImage = true →
        (ovr_CommitTextureSwapChain env ovrSession.valid (some chain) w).2.2.calls
            = w.calls ++ [XrCall.xrReleaseSwapchainImage chain.Swapchain] ∧
          (ovr_CommitTextureSwapChain env ovrSession.valid (some chain) w).2.1 = some chain ∧
          (ovr_CommitTextureSwapChain env ovrSession.valid (some chain) w).2.2.hmd.AcquiredChains
            = w.hmd.AcquiredChains) := by
  unfold ovr_CommitTextureSwapChain at hok ⊢
  simp only at hok ⊢
  by_cases hr : XR_FAILED (env.xr.xrReleaseSwapchainImage w.calls chain.Swapchain) = true
  · rw [if_pos hr] at hok
    exact absurd hok (ResultToOvrResult_ne_success _ hr)
  · rw [if_neg hr] at hok ⊢
    by_cases hs : chain.Desc.StaticImage = false
    · rw [if_pos hs] at hok ⊢
      by_cases ha : XR_FAILED (env.xr.xrAcquireSwapchainImage
          (w.calls ++ [XrCall.xrReleaseSwapchainImage chain.Swapchain])
          chain.Swapchain chain.CurrentIndex).1 = true
      · rw [if_pos ha] at hok
        exact absurd hok (ResultToOvrResult_ne_success _ ha)
      · rw [if_neg ha]
        refine ⟨fun _ => ⟨by simp, rfl, rfl⟩, fun hst => ?_⟩
        rw [hs] at hst
        cases hst
    · rw [if_neg hs]
      refine ⟨fun hst => absurd hst hs, fun _ => ⟨rfl, rfl, rfl⟩⟩

/-- Witness for `ovr_CommitTextureSwapChain_success`: committing the non-static
sample chain on a runtime whose calls succeed moves `CurrentIndex` from `0` to
`1` and queues the handle `7`. -/
theorem ovr_CommitTextureSwapChain_success_witness :
    (ovr_CommitTextureSwapChain okEnv ovrSession.valid (some sampleChain) sampleWorld).1
        = ovrSuccess ∧
      (ovr_CommitTextureSwapChain okEnv ovrSession.valid (some sampleChain) sampleWorld).2.1
        = some { sampleChain with CurrentIndex := 1 } ∧
      (ovr_CommitTextureSwapChain okEnv ovrSession.valid (some sampleChain)
        sampleWorld).2.2.hmd.AcquiredChains = [7] :=
  have h := (ovr_CommitTextureSwapChain_success okEnv sampleChain sampleWorld (by decide)).1
    (by decide)
  ⟨by decide, h.2.1, h.2.2⟩

/-- C15: for every non-null session and chain, if the release succeeds and the
acquire of a non-static chain fails and leaves its output index untouched, the
commit returns a failure code, the chain (with its `CurrentIndex`) is unchanged
and the acquired queue is unchanged; and if the release fails, the commit
returns a failure code, the release is the only Target-API call made (no acquire
is attempted), and the chain and the queue are unchanged. -/
theorem ovr_CommitTextureSwapChain_failure (env : Env) (chain : ovrTextureSwapChainData)
    (w : World) :
    (chain.Desc.StaticImage = false →
      XR_FAILED (env.xr.xrReleaseSwapchainImage w.calls chain.Swapchain) = false →
      XR_FAILED (env.xr.xrAcquireSwapchainImage
        (w.calls ++ [XrCall.xrReleaseSwapchainImage chain.Swapchain])
        chain.Swapchain chain.CurrentIndex).1 = true →
      (env.xr.xrAcquireSwapchainImage
        (w.calls ++ [XrCall.xrReleaseSwapchainImage chain.Swapchain])
        chain.Swapchain chain.CurrentIndex).2 = chain.CurrentIndex →
      OVR_FAILURE (ovr_CommitTextureSwapChain env ovrSession.valid (some chain) w).1 = true ∧
        (ovr_CommitTextureSwapChain env ovrSession.valid (some chain) w).2.1 = some chain ∧
        (ovr_CommitTextureSwapChain env ovrSession.valid (some chain) w).2.2.hmd.AcquiredChains
          = w.hmd.AcquiredChains) ∧
      (XR_FAILED (env.xr.xrReleaseSwapchainImage w.calls chain.Swapchain) = true →
        OVR_FAILURE (ovr_CommitTextureSwapChain env ovrSession.valid (some chain) w).1 = true ∧
          (ovr_CommitTextureSwapChain env ovrSession.valid (some chain) w).2.2.calls
            = w.calls ++ [XrCall.xrReleaseSwapchainImage chain.Swapchain] ∧
          (ovr_CommitTextureSwapChain env ovrSession.valid (some chain) w).2.1 = some chain ∧
          (ovr_CommitTextureSwapChain env ovrSession.valid (some chain) w).2.2.hmd.AcquiredChains
            = w.hmd.AcquiredChains) := by
  have hfail : ∀ rs, XR_FAILED rs = true → OVR_FAILURE (ResultToOvrResult rs) = true := by
    intro rs h
    simp [OVR_FAILURE, ResultToOvrResult_ne_success rs h]
  unfold ovr_CommitTextureSwapChain
  simp only
  constructor
  · intro hs hr ha hidx
    rw [if_neg (by simp [hr]), if_pos hs, if_pos ha]
    refine ⟨hfail _ ha, ?_, rfl⟩
    simp only [hidx]
  · intro hr
    rw [if_pos hr]
    exact ⟨hfail _ hr, rfl, rfl, rfl⟩

/-- Witness for `ovr_CommitTextureSwapChain_failure`: committing the non-static
sample chain on a runtime whose acquire fails. -/
theorem ovr_CommitTextureSwapChain_failure_witness :
    OVR_FAILURE (ovr_CommitTextureSwapChain acquireFailsEnv ovrSession.valid (some sampleChain)
        sampleWorld).1 = true ∧
      (ovr_CommitTextureSwapChain acquireFailsEnv ovrSession.valid (some sampleChain)
        sampleWorld).2.1 = some sampleChain ∧
      (ovr_CommitTextureSwapChain acquireFailsEnv ovrSession.valid (some sampleChain)
        sampleWorld).2.2.hmd.AcquiredChains = sampleWorld.hmd.AcquiredChains :=
  (ovr_CommitTextureSwapChain_failure acquireFailsEnv sampleChain sampleWorld).1
    (by decide) (by decide) (by decide) (by decide)

/-! ## Theorems: entry points without a Target-API counterpart -/

/-- C16 as stated fails: the external-camera entry points return
`ovrError_NoExternalCameraInfo`, which is not `ovrError_Unsupported`. -/
theorem ovr_GetExternalCameras_not_Unsupported :
    ovr_GetExternalCameras ovrSession.valid none none ≠ ovrError_Unsupported ∧
      ovr_SetExternalCameraProperties ovrSession.valid none none none ≠ ovrError_Unsupported := by
  decide

/-- C16 (amended): for every input, the desktop-window, avatar-hands,
boundary look-and-feel, perf-stats and client-colour entry points return
`ovrError_Unsupported`, and the two external-camera entry points return
`ovrError_NoExternalCameraInfo`. -/
theorem unsupported_entry_points (session : ovrSession) (handle : Option Nat)
    (desc : Option Bytes) (window : Nat) (showHands : Bool) (count : Option Nat)
    (name : Option String) (intrinsics extrinsics : Option Bytes) :
    ovr_InitDesktopWindow session handle = ovrError_Unsupported ∧
      ovr_ShowDesktopWindow session desc = ovrError_Unsupported ∧
      ovr_HideDesktopWindow session window = ovrError_Unsupported ∧
      ovr_ShowAvatarHands session showHands = ovrError_Unsupported ∧
      ovr_SetBoundaryLookAndFeel session desc = ovrError_Unsupported ∧
      ovr_ResetBoundaryLookAndFeel session = ovrError_Unsupported ∧
      ovr_GetPerfStats session desc = ovrError_Unsupported ∧
      ovr_ResetPerfStats session = ovrError_Unsupported ∧
      ovr_SetClientColorDesc session desc = ovrError_Unsupported ∧
      ovr_GetExternalCameras session desc count = ovrError_NoExternalCameraInfo ∧
      ovr_SetExternalCameraProperties session name intrinsics extrinsics
        = ovrError_NoExternalCameraInfo :=
  ⟨rfl, rfl, rfl, rfl, rfl, rfl, rfl, rfl, rfl, rfl, rfl⟩

/-! ## Theorems: destroying a swapchain -/

/-- C19 as stated fails: for the requested index `0` on a session whose current
slot has display time `100`, period `11` and frame index `5`, the time converted
is `100`, while the formula of the claim gives `155`. -/
theorem ovr_GetPredictedDisplayTime_index_zero :
    (ovr_GetPredictedDisplayTime okEnv 0 waitedWorld).2.calls
        = waitedWorld.calls ++ [XrCall.xrConvertTimeToWin32PerformanceCounterKHR 100] ∧
      waitedWorld.hmd.currentFrame.predictedDisplayTime
          + waitedWorld.hmd.currentFrame.predictedDisplayPeriod
            * (waitedWorld.hmd.currentFrame.frameIndex - 0) = 155 ∧
      (100 : Int) ≠ 155 := by
  refine ⟨rfl, by decide, by decide⟩

/-- C19 (amended): `ovr_GetPredictedDisplayTime` makes one Target-API call, the
conversion of a time `t`.  For a requested frame index `r > 0`, `t` equals
`current.predictedDisplayTime + current.predictedDisplayPeriod *
(current.frameIndex - r)` in exact integer arithmetic whenever the difference,
the product and the sum fit in 64 bits; for `r ≤ 0`, `t` is
`current.predictedDisplayTime`.  The function returns `0` when the conversion
fails, and otherwise the converted counter value times the inverse counter
frequency. -/
theorem ovr_GetPredictedDisplayTime_time (env : Env) (r : Int) (w : World) :
    ∃ t : Int,
      (ovr_GetPredictedDisplayTime env r w).2.calls
        = w.calls ++ [XrCall.xrConvertTimeToWin32PerformanceCounterKHR t] ∧
      (0 < r →
        fitsInt64 (w.hmd.currentFrame.frameIndex - r) →
        fitsInt64 (w.hmd.currentFrame.predictedDisplayPeriod
          * (w.hmd.currentFrame.frameIndex - r)) →
        fitsInt64 (w.hmd.currentFrame.predictedDisplayTime
          + w.hmd.currentFrame.predictedDisplayPeriod * (w.hmd.currentFrame.frameIndex - r)) →
        t = w.hmd.currentFrame.predictedDisplayTime
          + w.hmd.currentFrame.predictedDisplayPeriod * (w.hmd.currentFrame.frameIndex - r)) ∧
      (r ≤ 0 → t = w.hmd.currentFrame.predictedDisplayTime) ∧
      (XR_FAILED (env.xr.xrConvertTimeToWin32PerformanceCounterKHR w.calls t).1 = true →
        (ovr_GetPredictedDisplayTime env r w).1 = 0) ∧
      (XR_FAILED (env.xr.xrConvertTimeToWin32PerformanceCounterKHR w.calls t).1 = false →
        (ovr_GetPredictedDisplayTime env r w).1
          = ((env.xr.xrConvertTimeToWin32PerformanceCounterKHR w.calls t).2 : ℚ)
            * (1 / (env.perfFrequency : ℚ))) := by
  refine ⟨if r > 0 then
      wrapInt64 (w.hmd.currentFrame.predictedDisplayTime +
        wrapInt64 (w.hmd.currentFrame.predictedDisplayPeriod *
          wrapInt64 (w.hmd.currentFrame.frameIndex - r)))
    else w.hmd.currentFrame.predictedDisplayTime, ?_, ?_, ?_, ?_, ?_⟩
  · unfold ovr_GetPredictedDisplayTime
    simp only
    split_ifs <;> rfl
  · intro hr h1 h2 h3
    rw [if_pos hr, wrapInt64_of_range _ h1.1 h1.2, wrapInt64_of_range _ h2.1 h2.2,
      wrapInt64_of_range _ h3.1 h3.2]
  · intro hr
    rw [if_neg (not_lt.mpr hr)]
  · intro hf
    unfold ovr_GetPredictedDisplayTime
    simp only
    rw [if_pos hf]
  · intro hf
    unfold ovr_GetPredictedDisplayTime
    simp only
    rw [if_neg (by simp [hf])]

/-- Witness for `ovr_GetPredictedDisplayTime_time`: the requested index `3` on a
current slot with display time `100`, period `11` and frame index `5` converts
the time `122`; and on a runtime whose conversion fails the result is `0`. -/
theorem ovr_GetPredictedDisplayTime_time_witness :
    (ovr_GetPredictedDisplayTime okEnv 3 waitedWorld).2.calls
        = waitedWorld.calls ++ [XrCall.xrConvertTimeToWin32PerformanceCounterKHR 122] ∧
      (ovr_GetPredictedDisplayTime convertFailsEnv 3 waitedWorld).1 = 0 := by
  obtain ⟨t, hcalls, hpos, _, _, _⟩ := ovr_GetPredictedDisplayTime_time okEnv 3 waitedWorld
  obtain ⟨t2, _, _, _, hfail, _⟩ := ovr_GetPredictedDisplayTime_time convertFailsEnv 3 waitedWorld
  have ht : t = 122 := by
    rw [hpos (by decide) (by unfold fitsInt64; decide) (by unfold fitsInt64; decide)
      (by unfold fitsInt64; decide)]
    decide
  rw [ht] at hcalls
  exact ⟨hcalls, hfail rfl⟩

/-! ## Theorems: the boundary test -/

theorem clamp_neg (a h : ℚ) (hh : 0 ≤ h) :
    (if (if -a > -h then -a else -h) < h then (if -a > -h then -a else -h) else h)
      = -(if (if a > -h then a else -h) < h then (if a > -h then a else -h) else h) := by
  split_ifs <;> linarith

theorem clampToBoundary_neg (vm : VectorMath) (h p : ovrVector2f) (hx : 0 ≤ h.x)
    (hy : 0 ≤ h.y) :
    clampToBoundary vm h ⟨-p.x, -p.y⟩
      = ⟨-(clampToBoundary vm h p).x, -(clampToBoundary vm h p).y⟩ := by
  have hc : Vector2f_Min (Vector2f_Max ⟨-p.x, -p.y⟩ ⟨-h.x, -h.y⟩) h
      = ⟨-(Vector2f_Min (Vector2f_Max p ⟨-h.x, -h.y⟩) h).x,
          -(Vector2f_Min (Vector2f_Max p ⟨-h.x, -h.y⟩) h).y⟩ := by
    simp only [Vector2f_Min, Vector2f_Max, clamp_neg _ _ hx, clamp_neg _ _ hy]
  have hcmp : ∀ c : ovrVector2f,
      Vector2f_Compare vm ⟨-c.x, -c.y⟩ ⟨-p.x, -p.y⟩ = Vector2f_Compare vm c p := by
    intro c
    simp only [Vector2f_Compare]
    rw [show -p.x - -c.x = -(p.x - c.x) by ring, show -p.y - -c.y = -(p.y - c.y) by ring,
      abs_neg, abs_neg]
  unfold clampToBoundary
  simp only [hc, hcmp, abs_neg]
  generalize Vector2f_Min (Vector2f_Max p ⟨-h.x, -h.y⟩) h = c
  split_ifs
  · simp only [ovrVector2f.mk.injEq, and_true]
    rw [neg_div, mul_neg]
  · simp only [ovrVector2f.mk.injEq, true_and]
    rw [neg_div, mul_neg]
  · rfl

theorem testBoundaryPoint_distance_neg (vm : VectorMath) (bounds : ovrVector3f) (x y z : ℚ)
    (hx : 0 ≤ bounds.x) (hz : 0 ≤ bounds.z) :
    (testBoundaryPoint vm bounds ⟨-x, y, -z⟩).ClosestDistance
      = (testBoundaryPoint vm bounds ⟨x, y, z⟩).ClosestDistance := by
  have hneg := clampToBoundary_neg vm ⟨bounds.x / 2, bounds.z / 2⟩ ⟨x, z⟩
    (div_nonneg hx (by norm_num)) (div_nonneg hz (by norm_num))
  simp only at hneg
  simp only [testBoundaryPoint, Vector2f_Length, hneg]
  congr 1
  ring

/-- C17: for every boundary rectangle (stage bounds of non-negative width and
height) and every point `(x, y, z)`, `ovr_TestBoundaryPoint` on `(x, y, z)` and
on `(-x, y, -z)`, made in the same state, return the same result code and
report the same `ClosestDistance`, in exact arithmetic. -/
theorem ovr_TestBoundaryPoint_symmetric (env : Env) (session : ovrSession) (x y z : ℚ)
    (boundaryType : Nat) (w : World)
    (hwidth : 0 ≤ (env.xr.xrGetReferenceSpaceBoundsRect w.calls w.hmd.Session
      XR_REFERENCE_SPACE_TYPE_STAGE).2.width)
    (hheight : 0 ≤ (env.xr.xrGetReferenceSpaceBoundsRect w.calls w.hmd.Session
      XR_REFERENCE_SPACE_TYPE_STAGE).2.height) :
    (ovr_TestBoundaryPoint env session ⟨-x, y, -z⟩ boundaryType w).1
        = (ovr_TestBoundaryPoint env session ⟨x, y, z⟩ boundaryType w).1 ∧
      (ovr_TestBoundaryPoint env session ⟨-x, y, -z⟩ boundaryType w).2.1.map
          (fun result => result.ClosestDistance)
        = (ovr_TestBoundaryPoint env session ⟨x, y, z⟩ boundaryType w).2.1.map
          (fun result => result.ClosestDistance) := by
  cases session with
  | null => exact ⟨rfl, rfl⟩
  | valid =>
    unfold ovr_TestBoundaryPoint ovr_GetBoundaryDimensions
    simp only
    by_cases hf : XR_FAILED (env.xr.xrGetReferenceSpaceBoundsRect w.calls w.hmd.Session
        XR_REFERENCE_SPACE_TYPE_STAGE).1 = true
    · have hfail : OVR_FAILURE (ResultToOvrResult (env.xr.xrGetReferenceSpaceBoundsRect w.calls
          w.hmd.Session XR_REFERENCE_SPACE_TYPE_STAGE).1) = true := by
        simp [OVR_FAILURE, ResultToOvrResult_ne_success _ hf]
      simp [hf, hfail]
    · simp only [hf, if_false]
      have hnf : OVR_FAILURE ovrSuccess = false := rfl
      simp only [hnf, Bool.false_eq_true, if_false, Option.map_some', true_and,
        Option.some.injEq]
      exact testBoundaryPoint_distance_neg env.vmath _ x y z hwidth hheight

/-- Witness for `ovr_TestBoundaryPoint_symmetric`: the points `(3, 1, 0)` and
`(-3, 1, 0)` against the `4 × 2` stage bounds of the sample runtime are both at
distance `1` from the rectangle. -/
theorem ovr_TestBoundaryPoint_symmetric_witness :
    (ovr_TestBoundaryPoint okEnv ovrSession.valid ⟨3, 1, 0⟩ 0 sampleWorld).2.1.map
        (fun result => result.ClosestDistance) = some 1 ∧
      (ovr_TestBoundaryPoint okEnv ovrSession.valid ⟨-3, 1, -0⟩ 0 sampleWorld).2.1.map
          (fun result => result.ClosestDistance)
        = (ovr_TestBoundaryPoint okEnv ovrSession.valid ⟨3, 1, 0⟩ 0 sampleWorld).2.1.map
          (fun result => result.ClosestDistance) := by
  have hroot : searchSqrt 1 = 1 := by decide
  refine ⟨?_, (ovr_TestBoundaryPoint_symmetric okEnv ovrSession.valid 3 1 0 0 sampleWorld
    (by decide) (by decide)).2⟩
  simp [ovr_TestBoundaryPoint, ovr_GetBoundaryDimensions, okEnv, okRuntime, sampleWorld,
    sampleHmd, XR_FAILED, XR_SUCCESS, OVR_FAILURE, testBoundaryPoint, clampToBoundary,
    Vector2f_Min, Vector2f_Max, Vector2f_Compare, Vector2f_Length, sampleSqrt]
  norm_num [hroot]

/-! ## Theorems: the header of an emitted layer -/

theorem translateLayer_emitted_header (env : Env) (hmd : ovrHmdStruct)
    (vs : Option ovrViewScaleDesc) (layerPtr : Option ovrLayer_Union)
    (emitted : XrCompositionLayerUnion)
    (h : translateLayer env hmd vs layerPtr = LayerStep.emitted emitted) :
    ∃ layer, layerPtr = some layer ∧
      emitted.layerFlags = XR_COMPOSITION_LAYER_BLEND_TEXTURE_SOURCE_ALPHA_BIT ∧
      emitted.space =
        if layer.Header.HeadLocked then hmd.ViewSpace
        else if hmd.TrackingSpace = XR_REFERENCE_SPACE_TYPE_STAGE then hmd.StageSpace
        else hmd.LocalSpace := by
  cases layerPtr with
  | none => simp [translateLayer] at h
  | some layer =>
    refine ⟨layer, rfl, ?_⟩
    unfold translateLayer at h
    simp only at h
    split_ifs at h <;> (try split at h) <;> cases h <;> exact ⟨rfl, rfl⟩

theorem mem_translateLayers (env : Env) (hmd : ovrHmdStruct) (vs : Option ovrViewScaleDesc)
    (ls : List (Option ovrLayer_Union)) (emitted : XrCompositionLayerUnion)
    (h : emitted ∈ translateLayers env hmd vs ls) :
    ∃ layerPtr ∈ ls, translateLayer env hmd vs layerPtr = LayerStep.emitted emitted := by
  induction ls with
  | nil => simp [translateLayers] at h
  | cons layerPtr rest ih =>
    unfold translateLayers at h
    cases hstep : translateLayer env hmd vs layerPtr with
    | emitted layer =>
      rw [hstep] at h
      simp only [List.mem_cons] at h
      rcases h with rfl | h
      · exact ⟨layerPtr, List.mem_cons_self _ _, hstep⟩
      · obtain ⟨q, hq, hqe⟩ := ih h
        exact ⟨q, List.mem_cons_of_mem _ hq, hqe⟩
    | skipped =>
      rw [hstep] at h
      obtain ⟨q, hq, hqe⟩ := ih h
      exact ⟨q, List.mem_cons_of_mem _ hq, hqe⟩
    | ignored type =>
      rw [hstep] at h
      obtain ⟨q, hq, hqe⟩ := ih h
      exact ⟨q, List.mem_cons_of_mem _ hq, hqe⟩

/-- C21: every layer in the composition-layer list `ovr_EndFrame` passes to
`xrEndFrame` is the translation of an entry of the input list, its layer flags
are the texture-source-alpha blend bit, and its space is the View space when
that entry's `HeadLocked` flag is set, otherwise the Stage space when the
session's tracking space is `STAGE`, otherwise the Local space. -/
theorem ovr_EndFrame_layer_header (env : Env) (i : Int) (vs : Option ovrViewScaleDesc)
    (ls : List (Option ovrLayer_Union)) (w : World) :
    ∃ endInfo : XrFrameEndInfo,
      (ovr_EndFrame env ovrSession.valid i vs ls w).2.calls
        = w.calls ++ [XrCall.xrEndFrame w.hmd.Session endInfo] ∧
      ∀ emitted ∈ endInfo.layers, ∃ layer, some layer ∈ ls ∧
        translateLayer env w.hmd vs (some layer) = LayerStep.emitted emitted ∧
        emitted.layerFlags = XR_COMPOSITION_LAYER_BLEND_TEXTURE_SOURCE_ALPHA_BIT ∧
        emitted.space =
          if layer.Header.HeadLocked then w.hmd.ViewSpace
          else if w.hmd.TrackingSpace = XR_REFERENCE_SPACE_TYPE_STAGE then w.hmd.StageSpace
          else w.hmd.LocalSpace := by
  refine ⟨_, ovr_EndFrame_calls env i vs ls w, ?_⟩
  intro emitted hmem
  obtain ⟨layerPtr, hin, hstep⟩ := mem_translateLayers env w.hmd vs ls emitted hmem
  obtain ⟨layer, rfl, hflags, hspace⟩ :=
    translateLayer_emitted_header env w.hmd vs layerPtr emitted hstep
  exact ⟨layer, hin, hstep, hflags, hspace⟩

/-! ## Theorems: the clamped viewport as a sub-image -/

/-- C22, what the code does: for every viewport and every chain of positive
width and height, the rectangle `ClampRect` returns has a non-negative offset,
the componentwise `max(pos, (0,0))`, and a positive extent that does not exceed
the chain's size on either axis.  The offset is not held against the chain, so
nothing bounds offset plus extent. -/
theorem ClampRect_offset_extent (rect : ovrRecti) (chain : ovrTextureSwapChainData)
    (hw : 0 < chain.Desc.Width) (hh : 0 < chain.Desc.Height) :
    (ClampRect rect chain).offset = ⟨max rect.Pos.x 0, max rect.Pos.y 0⟩ ∧
      0 ≤ (ClampRect rect chain).offset.x ∧ 0 ≤ (ClampRect rect chain).offset.y ∧
      0 < (ClampRect rect chain).extent.width ∧ 0 < (ClampRect rect chain).extent.height ∧
      (ClampRect rect chain).extent.width ≤ chain.Desc.Width ∧
      (ClampRect rect chain).extent.height ≤ chain.Desc.Height := by
  obtain ⟨⟨px, py⟩, ⟨sw, sh⟩⟩ := rect
  obtain ⟨⟨cw, ch, st⟩, sc, im, ci, len⟩ := chain
  simp only at hw hh
  simp only [ClampRect, XR_Recti, Vector2i_Max, Sizei_Min]
  have hmx : (if px > 0 then px else 0) = max px 0 := by
    split_ifs with h
    · exact (max_eq_left h.le).symm
    · exact (max_eq_right (not_lt.mp h)).symm
  have hmy : (if py > 0 then py else 0) = max py 0 := by
    split_ifs with h
    · exact (max_eq_left h.le).symm
    · exact (max_eq_right (not_lt.mp h)).symm
  by_cases hs : sw ≤ 0 ∨ sh ≤ 0
  · simp only [hs, if_true, hmx, hmy]
    exact ⟨trivial, le_max_right _ _, le_max_right _ _, hw, hh, le_refl _, le_refl _⟩
  · simp only [hs, if_false, hmx, hmy]
    refine ⟨trivial, le_max_right _ _, le_max_right _ _, ?_, ?_, ?_, ?_⟩ <;>
      split_ifs <;> omega

/-- Witness for `ClampRect_offset_extent`, at the input on which C22 fails:
the `64 × 64` viewport at `(32, 0)` against a `64 × 64` chain keeps its offset
and its extent, so the rectangle ends at `96`, beyond the chain's width. -/
theorem ClampRect_offset_extent_witness :
    ClampRect ⟨⟨32, 0⟩, ⟨64, 64⟩⟩ (chainOfSize 64 64) = ⟨⟨32, 0⟩, ⟨64, 64⟩⟩ ∧
      ¬ ((ClampRect ⟨⟨32, 0⟩, ⟨64, 64⟩⟩ (chainOfSize 64 64)).offset.x
          + (ClampRect ⟨⟨32, 0⟩, ⟨64, 64⟩⟩ (chainOfSize 64 64)).extent.width
        ≤ (chainOfSize 64 64).Desc.Width) ∧
      (ClampRect ⟨⟨32, 0⟩, ⟨64, 64⟩⟩ (chainOfSize 64 64)).extent.width
        ≤ (chainOfSize 64 64).Desc.Width :=
  ⟨by decide, by decide,
    (ClampRect_offset_extent ⟨⟨32, 0⟩, ⟨64, 64⟩⟩ (chainOfSize 64 64)
      (by decide) (by decide)).2.2.2.2.2.1⟩

/-! ## Theorems: `CurrentFrame` stays in the ring -/

theorem nextFrameState_lt (env : Env) (hmd : ovrHmdStruct)
    (hk : hmd.CurrentFrame < env.ovrMaxProvidedFrameStats) :
    nextFrameState env hmd < env.ovrMaxProvidedFrameStats := by
  unfold nextFrameState
  split_ifs <;> omega

theorem ovr_WaitToBeginFrame_CurrentFrame (env : Env) (i : Int) (w : World) :
    (ovr_WaitToBeginFrame env ovrSession.valid i w).2.hmd.CurrentFrame =
      if XR_FAILED (env.xr.xrWaitFrame w.calls w.hmd.Session
          (w.hmd.FrameStats (nextFrameState env w.hmd)).toXrFrameState).1 = true
      then w.hmd.CurrentFrame else nextFrameState env w.hmd := by
  unfold ovr_WaitToBeginFrame
  simp only
  split_ifs <;> rfl

theorem ovr_WaitToBeginFrame_CurrentFrame_lt (env : Env) (i : Int) (w : World)
    (hk : w.hmd.CurrentFrame < env.ovrMaxProvidedFrameStats) :
    (ovr_WaitToBeginFrame env ovrSession.valid i w).2.hmd.CurrentFrame
      < env.ovrMaxProvidedFrameStats := by
  rw [ovr_WaitToBeginFrame_CurrentFrame]
  split_ifs
  · exact hk
  · exact nextFrameState_lt env w.hmd hk

theorem ovr_SubmitFrame2_CurrentFrame (env : Env) (i : Int) (vs : Option ovrViewScaleDesc)
    (ls : List (Option ovrLayer_Union)) (w : World) :
    (ovr_SubmitFrame2 env ovrSession.valid i vs ls w).2.hmd.CurrentFrame = w.hmd.CurrentFrame ∨
      ∃ j, (ovr_SubmitFrame2 env ovrSession.valid i vs ls w).2.hmd.CurrentFrame
        = (ovr_WaitToBeginFrame env ovrSession.valid j
            (ovr_EndFrame env ovrSession.valid i vs ls w).2).2.hmd.CurrentFrame := by
  have hend : ∀ j, (ovr_EndFrame env ovrSession.valid j vs ls w).2
      = (ovr_EndFrame env ovrSession.valid i vs ls w).2 := by
    intro j
    unfold ovr_EndFrame
    simp only
  unfold ovr_SubmitFrame2
  simp only
  generalize (if i ≤ 0 then w.hmd.currentFrame.frameIndex else i) = j
  split_ifs
  · left
    rw [ovr_EndFrame_hmd]
  · right
    exact ⟨wrapInt64 (j + 1), by rw [hend j]⟩
  · right
    exact ⟨wrapInt64 (j + 1), by rw [(ovr_BeginFrame_frames env _ _).2, hend j]⟩
  · right
    exact ⟨wrapInt64 (j + 1), by
      show (ovr_BeginFrame env ovrSession.valid (wrapInt64 (j + 1)) _).2.hmd.CurrentFrame = _
      rw [(ovr_BeginFrame_frames env _ _).2, hend j]⟩

theorem ApiCall.run_CurrentFrame_lt (env : Env) (call : ApiCall) (w : World)
    (hk : w.hmd.CurrentFrame < env.ovrMaxProvidedFrameStats) :
    (call.run env w).2.hmd.CurrentFrame < env.ovrMaxProvidedFrameStats := by
  have submit : ∀ (i : Int) (vs : Option ovrViewScaleDesc) (ls : List (Option ovrLayer_Union)),
      (ovr_SubmitFrame2 env ovrSession.valid i vs ls w).2.hmd.CurrentFrame
        < env.ovrMaxProvidedFrameStats := by
    intro i vs ls
    rcases ovr_SubmitFrame2_CurrentFrame env i vs ls w with h | ⟨j, h⟩
    · rw [h]
      exact hk
    · rw [h]
      exact ovr_WaitToBeginFrame_CurrentFrame_lt env j _ (by rw [ovr_EndFrame_hmd]; exact hk)
  cases call with
  | GetSessionStatus out events =>
    simp only [ApiCall.run, ovr_GetSessionStatus]
    cases out with
    | none => exact hk
    | some o =>
      simp only [(pollEvents_frames env.math events w).2]
      exact hk
  | ClearShouldRecenterFlag => exact hk
  | RecenterTrackingOrigin =>
    simp only [ApiCall.run, (ovr_RecenterTrackingOrigin_frames env w).2]
    exact hk
  | SpecifyTrackingOrigin pose =>
    simp only [ApiCall.run, (ovr_SpecifyTrackingOrigin_frames env pose w).2]
    exact hk
  | WaitToBeginFrame i => exact ovr_WaitToBeginFrame_CurrentFrame_lt env i w hk
  | BeginFrame i =>
    simp only [ApiCall.run, (ovr_BeginFrame_frames env i w).2]
    exact hk
  | EndFrame i vs ls =>
    simp only [ApiCall.run, ovr_EndFrame_hmd]
    exact hk
  | SubmitFrame2 i vs ls => exact submit i vs ls
  | SubmitFrame i ls => exact submit i none ls

/-- C23: if `CurrentFrame` points at one of the slots of the frame ring, it
still does after every call of any sequence of calls (the frame calls
`ovr_WaitToBeginFrame`, `ovr_BeginFrame`, `ovr_EndFrame`, `ovr_SubmitFrame2` and
`ovr_SubmitFrame` with any frame index, successful or failed, and the status and
recentering calls); and when `xrWaitFrame` fails, `ovr_WaitToBeginFrame` returns
a failure and leaves `CurrentFrame` at the slot it pointed at, as does every
`ovr_WaitToBeginFrame` that does not return success, and as does
`ovr_SubmitFrame2` when its `xrWaitFrame` fails. -/
theorem CurrentFrame_stays_in_ring (env : Env) (calls : List ApiCall) (w : World)
    (hk : w.hmd.CurrentFrame < env.ovrMaxProvidedFrameStats) :
    (∀ r ∈ runCalls env calls w, r.2.hmd.CurrentFrame < env.ovrMaxProvidedFrameStats) ∧
      (∀ i : Int,
        XR_FAILED (env.xr.xrWaitFrame w.calls w.hmd.Session
          (w.hmd.FrameStats (nextFrameState env w.hmd)).toXrFrameState).1 = true →
        (ovr_WaitToBeginFrame env ovrSession.valid i w).1 ≠ ovrSuccess ∧
          (ovr_WaitToBeginFrame env ovrSession.valid i w).2.hmd.CurrentFrame
            = w.hmd.CurrentFrame) ∧
      (∀ i : Int, (ovr_WaitToBeginFrame env ovrSession.valid i w).1 ≠ ovrSuccess →
        (ovr_WaitToBeginFrame env ovrSession.valid i w).2.hmd.CurrentFrame
          = w.hmd.CurrentFrame) ∧
      (∀ (i : Int) (vs : Option ovrViewScaleDesc) (ls : List (Option ovrLayer_Union)),
        XR_FAILED (env.xr.xrWaitFrame (ovr_EndFrame env ovrSession.valid i vs ls w).2.calls
          w.hmd.Session (w.hmd.FrameStats (nextFrameState env w.hmd)).toXrFrameState).1 = true →
        (ovr_SubmitFrame2 env ovrSession.valid i vs ls w).2.hmd.CurrentFrame
          = w.hmd.CurrentFrame) := by
  refine ⟨?_, ?_, ?_, ?_⟩
  · induction calls generalizing w with
    | nil => simp [runCalls]
    | cons call rest ih =>
      intro r hr
      simp only [runCalls, List.mem_cons] at hr
      have hstep := ApiCall.run_CurrentFrame_lt env call w hk
      rcases hr with rfl | hr
      · exact hstep
      · exact ih (call.run env w).2 hstep r hr
  · intro i hf
    refine ⟨?_, ?_⟩
    · unfold ovr_WaitToBeginFrame
      simp only
      rw [if_pos hf]
      exact ResultToOvrResult_ne_success _ hf
    · rw [ovr_WaitToBeginFrame_CurrentFrame, if_pos hf]
  · intro i hne
    rw [ovr_WaitToBeginFrame_CurrentFrame]
    split_ifs with hf
    · rfl
    · exfalso
      apply hne
      unfold ovr_WaitToBeginFrame
      simp only
      rw [if_neg hf]
  · intro i vs ls hf
    rcases ovr_SubmitFrame2_CurrentFrame env i vs ls w with h | ⟨j, h⟩
    · exact h
    · rw [h, ovr_WaitToBeginFrame_CurrentFrame, ovr_EndFrame_hmd, if_pos hf]

/-- Witness for `CurrentFrame_stays_in_ring`: six submits from slot `3` of a
ring of five visit the slots `4, 0, 1, 2, 3, 4`, all below five. -/
theorem CurrentFrame_stays_in_ring_witness :
    (3 : Nat) < okEnv.ovrMaxProvidedFrameStats ∧
      (runCalls okEnv (List.replicate 6 (ApiCall.SubmitFrame2 0 none []))
        { sampleWorld with hmd := { sampleHmd with CurrentFrame := 3 } }).map
          (fun r => r.2.hmd.CurrentFrame) = [4, 0, 1, 2, 3, 4] ∧
      ∀ r ∈ runCalls okEnv (List.replicate 6 (ApiCall.SubmitFrame2 0 none []))
          { sampleWorld with hmd := { sampleHmd with CurrentFrame := 3 } },
        r.2.hmd.CurrentFrame < okEnv.ovrMaxProvidedFrameStats :=
  ⟨by decide, by decide,
    (CurrentFrame_stays_in_ring okEnv (List.replicate 6 (ApiCall.SubmitFrame2 0 none []))
      { sampleWorld with hmd := { sampleHmd with CurrentFrame := 3 } } (by decide)).1⟩

/-! ## Theorems: the fall-through branch of the layer loop -/

/-- C24, what the code does: the final `else` branch of the layer loop is
reached exactly by the layers whose type is none of `EyeFov`, `EyeMatrix`,
`EyeFovDepth`, `Quad`, is not `Cylinder` with the cylinder extension and is not
`Cube` with the cube extension; the type the assertion there compares with
`ovrLayerType_Disabled` is the layer's type, whatever it is. -/
theorem translateLayer_ignored_iff (env : Env) (hmd : ovrHmdStruct)
    (vs : Option ovrViewScaleDesc) (layer : ovrLayer_Union) (type : ovrLayerType) :
    translateLayer env hmd vs (some layer) = LayerStep.ignored type ↔
      type = layer.Header.Type_ ∧
        ¬ (layer.Header.Type_ = ovrLayerType_EyeFov ∨ layer.Header.Type_ = ovrLayerType_EyeMatrix
          ∨ layer.Header.Type_ = ovrLayerType_EyeFovDepth) ∧
        ¬ layer.Header.Type_ = ovrLayerType_Quad ∧
        ¬ (layer.Header.Type_ = ovrLayerType_Cylinder ∧ env.runtime.CompositionCylinder = true) ∧
        ¬ (layer.Header.Type_ = ovrLayerType_Cube ∧ env.runtime.CompositionCube = true) := by
  constructor
  · intro h
    unfold translateLayer at h
    simp only at h
    split_ifs at h with c1 c2 c3 c4 <;> (try split at h) <;> cases h
    exact ⟨rfl, c1, c2, c3, c4⟩
  · rintro ⟨rfl, c1, c2, c3, c4⟩
    unfold translateLayer
    simp only
    rw [if_neg c1, if_neg c2, if_neg c3, if_neg c4]

/-- Witness for `translateLayer_ignored_iff`, at the input on which C24 fails:
on a runtime without the cylinder extension a cylinder layer reaches the final
`else` branch, where the asserted type is `ovrLayerType_Cylinder`, not
`ovrLayerType_Disabled`; in a release build the layer is dropped and
`xrEndFrame` receives an empty list. -/
theorem translateLayer_ignored_iff_witness :
    translateLayer noCylinderEnv sampleHmd none (some cylinderLayer)
        = LayerStep.ignored ovrLayerType_Cylinder ∧
      ovrLayerType_Cylinder ≠ ovrLayerType_Disabled ∧
      (translateLayers noCylinderEnv sampleHmd none [some cylinderLayer]).length = 0 :=
  ⟨(translateLayer_ignored_iff noCylinderEnv sampleHmd none cylinderLayer
      ovrLayerType_Cylinder).mpr
      ⟨rfl, by decide, by decide, by decide, by decide⟩,
    by decide, by decide⟩

/-! ## Theorems: the distance to the boundary -/

theorem searchSqrt_fold (a m : Nat) :
    (List.range (m + 1)).foldl (fun root k => if k * k ≤ a * a then k else root) 0
      = min m a := by
  induction m with
  | zero => simp [List.range_succ]
  | succ m ih =>
    rw [List.range_succ, List.foldl_append, ih]
    simp only [List.foldl_cons, List.foldl_nil]
    by_cases h : m + 1 ≤ a
    · rw [if_pos (Nat.mul_self_le_mul_self h)]
      omega
    · rw [if_neg (fun hle => h (Nat.mul_self_le_mul_self_iff.mp hle))]
      omega

theorem searchSqrt_mul_self (a : Nat) : searchSqrt (a * a) = a := by
  unfold searchSqrt
  rw [searchSqrt_fold]
  exact Nat.min_eq_right (Nat.le_mul_self a)

theorem sampleSqrt_mul_self (a : ℚ) : sampleSqrt (a * a) = |a| := by
  unfold sampleSqrt
  rw [Rat.mul_self_num, Rat.mul_self_den, Int.natAbs_mul, searchSqrt_mul_self,
    searchSqrt_mul_self, Rat.abs_def, Rat.divInt_eq_div]
  simp [Nat.cast_natAbs]

theorem abs_sub_wall (h a : ℚ) (ha : |a| < h) (h0 : a ≠ 0) :
    |a - h * (a / |a|)| = h - |a| := by
  rcases lt_or_gt_of_ne h0 with hn | hp
  · rw [abs_of_neg hn] at ha ⊢
    have hq : a / -a = -1 := by
      rw [div_neg, div_self h0]
    rw [hq, abs_of_nonneg (by linarith)]
    ring
  · rw [abs_of_pos hp] at ha ⊢
    rw [div_self h0, abs_of_nonpos (by linarith)]
    ring

theorem testBoundaryPoint_inside (vm : VectorMath) (bounds : ovrVector3f) (x y z : ℚ)
    (hsqrt : ∀ a : ℚ, vm.sqrt (a * a) = |a|) (htol : 0 ≤ vm.Tolerance)
    (hx : |x| < bounds.x / 2) (hz : |z| < bounds.z / 2) (hne : ¬ (x = 0 ∧ z = 0)) :
    (testBoundaryPoint vm bounds ⟨x, y, z⟩).ClosestDistance
        = (if |x| > |z| then bounds.x / 2 - |x| else bounds.z / 2 - |z|) ∧
      (testBoundaryPoint vm bounds ⟨x, y, z⟩).ClosestPoint
        = (if |x| > |z| then ⟨bounds.x / 2 * (x / |x|), y, z⟩
           else ⟨x, y, bounds.z / 2 * (z / |z|)⟩) := by
  have hx1 := abs_lt.mp hx
  have hz1 := abs_lt.mp hz
  have hclamp : Vector2f_Min (Vector2f_Max ⟨x, z⟩ ⟨-(bounds.x / 2), -(bounds.z / 2)⟩)
      ⟨bounds.x / 2, bounds.z / 2⟩ = ⟨x, z⟩ := by
    simp [Vector2f_Min, Vector2f_Max, hx1.1, hx1.2, hz1.1, hz1.2]
  have hcmp : Vector2f_Compare vm ⟨x, z⟩ ⟨x, z⟩ = true := by
    simp [Vector2f_Compare, htol]
  unfold testBoundaryPoint clampToBoundary
  simp only [hclamp, hcmp, if_true]
  by_cases h : |x| > |z|
  · have h0 : x ≠ 0 := by
      intro h0
      rw [h0, abs_zero] at h
      exact absurd h (not_lt.mpr (abs_nonneg z))
    simp only [if_pos h, Vector2f_Length, sub_self, mul_zero, add_zero, hsqrt]
    exact ⟨abs_sub_wall _ x hx h0, trivial⟩
  · have h0 : z ≠ 0 := by
      intro h0
      apply hne
      refine ⟨?_, h0⟩
      rw [h0, abs_zero] at h
      exact abs_eq_zero.mp (le_antisymm (not_lt.mp h) (abs_nonneg x))
    simp only [if_neg h, Vector2f_Length, sub_self, mul_zero, zero_add, hsqrt]
    exact ⟨abs_sub_wall _ z hz h0, trivial⟩

/-- C25, what the code does: when the runtime reports a `width × height` stage
rectangle and the query point `(x, y, z)` lies strictly inside it and not at the
centre, `ovr_TestBoundaryPoint` succeeds and picks the wall by comparing `|x|`
with `|z|`, not the two distances: `ClosestDistance` is `width / 2 - |x|` when
`|x| > |z|` and `height / 2 - |z|` otherwise, and `ClosestPoint` is the point
moved onto that wall.  On a square this is the distance to the boundary,
`min (hx - |x|) (hz - |z|)`; in general it is at least that.  The square root is
taken to be exact on squares and the tolerance of `Compare` not negative. -/
theorem ovr_TestBoundaryPoint_inside (env : Env) (x y z width height : ℚ)
    (boundaryType : Nat) (w : World)
    (hsqrt : ∀ a : ℚ, env.vmath.sqrt (a * a) = |a|) (htol : 0 ≤ env.vmath.Tolerance)
    (hbounds : env.xr.xrGetReferenceSpaceBoundsRect w.calls w.hmd.Session
      XR_REFERENCE_SPACE_TYPE_STAGE = (XR_SUCCESS, ⟨width, height⟩))
    (hx : |x| < width / 2) (hz : |z| < height / 2) (hne : ¬ (x = 0 ∧ z = 0)) :
    ∃ result,
      (ovr_TestBoundaryPoint env ovrSession.valid ⟨x, y, z⟩ boundaryType w).1 = ovrSuccess ∧
      (ovr_TestBoundaryPoint env ovrSession.valid ⟨x, y, z⟩ boundaryType w).2.1 = some result ∧
      result.ClosestDistance = (if |x| > |z| then width / 2 - |x| else height / 2 - |z|) ∧
      result.ClosestPoint = (if |x| > |z| then ⟨width / 2 * (x / |x|), y, z⟩
        else ⟨x, y, height / 2 * (z / |z|)⟩) ∧
      min (width / 2 - |x|) (height / 2 - |z|) ≤ result.ClosestDistance ∧
      (width = height →
        result.ClosestDistance = min (width / 2 - |x|) (height / 2 - |z|)) := by
  have hin := testBoundaryPoint_inside env.vmath ⟨width, 0, height⟩ x y z hsqrt htol hx hz hne
  have hnf : XR_FAILED XR_SUCCESS = false := rfl
  have hns : OVR_FAILURE ovrSuccess = false := rfl
  refine ⟨testBoundaryPoint env.vmath ⟨width, 0, height⟩ ⟨x, y, z⟩, ?_, ?_, hin.1, hin.2, ?_, ?_⟩
  · simp [ovr_TestBoundaryPoint, ovr_GetBoundaryDimensions, hbounds, hnf, hns]
  · simp [ovr_TestBoundaryPoint, ovr_GetBoundaryDimensions, hbounds, hnf, hns]
  · rw [hin.1]
    split_ifs
    · exact min_le_left _ _
    · exact min_le_right _ _
  · intro hsq
    rw [hin.1]
    subst hsq
    split_ifs with h
    · exact (min_eq_left (by linarith)).symm
    · exact (min_eq_right (by linarith [not_lt.mp h])).symm

/-- Witness for `ovr_TestBoundaryPoint_inside`, at the input on which C25
fails: in the `4 × 2` rectangle of the sample runtime the point `(1/2, 0, 2/5)`
is `3/5` from the nearest wall, and the code reports `3/2`, the distance to the
wall `x = 2`, with `ClosestPoint` on that wall. -/
theorem ovr_TestBoundaryPoint_inside_witness :
    (∃ result,
      (ovr_TestBoundaryPoint okEnv ovrSession.valid ⟨1 / 2, 0, 2 / 5⟩ 0 sampleWorld).2.1
        = some result ∧
      result.ClosestDistance = 3 / 2 ∧ result.ClosestPoint = ⟨2, 0, 2 / 5⟩) ∧
      min ((4 : ℚ) / 2 - |1 / 2|) (2 / 2 - |2 / 5|) = 3 / 5 := by
  obtain ⟨result, _, hres, hdist, hpoint, _, _⟩ :=
    ovr_TestBoundaryPoint_inside okEnv (1 / 2) 0 (2 / 5) 4 2 0 sampleWorld
      sampleSqrt_mul_self (le_refl 0) rfl (by norm_num [abs_of_pos])
      (by norm_num [abs_of_pos]) (by norm_num)
  refine ⟨⟨result, hres, ?_, ?_⟩, ?_⟩
  · rw [hdist]
    norm_num [abs_of_pos]
  · rw [hpoint]
    norm_num [abs_of_pos]
  · norm_num [abs_of_pos]

/-! ## Theorems: the origin composition law -/

end Revive
